import Mathlib

/-!
# vkreplay packet-replay engine: embedding and verified properties

Shallow embedding of `vktrace/src/vktrace_extensions/vktracevulkan/vkreplay/vkreplay_vkreplay.cpp`.

Conventions of the embedding.

* A Vulkan handle is a natural number, `VK_NULL_HANDLE` is `0`.
* `VkResult` is an integer carrying the values of `vulkan.h`.
* A C array reached through a pointer is a `List`; a nullable array pointer is an
  `Option (List _)`.  The element count travels in its own field, as in the C structs,
  and a loop `for (i = 0; i < count; i++) ... a[i] ...` visits `a.take count`.  For
  `count ≤ a.length` this is exactly the C loop; beyond the end of the array the C code
  has no defined behaviour.
* The `uint32_t` counts are natural numbers.  The only arithmetic the handlers do on them
  is `enabledLayerCount++` and `m_frameNumber++`, taken without wrap-around.
* Fields the handlers only copy (`sType`, `pNext`, flags, nested structs they never open)
  are opaque natural numbers.
* The driver (the function table `m_vkFuncs`) is a parameter: for each entry point a function
  giving the result and the output values.  Every handler returns, next to its C return
  value, what it passed to the driver (`none` when the driver was not called), the packet
  as it is left in memory and the replayer state afterwards.
* Scratch allocation succeeds, except in `manually_replay_vkQueuePresentKHR`, which tests
  its scratch pointers: there the outcome of each request is a parameter.
* A handler that can dereference the `end()` of `m_devicememorys` or a null pointer returns
  an `Option`: `none` stands for the execution without defined behaviour.
* Driver-visible memory is a function from live memory handle and byte offset to byte; a
  host pointer is a live memory handle with an offset.
* `vktrace_LogError` / `vktrace_LogWarning` append to an explicit log where a handler's log
  is embedded.
-/

namespace VkReplay

/-! ## Basic types -/

abbrev Handle := Nat

abbrev VK_NULL_HANDLE : Handle := 0

abbrev VkResult := Int

abbrev VK_SUCCESS : VkResult := 0
abbrev VK_NOT_READY : VkResult := 1
abbrev VK_ERROR_OUT_OF_HOST_MEMORY : VkResult := -1
abbrev VK_ERROR_DEVICE_LOST : VkResult := -4
abbrev VK_ERROR_OUT_OF_DATE_KHR : VkResult := -1000001004
abbrev VK_ERROR_VALIDATION_FAILED_EXT : VkResult := -1000011001

/-- Modelled from the spec: the per-call status of `vktrace_replay` (its enum declaration
is in a header outside the sources); the constructors keep the enum's names. -/
inductive VKTRACE_REPLAY_RESULT
  | VKTRACE_REPLAY_SUCCESS
  | VKTRACE_REPLAY_ERROR
  | VKTRACE_REPLAY_INVALID_ID
  | VKTRACE_REPLAY_BAD_RETURN
  | VKTRACE_REPLAY_CALL_ERROR
  | VKTRACE_REPLAY_INVALID_PARAMS
  | VKTRACE_REPLAY_VALIDATION_ERROR
  deriving DecidableEq, Repr

open VKTRACE_REPLAY_RESULT

inductive LogLevel
  | error
  | warning
  | verbose
  deriving DecidableEq, Repr

/-- One line of the log stream: the level and the format string of the call. -/
structure LogMsg where
  level : LogLevel
  fmt : String
  deriving DecidableEq, Repr

def vktrace_LogError (fmt : String) : LogMsg := ⟨LogLevel.error, fmt⟩

def vktrace_LogWarning (fmt : String) : LogMsg := ⟨LogLevel.warning, fmt⟩

/-- Number of error lines in a log. -/
def errorCount (log : List LogMsg) : Nat :=
  (log.filter (fun m => m.level = LogLevel.error)).length

/-! ## Handle map -/

/-- Modelled from the spec: one kind-specific table of the Handle Map (the object mapper
`m_objMapper` is declared in a generated header outside the sources).  Recorded handle to
live handle, at most one entry per recorded handle. -/
abbrev HandleMap := List (Handle × Handle)

/-- Modelled from the spec: `insert(recorded, live)` of the Handle Map, the
`add_to_<kind>_map` of the object mapper; a later insertion under the same recorded handle
replaces the entry. -/
def HandleMap.insert (m : HandleMap) (recorded live : Handle) : HandleMap :=
  (recorded, live) :: m.filter (fun p => p.1 != recorded)

/-- Modelled from the spec: `remove(recorded)` of the Handle Map, a no-op if absent. -/
def HandleMap.remove (m : HandleMap) (recorded : Handle) : HandleMap :=
  m.filter (fun p => p.1 != recorded)

/-- Modelled from the spec: `lookup(recorded)` of the Handle Map, the `remap_<kind>` of
the object mapper: the live handle, or the null handle if `recorded` is null, or the null
handle if unknown. -/
def HandleMap.lookup (m : HandleMap) (recorded : Handle) : Handle :=
  if recorded = VK_NULL_HANDLE then VK_NULL_HANDLE
  else match List.lookup recorded m with
    | some live => live
    | none => VK_NULL_HANDLE

/-- Presence of a recorded handle in a table. -/
def HandleMap.contains (m : HandleMap) (recorded : Handle) : Bool :=
  (List.lookup recorded m).isSome

/-! ## Memory allocation records -/

/-- A host pointer into driver memory: the live memory object it points into and the byte
offset inside it.  `vkMapMemory` hands out such a pointer for the start of the range it
maps. -/
structure HostPtr where
  mem : Handle
  offset : Nat
  deriving DecidableEq, Repr

/-- Driver-visible memory: the byte at each offset of each live memory object. -/
abbrev HostMemory := Handle → Nat → UInt8

/-- The effect of `memcpy(dst, src, src.length)` on driver-visible memory. -/
def HostMemory.memcpy (memory : HostMemory) (dst : HostPtr) (src : List UInt8) : HostMemory :=
  fun mem offset =>
    if mem = dst.mem ∧ dst.offset ≤ offset ∧ offset < dst.offset + src.length then
      src.getD (offset - dst.offset) 0
    else memory mem offset

/-- Modelled from the spec: the active mapping window of a memory allocation record,
`{offset, size, host pointer or shadow pointer}`; `pData` is `none` for the null pointer
of a window stashed while the allocation is pending. -/
structure MapRange where
  pData : Option HostPtr := none
  size : Nat := 0
  offset : Nat := 0
  pending : Bool := false
  deriving DecidableEq, Repr

/-- Modelled from the spec: the memory allocation record behind `gpuMemObj::pGpuMem` (class
`gpuMemory`, declared in a header outside the sources): allocation size, optional shadow
byte buffer, optional active mapping window and the pending-alloc flag. -/
structure gpuMemory where
  allocationSize : Nat := 0
  pendingAlloc : Bool := false
  window : Option MapRange := none
  shadow : Option (List UInt8) := none
  deriving DecidableEq, Repr

/-- Modelled from the spec: `gpuMemory::setAllocInfo(info, pendingAlloc)`, the record a
fresh allocation starts with. -/
def gpuMemory.setAllocInfo (allocationSize : Nat) (pendingAlloc : Bool) : gpuMemory :=
  { allocationSize := allocationSize, pendingAlloc := pendingAlloc }

/-- Modelled from the spec: `gpuMemory::isPendingAlloc()`. -/
def gpuMemory.isPendingAlloc (g : gpuMemory) : Bool := g.pendingAlloc

/-- Modelled from the spec: `gpuMemory::setMemoryMapRange(pData, size, offset, pending)`
records the window. -/
def gpuMemory.setMemoryMapRange (g : gpuMemory) (pData : Option HostPtr) (size offset : Nat)
    (pending : Bool) : gpuMemory :=
  { g with window := some { pData := pData, size := size, offset := offset, pending := pending } }

/-- Modelled from the spec: `gpuMemory::getMemoryMapSize()`, the size of the window. -/
def gpuMemory.getMemoryMapSize (g : gpuMemory) : Nat :=
  match g.window with
  | some w => w.size
  | none => 0

/-- Modelled from the spec: `gpuMemory::setMemoryDataAddr(pBuf)` retains the shadow buffer
the handler allocated (`size` zeroed bytes stand for the fresh buffer). -/
def gpuMemory.setMemoryDataAddr (g : gpuMemory) (size : Nat) : gpuMemory :=
  { g with shadow := some (List.replicate size 0) }

/-- Modelled from the spec: `gpuMemory::copyMappingData(pSrcData, true, 0, 0)`, the copy of
the whole window on unmap.  With an active non-pending window the recorded bytes, over the
size of the window, are copied into the host pointer and the window is closed; with a
pending window they are copied into the shadow buffer, which is retained with the window.
Without a window, or from a null source, nothing is copied. -/
def gpuMemory.copyMappingData (g : gpuMemory) (memory : HostMemory)
    (pSrcData : Option (List UInt8)) : gpuMemory × HostMemory :=
  match g.window, pSrcData with
  | some w, some src =>
    if w.pending then
      ({ g with shadow := some (src.take w.size) }, memory)
    else
      match w.pData with
      | some dst => ({ g with window := none }, memory.memcpy dst (src.take w.size))
      | none => ({ g with window := none }, memory)
  | _, _ => (g, memory)

/-- Modelled from the spec: an entry of the device-memory table (struct `gpuMemObj`, declared
outside the sources): the live memory handle and the allocation record, `none` for a null
`pGpuMem`. -/
structure gpuMemObj where
  replayGpuMem : Handle := 0
  pGpuMem : Option gpuMemory := none
  deriving DecidableEq, Repr

/-- The table `m_devicememorys` (a `std::map` from recorded memory handle to `gpuMemObj`). -/
abbrev MemoryMap := List (Handle × gpuMemObj)

/-- The access `m_devicememorys.find(recorded)`: the entry, `none` for `end()`. -/
def MemoryMap.find (m : MemoryMap) (recorded : Handle) : Option gpuMemObj :=
  List.lookup recorded m

/-- Modelled from the spec: `add_to_devicememorys_map(recorded, obj)`. -/
def MemoryMap.insert (m : MemoryMap) (recorded : Handle) (obj : gpuMemObj) : MemoryMap :=
  (recorded, obj) :: m.filter (fun p => p.1 != recorded)

/-- Modelled from the spec: `rm_from_devicememorys_map(recorded)`, a no-op if absent. -/
def MemoryMap.remove (m : MemoryMap) (recorded : Handle) : MemoryMap :=
  m.filter (fun p => p.1 != recorded)

/-- Modelled from the spec: `remap_devicememorys(recorded)`, the lookup of the Handle Map
on the device-memory kind: the live handle of the record, null for a null or unknown
recorded handle. -/
def MemoryMap.lookup (m : MemoryMap) (recorded : Handle) : Handle :=
  if recorded = VK_NULL_HANDLE then VK_NULL_HANDLE
  else match m.find recorded with
    | some obj => obj.replayGpuMem
    | none => VK_NULL_HANDLE

/-- One record of the validation message queue (`struct ValidationMsg`). -/
structure ValidationMsg where
  msgFlags : Nat := 0
  objType : Nat := 0
  srcObjectHandle : Nat := 0
  location : Nat := 0
  layerPrefix : String := ""
  msgCode : Int := 0
  msg : String := ""
  pUserData : Nat := 0
  deriving DecidableEq, Repr

/-- The object mapper: one table per object kind used by the handlers below, and the
adjust-for-GPU flag. -/
structure vkReplayObjMapper where
  m_instances : HandleMap := []
  m_physicaldevices : HandleMap := []
  m_devices : HandleMap := []
  m_queues : HandleMap := []
  m_commandbuffers : HandleMap := []
  m_fences : HandleMap := []
  m_semaphores : HandleMap := []
  m_events : HandleMap := []
  m_buffers : HandleMap := []
  m_images : HandleMap := []
  m_imageviews : HandleMap := []
  m_bufferviews : HandleMap := []
  m_samplers : HandleMap := []
  m_descriptorsets : HandleMap := []
  m_renderpasss : HandleMap := []
  m_framebuffers : HandleMap := []
  m_swapchainkhrs : HandleMap := []
  m_surfacekhrs : HandleMap := []
  m_descriptorpools : HandleMap := []
  m_descriptorsetlayouts : HandleMap := []
  m_debugreportcallbackexts : HandleMap := []
  m_shadermodules : HandleMap := []
  m_pipelinelayouts : HandleMap := []
  m_pipelinecaches : HandleMap := []
  m_pipelines : HandleMap := []
  m_devicememorys : MemoryMap := []
  m_adjustForGPU : Bool := false
  deriving DecidableEq, Repr

/-- The replay settings object `g_pReplaySettings`. -/
structure vkreplayer_settings where
  screenshotList : Option String := none
  deriving DecidableEq, Repr

/-- The replayer object: `m_display->m_initedVK`, the object mapper, the frame counter and
the validation message queue. -/
structure vkReplay where
  m_initedVK : Bool := false
  m_objMapper : vkReplayObjMapper := {}
  m_frameNumber : Nat := 0
  m_validationMsgs : List ValidationMsg := []
  deriving DecidableEq, Repr

/-! ## handle_replay_errors -/

/-- Embedding of `vkReplay::handle_replay_errors`: the returned status and the lines logged. -/
def handle_replay_errors (entrypointName : String) (resCall resTrace : VkResult)
    (resIn : VKTRACE_REPLAY_RESULT) : VKTRACE_REPLAY_RESULT × List LogMsg :=
  let res := resIn
  let (res, log) :=
    if resCall ≠ resTrace then
      (VKTRACE_REPLAY_BAD_RETURN,
        [vktrace_LogError
          "Return value %s from API call (%s) does not match return value from trace file %s."])
    else (res, [])
  let log :=
    if resCall ≠ VK_SUCCESS ∧ resCall ≠ VK_NOT_READY then
      log ++ [vktrace_LogWarning "API call (%s) returned failed result %s"]
    else log
  (res, log)

/-! ## Instance and device creation -/

/-- Build platform of the replayer (`#if defined PLATFORM_LINUX`). -/
inductive Platform
  | linux
  | windows
  deriving DecidableEq, Repr

def VK_KHR_XCB_SURFACE_EXTENSION_NAME : String := "VK_KHR_xcb_surface"

def VK_KHR_WIN32_SURFACE_EXTENSION_NAME : String := "VK_KHR_win32_surface"

/-- The identifier `strScreenShot` of both creation handlers. -/
def strScreenShot : String := "VK_LAYER_LUNARG_screenshot"

structure VkInstanceCreateInfo where
  sType : Nat := 1
  pNext : Nat := 0
  flags : Nat := 0
  pApplicationInfo : Nat := 0
  enabledLayerCount : Nat := 0
  ppEnabledLayerNames : List String := []
  enabledExtensionCount : Nat := 0
  ppEnabledExtensionNames : List String := []
  deriving DecidableEq, Repr

structure packet_vkCreateInstance where
  pCreateInfo : VkInstanceCreateInfo := {}
  /-- The recorded handle `*(pPacket->pInstance)`. -/
  pInstance : Handle := 0
  result : VkResult := 0
  deriving DecidableEq, Repr

structure VkDeviceCreateInfo where
  sType : Nat := 3
  pNext : Nat := 0
  flags : Nat := 0
  queueCreateInfoCount : Nat := 0
  pQueueCreateInfos : Nat := 0
  enabledLayerCount : Nat := 0
  ppEnabledLayerNames : List String := []
  enabledExtensionCount : Nat := 0
  ppEnabledExtensionNames : List String := []
  pEnabledFeatures : Nat := 0
  deriving DecidableEq, Repr

structure packet_vkCreateDevice where
  physicalDevice : Handle := 0
  pCreateInfo : VkDeviceCreateInfo := {}
  /-- The recorded handle `*(pPacket->pDevice)`. -/
  pDevice : Handle := 0
  result : VkResult := 0
  deriving DecidableEq, Repr

/-- The driver entry points the creation handlers use.  The two enumeration entries give
the `layerName` of every `VkLayerProperties` the host reports. -/
structure InstanceDriver where
  real_vkEnumerateInstanceLayerProperties : List String
  real_vkCreateInstance : VkInstanceCreateInfo → VkResult × Handle
  real_vkEnumerateDeviceLayerProperties : Handle → List String
  real_vkCreateDevice : Handle → VkDeviceCreateInfo → VkResult × Handle

/-- The screenshot-layer block shared, line for line, by `manually_replay_vkCreateInstance`
and `manually_replay_vkCreateDevice`: from the setting, the layers the host enumerates and
the recorded `(enabledLayerCount, ppEnabledLayerNames)`, the scratch array
`ppEnabledLayerNames` when one is allocated (`none` stands for the `NULL` it is
initialised to). -/
def screenshotLayerScratch (screenshotList : Option String) (hostLayers : List String)
    (enabledLayerCount : Nat) (ppEnabledLayerNames : List String) : Option (List String) :=
  if screenshotList.isSome then
    -- enable screenshot layer if it is available and not already in list
    let found_ss := (ppEnabledLayerNames.take enabledLayerCount).any (fun s => s == strScreenShot)
    if !found_ss then
      -- query to find if ScreenShot layer is available
      let found_ss := hostLayers.any (fun s => s == strScreenShot)
      if found_ss then
        some (ppEnabledLayerNames.take enabledLayerCount ++ [strScreenShot])
      else none
    else none
  else none

/-- The extension the replay platform pushes first into `extension_names`. -/
def hostSurfaceExtension : Platform → String
  | Platform.linux => VK_KHR_XCB_SURFACE_EXTENSION_NAME
  | Platform.windows => VK_KHR_WIN32_SURFACE_EXTENSION_NAME

/-- The `outlist` of extensions dropped on the replay platform. -/
def outlist : Platform → List String
  | Platform.linux => ["VK_KHR_win32_surface"]
  | Platform.windows =>
      ["VK_KHR_xlib_surface", "VK_KHR_xcb_surface", "VK_KHR_wayland_surface",
       "VK_KHR_mir_surface"]

/-- The vector `extension_names` built by `manually_replay_vkCreateInstance`. -/
def extension_names (platform : Platform) (enabledExtensionCount : Nat)
    (ppEnabledExtensionNames : List String) : List String :=
  hostSurfaceExtension platform ::
    (ppEnabledExtensionNames.take enabledExtensionCount).filter
      (fun e => !(outlist platform).contains e)

/-- What `manually_replay_vkCreateInstance` leaves behind. -/
structure CreateInstanceOutcome where
  replayResult : VkResult
  /-- The create-info as `real_vkCreateInstance` received it. -/
  driverSaw : Option VkInstanceCreateInfo
  /-- The handle the driver wrote to `inst`. -/
  driverHandle : Option Handle
  pPacket : packet_vkCreateInstance
  self : vkReplay
  deriving DecidableEq, Repr

/-- Embedding of `vkReplay::manually_replay_vkCreateInstance`. -/
def manually_replay_vkCreateInstance (platform : Platform) (drv : InstanceDriver)
    (g_pReplaySettings : vkreplayer_settings) (self : vkReplay)
    (pPacket : packet_vkCreateInstance) : CreateInstanceOutcome :=
  let replayResult := VK_ERROR_VALIDATION_FAILED_EXT
  if !self.m_initedVK then
    let pCreateInfo := pPacket.pCreateInfo
    let ppEnabledLayerNames := screenshotLayerScratch g_pReplaySettings.screenshotList
      drv.real_vkEnumerateInstanceLayerProperties pCreateInfo.enabledLayerCount
      pCreateInfo.ppEnabledLayerNames
    let saved_ppLayers := pCreateInfo.ppEnabledLayerNames
    -- strcpy(ppEnabledLayerNames[pCreateInfo->enabledLayerCount++], strScreenShot)
    let pCreateInfo := match ppEnabledLayerNames with
      | some scratch => { pCreateInfo with
          enabledLayerCount := pCreateInfo.enabledLayerCount + 1
          ppEnabledLayerNames := scratch }
      | none => pCreateInfo
    let saved_ppExtensions := pCreateInfo.ppEnabledExtensionNames
    let savedExtensionCount := pCreateInfo.enabledExtensionCount
    let names := extension_names platform pCreateInfo.enabledExtensionCount
      pCreateInfo.ppEnabledExtensionNames
    let pCreateInfo := { pCreateInfo with
      ppEnabledExtensionNames := names
      enabledExtensionCount := names.length }
    let (replayResult, inst) := drv.real_vkCreateInstance pCreateInfo
    let driverSaw := pCreateInfo
    let pCreateInfo := { pCreateInfo with
      ppEnabledExtensionNames := saved_ppExtensions
      enabledExtensionCount := savedExtensionCount }
    -- restore the packets CreateInfo struct
    let pCreateInfo := match ppEnabledLayerNames with
      | some _ => { pCreateInfo with ppEnabledLayerNames := saved_ppLayers }
      | none => pCreateInfo
    let self :=
      if replayResult = VK_SUCCESS then
        { self with m_objMapper := { self.m_objMapper with
            m_instances := self.m_objMapper.m_instances.insert pPacket.pInstance inst } }
      else self
    { replayResult := replayResult, driverSaw := some driverSaw, driverHandle := some inst,
      pPacket := { pPacket with pCreateInfo := pCreateInfo }, self := self }
  else
    { replayResult := replayResult, driverSaw := none, driverHandle := none,
      pPacket := pPacket, self := self }

/-- What `manually_replay_vkCreateDevice` leaves behind. -/
structure CreateDeviceOutcome where
  replayResult : VkResult
  /-- The physical device and create-info as `real_vkCreateDevice` received them. -/
  driverSaw : Option (Handle × VkDeviceCreateInfo)
  /-- The handle the driver wrote to `device`. -/
  driverHandle : Option Handle
  pPacket : packet_vkCreateDevice
  self : vkReplay
  deriving DecidableEq, Repr

/-- Embedding of `vkReplay::manually_replay_vkCreateDevice`. -/
def manually_replay_vkCreateDevice (drv : InstanceDriver)
    (g_pReplaySettings : vkreplayer_settings) (self : vkReplay)
    (pPacket : packet_vkCreateDevice) : CreateDeviceOutcome :=
  let replayResult := VK_ERROR_VALIDATION_FAILED_EXT
  if !self.m_initedVK then
    let remappedPhysicalDevice := self.m_objMapper.m_physicaldevices.lookup pPacket.physicalDevice
    if remappedPhysicalDevice = VK_NULL_HANDLE then
      { replayResult := VK_ERROR_VALIDATION_FAILED_EXT, driverSaw := none,
        driverHandle := none, pPacket := pPacket, self := self }
    else
      let pCreateInfo := pPacket.pCreateInfo
      let ppEnabledLayerNames := screenshotLayerScratch g_pReplaySettings.screenshotList
        (drv.real_vkEnumerateDeviceLayerProperties remappedPhysicalDevice)
        pCreateInfo.enabledLayerCount pCreateInfo.ppEnabledLayerNames
      let saved_ppLayers := pCreateInfo.ppEnabledLayerNames
      let pCreateInfo := match ppEnabledLayerNames with
        | some scratch => { pCreateInfo with
            enabledLayerCount := pCreateInfo.enabledLayerCount + 1
            ppEnabledLayerNames := scratch }
        | none => pCreateInfo
      let (replayResult, device) := drv.real_vkCreateDevice remappedPhysicalDevice pCreateInfo
      let driverSaw := (remappedPhysicalDevice, pCreateInfo)
      -- restore the packets CreateInfo struct
      let pCreateInfo := match ppEnabledLayerNames with
        | some _ => { pCreateInfo with ppEnabledLayerNames := saved_ppLayers }
        | none => pCreateInfo
      let self :=
        if replayResult = VK_SUCCESS then
          { self with m_objMapper := { self.m_objMapper with
              m_devices := self.m_objMapper.m_devices.insert pPacket.pDevice device } }
        else self
      { replayResult := replayResult, driverSaw := some driverSaw, driverHandle := some device,
        pPacket := { pPacket with pCreateInfo := pCreateInfo }, self := self }
  else
    { replayResult := replayResult, driverSaw := none, driverHandle := none,
      pPacket := pPacket, self := self }

/-- The layer list a create-info denotes: the first `enabledLayerCount` entries of the
array behind `ppEnabledLayerNames`. -/
def enabledLayers (count : Nat) (names : List String) : List String := names.take count

/-! ## Framebuffer creation -/

structure VkFramebufferCreateInfo where
  sType : Nat := 37
  pNext : Nat := 0
  flags : Nat := 0
  renderPass : Handle := 0
  attachmentCount : Nat := 0
  pAttachments : Option (List Handle) := none
  width : Nat := 0
  height : Nat := 0
  layers : Nat := 0
  deriving DecidableEq, Repr

structure packet_vkCreateFramebuffer where
  device : Handle := 0
  pCreateInfo : VkFramebufferCreateInfo := {}
  /-- The recorded handle `*(pPacket->pFramebuffer)`. -/
  pFramebuffer : Handle := 0
  result : VkResult := 0
  deriving DecidableEq, Repr

/-- What `manually_replay_vkCreateFramebuffer` leaves behind. -/
structure CreateFramebufferOutcome where
  replayResult : VkResult
  /-- The device and create-info as `real_vkCreateFramebuffer` received them. -/
  driverSaw : Option (Handle × VkFramebufferCreateInfo)
  /-- The handle the driver wrote to `local_framebuffer`. -/
  driverHandle : Option Handle
  pPacket : packet_vkCreateFramebuffer
  self : vkReplay
  deriving DecidableEq, Repr

/-- Embedding of `vkReplay::manually_replay_vkCreateFramebuffer`. -/
def manually_replay_vkCreateFramebuffer
    (real_vkCreateFramebuffer : Handle → VkFramebufferCreateInfo → VkResult × Handle)
    (self : vkReplay) (pPacket : packet_vkCreateFramebuffer) : CreateFramebufferOutcome :=
  let remappedDevice := self.m_objMapper.m_devices.lookup pPacket.device
  if remappedDevice = VK_NULL_HANDLE then
    { replayResult := VK_ERROR_VALIDATION_FAILED_EXT, driverSaw := none, driverHandle := none,
      pPacket := pPacket, self := self }
  else
    let pInfo := pPacket.pCreateInfo
    let pSavedAttachments := pInfo.pAttachments
    let pInfo := match pSavedAttachments with
      | some saved =>
          let pAttachments := (saved.take pInfo.attachmentCount).map
            (fun a => self.m_objMapper.m_imageviews.lookup a)
          { pInfo with pAttachments := some pAttachments }
      | none => pInfo
    let savedRP := pInfo.renderPass
    let pInfo := { pInfo with renderPass := self.m_objMapper.m_renderpasss.lookup savedRP }
    let (replayResult, local_framebuffer) := real_vkCreateFramebuffer remappedDevice pInfo
    let driverSaw := (remappedDevice, pInfo)
    let pInfo := { pInfo with pAttachments := pSavedAttachments, renderPass := savedRP }
    let self :=
      if replayResult = VK_SUCCESS then
        { self with m_objMapper := { self.m_objMapper with
            m_framebuffers :=
              self.m_objMapper.m_framebuffers.insert pPacket.pFramebuffer local_framebuffer } }
      else self
    { replayResult := replayResult, driverSaw := some driverSaw,
      driverHandle := some local_framebuffer,
      pPacket := { pPacket with pCreateInfo := pInfo }, self := self }

/-! ## Queue submit -/

structure VkSubmitInfo where
  sType : Nat := 4
  pNext : Nat := 0
  waitSemaphoreCount : Nat := 0
  pWaitSemaphores : Option (List Handle) := none
  pWaitDstStageMask : Nat := 0
  commandBufferCount : Nat := 0
  pCommandBuffers : Option (List Handle) := none
  signalSemaphoreCount : Nat := 0
  pSignalSemaphores : Option (List Handle) := none
  deriving DecidableEq, Repr

structure packet_vkQueueSubmit where
  queue : Handle := 0
  submitCount : Nat := 0
  pSubmits : List VkSubmitInfo := []
  fence : Handle := 0
  result : VkResult := 0
  deriving DecidableEq, Repr

/-- The inner loops of `manually_replay_vkQueueSubmit`,
`for (i = 0; i < count; i++) { dst[i] = remap(src[i]); if (dst[i] == VK_NULL_HANDLE) return; }`,
over the entries visited: the scratch array once filled, `none` when the loop returns from
the handler. -/
def remapOrReturn (m : HandleMap) : List Handle → Option (List Handle)
  | [] => some []
  | h :: rest =>
    if m.lookup h = VK_NULL_HANDLE then none
    else match remapOrReturn m rest with
      | some live => some (m.lookup h :: live)
      | none => none

/-- One iteration of the `submit_idx` loop: the filled `remappedSubmits[submit_idx]`, or
`none` when one of its three inner loops returns from the handler. -/
def remapSubmit (om : vkReplayObjMapper) (submit : VkSubmitInfo) : Option VkSubmitInfo :=
  -- memset(remappedSubmit, 0, sizeof(VkSubmitInfo)) and the three copied fields
  let remappedSubmit : VkSubmitInfo :=
    { sType := submit.sType, pNext := submit.pNext, waitSemaphoreCount := 0,
      pWaitSemaphores := none, pWaitDstStageMask := submit.pWaitDstStageMask,
      commandBufferCount := 0, pCommandBuffers := none, signalSemaphoreCount := 0,
      pSignalSemaphores := none }
  let afterBuffers : Option VkSubmitInfo :=
    match submit.pCommandBuffers with
    | some bufs =>
      match remapOrReturn om.m_commandbuffers (bufs.take submit.commandBufferCount) with
      | some pRemappedBuffers =>
        some { remappedSubmit with
          pCommandBuffers := some pRemappedBuffers
          commandBufferCount := submit.commandBufferCount }
      | none => none
    | none => some remappedSubmit
  match afterBuffers with
  | none => none
  | some remappedSubmit =>
    let afterWait : Option VkSubmitInfo :=
      match submit.pWaitSemaphores with
      | some sems =>
        match remapOrReturn om.m_semaphores (sems.take submit.waitSemaphoreCount) with
        | some pRemappedWaitSems =>
          some { remappedSubmit with
            pWaitSemaphores := some pRemappedWaitSems
            waitSemaphoreCount := submit.waitSemaphoreCount }
        | none => none
      | none => some remappedSubmit
    match afterWait with
    | none => none
    | some remappedSubmit =>
      match submit.pSignalSemaphores with
      | some sems =>
        match remapOrReturn om.m_semaphores (sems.take submit.signalSemaphoreCount) with
        | some pRemappedSignalSems =>
          some { remappedSubmit with
            pSignalSemaphores := some pRemappedSignalSems
            signalSemaphoreCount := submit.signalSemaphoreCount }
        | none => none
      | none => some remappedSubmit

/-- The `submit_idx` loop over the submits visited: the filled array `remappedSubmits`, or
`none` when an iteration returns from the handler. -/
def remapSubmits (om : vkReplayObjMapper) : List VkSubmitInfo → Option (List VkSubmitInfo)
  | [] => some []
  | submit :: rest =>
    match remapSubmit om submit with
    | none => none
    | some remappedSubmit =>
      match remapSubmits om rest with
      | some remapped => some (remappedSubmit :: remapped)
      | none => none

/-- The arguments of one `real_vkQueueSubmit` call. -/
structure QueueSubmitCall where
  queue : Handle
  submitCount : Nat
  pSubmits : List VkSubmitInfo
  fence : Handle
  deriving DecidableEq, Repr

/-- What `manually_replay_vkQueueSubmit` leaves behind. -/
structure QueueSubmitOutcome where
  replayResult : VkResult
  /-- The arguments `real_vkQueueSubmit` received, `none` when it was not invoked. -/
  driverSaw : Option QueueSubmitCall
  deriving DecidableEq, Repr

/-- Embedding of `vkReplay::manually_replay_vkQueueSubmit`. -/
def manually_replay_vkQueueSubmit (real_vkQueueSubmit : QueueSubmitCall → VkResult)
    (self : vkReplay) (pPacket : packet_vkQueueSubmit) : QueueSubmitOutcome :=
  let replayResult := VK_ERROR_VALIDATION_FAILED_EXT
  let remappedQueue := self.m_objMapper.m_queues.lookup pPacket.queue
  if remappedQueue = VK_NULL_HANDLE then
    { replayResult := VK_ERROR_VALIDATION_FAILED_EXT, driverSaw := none }
  else
    let remappedFence := self.m_objMapper.m_fences.lookup pPacket.fence
    if pPacket.fence ≠ VK_NULL_HANDLE ∧ remappedFence = VK_NULL_HANDLE then
      { replayResult := VK_ERROR_VALIDATION_FAILED_EXT, driverSaw := none }
    else
      match remapSubmits self.m_objMapper (pPacket.pSubmits.take pPacket.submitCount) with
      | none => { replayResult := replayResult, driverSaw := none }
      | some remappedSubmits =>
        let call : QueueSubmitCall :=
          { queue := remappedQueue, submitCount := pPacket.submitCount,
            pSubmits := remappedSubmits, fence := remappedFence }
        { replayResult := real_vkQueueSubmit call, driverSaw := some call }

/-! ## Command-buffer wait events -/

structure VkBufferMemoryBarrier where
  sType : Nat := 44
  pNext : Nat := 0
  srcAccessMask : Nat := 0
  dstAccessMask : Nat := 0
  srcQueueFamilyIndex : Nat := 0
  dstQueueFamilyIndex : Nat := 0
  buffer : Handle := 0
  offset : Nat := 0
  size : Nat := 0
  deriving DecidableEq, Repr

structure VkImageMemoryBarrier where
  sType : Nat := 45
  pNext : Nat := 0
  srcAccessMask : Nat := 0
  dstAccessMask : Nat := 0
  oldLayout : Nat := 0
  newLayout : Nat := 0
  srcQueueFamilyIndex : Nat := 0
  dstQueueFamilyIndex : Nat := 0
  image : Handle := 0
  subresourceRange : Nat := 0
  deriving DecidableEq, Repr

structure packet_vkCmdWaitEvents where
  commandBuffer : Handle := 0
  eventCount : Nat := 0
  pEvents : List Handle := []
  srcStageMask : Nat := 0
  dstStageMask : Nat := 0
  memoryBarrierCount : Nat := 0
  pMemoryBarriers : List Nat := []
  bufferMemoryBarrierCount : Nat := 0
  pBufferMemoryBarriers : List VkBufferMemoryBarrier := []
  imageMemoryBarrierCount : Nat := 0
  pImageMemoryBarriers : List VkImageMemoryBarrier := []
  deriving DecidableEq, Repr

/-- An in-place loop `for (idx = 0; idx < count; idx++) a[idx] = f(a[idx]);`. -/
def rewriteFirst {α : Type} (f : α → α) (count : Nat) (a : List α) : List α :=
  (a.take count).map f ++ a.drop count

/-- An in-place loop `for (idx = 0; idx < count; idx++) a[idx].field = save[idx];`, with
`put x h` standing for the assignment of `h` to the field of `x`.  The loop is followed as
long as both arrays have an entry at `idx`; a handler whose `count` can exceed the number
of entries saved tests that before it uses this loop. -/
def restoreFirst {α : Type} (put : α → Handle → α) : Nat → List α → List Handle → List α
  | count + 1, x :: a, h :: save => put x h :: restoreFirst put count a save
  | _, a, _ => a

/-- What `manually_replay_vkCmdWaitEvents` leaves behind. -/
structure CmdWaitEventsOutcome where
  /-- The remapped command buffer and the packet arrays as they stand in memory when
  `real_vkCmdWaitEvents` is called; `none` when it is not called. -/
  driverSaw : Option (Handle × packet_vkCmdWaitEvents)
  pPacket : packet_vkCmdWaitEvents
  log : List LogMsg
  deriving DecidableEq, Repr

/-- Embedding of `vkReplay::manually_replay_vkCmdWaitEvents`.  The restore loop of the
image barriers runs over `idx < memoryBarrierCount` and reads `saveImg[idx]`, an array of
`imageMemoryBarrierCount` entries: with `memoryBarrierCount > imageMemoryBarrierCount` it
reads past the end of `saveImg` and writes `pImageMemoryBarriers[idx]` past the barriers
saved, which has no defined outcome (`none`). -/
def manually_replay_vkCmdWaitEvents (self : vkReplay) (pPacket : packet_vkCmdWaitEvents) :
    Option CmdWaitEventsOutcome :=
  let remappedCommandBuffer := self.m_objMapper.m_commandbuffers.lookup pPacket.commandBuffer
  if remappedCommandBuffer = VK_NULL_HANDLE then
    some
      { driverSaw := none, pPacket := pPacket,
        log := [vktrace_LogError
          "Skipping vkCmdWaitEvents() due to invalid remapped VkCommandBuffer."] }
  else
    let saveEvent := pPacket.pEvents.take pPacket.eventCount
    let pPacket := { pPacket with
      pEvents := rewriteFirst (fun e => self.m_objMapper.m_events.lookup e)
        pPacket.eventCount pPacket.pEvents }
    let saveBuf := (pPacket.pBufferMemoryBarriers.take pPacket.bufferMemoryBarrierCount).map
      (fun b => b.buffer)
    let pPacket := { pPacket with
      pBufferMemoryBarriers := rewriteFirst
        (fun b => { b with buffer := self.m_objMapper.m_buffers.lookup b.buffer })
        pPacket.bufferMemoryBarrierCount pPacket.pBufferMemoryBarriers }
    let saveImg := (pPacket.pImageMemoryBarriers.take pPacket.imageMemoryBarrierCount).map
      (fun b => b.image)
    let pPacket := { pPacket with
      pImageMemoryBarriers := rewriteFirst
        (fun b => { b with image := self.m_objMapper.m_images.lookup b.image })
        pPacket.imageMemoryBarrierCount pPacket.pImageMemoryBarriers }
    let driverSaw := (remappedCommandBuffer, pPacket)
    let pPacket := { pPacket with
      pBufferMemoryBarriers := restoreFirst (fun b h => { b with buffer := h })
        pPacket.bufferMemoryBarrierCount pPacket.pBufferMemoryBarriers saveBuf }
    -- for (idx = 0; idx < pPacket->memoryBarrierCount; idx++) ... pNextImg->image = saveImg[idx]
    if (pPacket.imageMemoryBarrierCount : Nat) < (pPacket.memoryBarrierCount : Nat) then
      -- saveImg[imageMemoryBarrierCount] is read: past the end of the array
      none
    else
      let pPacket := { pPacket with
        pImageMemoryBarriers := restoreFirst (fun b h => { b with image := h })
          pPacket.memoryBarrierCount pPacket.pImageMemoryBarriers saveImg }
      let pPacket := { pPacket with
        pEvents := restoreFirst (fun _ h => h) pPacket.eventCount pPacket.pEvents saveEvent }
      some { driverSaw := some driverSaw, pPacket := pPacket, log := [] }

/-! ## Swapchain present -/

structure VkPresentInfoKHR where
  sType : Nat := 1000001001
  pNext : Nat := 0
  waitSemaphoreCount : Nat := 0
  pWaitSemaphores : List Handle := []
  swapchainCount : Nat := 0
  pSwapchains : List Handle := []
  pImageIndices : List Nat := []
  pResults : Option (List VkResult) := none
  deriving DecidableEq, Repr

structure packet_vkQueuePresentKHR where
  queue : Handle := 0
  pPresentInfo : VkPresentInfoKHR := {}
  result : VkResult := 0
  deriving DecidableEq, Repr

/-- Whether each of the three `VKTRACE_NEW_ARRAY` requests of
`manually_replay_vkQueuePresentKHR` returns a non-null pointer. -/
structure PresentScratch where
  swapchains : Bool := true
  results : Bool := true
  waitSems : Bool := true
  deriving DecidableEq, Repr

/-- The local `present` as `real_vkQueuePresentKHR` receives it, with the remapped queue.
`pResults` is an output array: the call records whether the pointer is non-null. -/
structure PresentCall where
  queue : Handle
  sType : Nat
  pNext : Nat
  swapchainCount : Nat
  pSwapchains : List Handle
  pImageIndices : List Nat
  waitSemaphoreCount : Nat
  pWaitSemaphores : Option (List Handle)
  pResultsNonNull : Bool
  deriving DecidableEq, Repr

/-- The comparison loop of `manually_replay_vkQueuePresentKHR`,
`for (i = 0; i < swapchainCount; i++) if (present.pResults[i] != pPresentInfo->pResults[i])
vktrace_LogError(...)`, from index `i` on over the recorded entries still to visit; `live`
gives the content of `present.pResults` after the driver call. -/
def comparePresentResults (live : Nat → VkResult) : Nat → List VkResult → List LogMsg
  | _, [] => []
  | i, recorded :: rest =>
    (if live i ≠ recorded then
      [vktrace_LogError
        "Return value %s from API call (VkQueuePresentKHR) does not match return value from trace file %s for swapchain %d."]
     else []) ++ comparePresentResults live (i + 1) rest

/-- What `manually_replay_vkQueuePresentKHR` leaves behind. -/
structure QueuePresentOutcome where
  replayResult : VkResult
  driverSaw : Option PresentCall
  self : vkReplay
  log : List LogMsg
  deriving DecidableEq, Repr

/-- Embedding of `vkReplay::manually_replay_vkQueuePresentKHR`.  The driver entry gives its return value
and the content of the `pResults` array after the call. -/
def manually_replay_vkQueuePresentKHR
    (real_vkQueuePresentKHR : PresentCall → VkResult × (Nat → VkResult))
    (scratch : PresentScratch) (self : vkReplay) (pPacket : packet_vkQueuePresentKHR) :
    QueuePresentOutcome :=
  let replayResult := VK_SUCCESS
  let remappedQueue := self.m_objMapper.m_queues.lookup pPacket.queue
  let info := pPacket.pPresentInfo
  -- the three pointers start at the local arrays of five entries
  let pRemappedSwapchainsNull := decide (info.swapchainCount > 5) && !scratch.swapchains
  let pResultsNull :=
    (decide (info.swapchainCount > 5) && info.pResults.isSome) && !scratch.results
  let pRemappedWaitSemsNull := decide (info.waitSemaphoreCount > 5) && !scratch.waitSems
  let replayResult :=
    if pRemappedSwapchainsNull || pRemappedWaitSemsNull || pResultsNull then
      VK_ERROR_OUT_OF_HOST_MEMORY
    else replayResult
  if replayResult = VK_SUCCESS then
    let pRemappedSwapchains := (info.pSwapchains.take info.swapchainCount).map
      (fun sc => self.m_objMapper.m_swapchainkhrs.lookup sc)
    let remappedWait : Option (Option (List Handle)) :=
      if info.waitSemaphoreCount ≠ 0 then
        match remapOrReturn self.m_objMapper.m_semaphores
            (info.pWaitSemaphores.take info.waitSemaphoreCount) with
        | some pRemappedWaitSems => some (some pRemappedWaitSems)
        | none => none
      else some none
    match remappedWait with
    | none =>
      -- replayResult = VK_ERROR_VALIDATION_FAILED_EXT; break;
      { replayResult := VK_ERROR_VALIDATION_FAILED_EXT, driverSaw := none, self := self,
        log := [] }
    | some pWaitSemaphores =>
      let present : PresentCall :=
        { queue := remappedQueue, sType := info.sType, pNext := info.pNext,
          swapchainCount := info.swapchainCount, pSwapchains := pRemappedSwapchains,
          pImageIndices := info.pImageIndices, waitSemaphoreCount := info.waitSemaphoreCount,
          pWaitSemaphores := pWaitSemaphores, pResultsNonNull := info.pResults.isSome }
      let (replayResult, live) := real_vkQueuePresentKHR present
      let self := { self with m_frameNumber := self.m_frameNumber + 1 }
      let log := match info.pResults with
        | some recorded => comparePresentResults live 0 (recorded.take info.swapchainCount)
        | none => []
      { replayResult := replayResult, driverSaw := some present, self := self, log := log }
  else
    { replayResult := replayResult, driverSaw := none, self := self, log := [] }

/-- The out-of-memory outcome of `manually_replay_vkQueuePresentKHR` in the claim's words:
one of the scratch arrays the handler requests comes back null. -/
def presentOutOfMemory (scratch : PresentScratch) (info : VkPresentInfoKHR) : Prop :=
  (5 < info.swapchainCount ∧ scratch.swapchains = false) ∨
  (5 < info.swapchainCount ∧ info.pResults ≠ none ∧ scratch.results = false) ∨
  (5 < info.waitSemaphoreCount ∧ scratch.waitSems = false)

/-- The unmapped-wait-semaphore outcome in the claim's words: the packet has wait
semaphores and one of those visited has a null lookup. -/
def presentWaitUnmapped (om : vkReplayObjMapper) (info : VkPresentInfoKHR) : Prop :=
  info.waitSemaphoreCount ≠ 0 ∧
    ∃ h ∈ info.pWaitSemaphores.take info.waitSemaphoreCount,
      om.m_semaphores.lookup h = VK_NULL_HANDLE

/-! ## Descriptor-set updates -/

/-- The enum `VkDescriptorType`; `other` stands for any value outside the eleven enumerators (the
`default:` arm of the handler's switch). -/
inductive VkDescriptorType
  | VK_DESCRIPTOR_TYPE_SAMPLER
  | VK_DESCRIPTOR_TYPE_COMBINED_IMAGE_SAMPLER
  | VK_DESCRIPTOR_TYPE_SAMPLED_IMAGE
  | VK_DESCRIPTOR_TYPE_STORAGE_IMAGE
  | VK_DESCRIPTOR_TYPE_UNIFORM_TEXEL_BUFFER
  | VK_DESCRIPTOR_TYPE_STORAGE_TEXEL_BUFFER
  | VK_DESCRIPTOR_TYPE_UNIFORM_BUFFER
  | VK_DESCRIPTOR_TYPE_STORAGE_BUFFER
  | VK_DESCRIPTOR_TYPE_UNIFORM_BUFFER_DYNAMIC
  | VK_DESCRIPTOR_TYPE_STORAGE_BUFFER_DYNAMIC
  | VK_DESCRIPTOR_TYPE_INPUT_ATTACHMENT
  | other (value : Nat)
  deriving DecidableEq, Repr

open VkDescriptorType

structure VkDescriptorImageInfo where
  sampler : Handle := 0
  imageView : Handle := 0
  imageLayout : Nat := 0
  deriving DecidableEq, Repr

structure VkDescriptorBufferInfo where
  buffer : Handle := 0
  offset : Nat := 0
  range : Nat := 0
  deriving DecidableEq, Repr

structure VkWriteDescriptorSet where
  sType : Nat := 35
  pNext : Nat := 0
  dstSet : Handle := 0
  dstBinding : Nat := 0
  dstArrayElement : Nat := 0
  descriptorCount : Nat := 0
  descriptorType : VkDescriptorType := VK_DESCRIPTOR_TYPE_SAMPLER
  pImageInfo : List VkDescriptorImageInfo := []
  pBufferInfo : List VkDescriptorBufferInfo := []
  pTexelBufferView : List Handle := []
  deriving DecidableEq, Repr

structure VkCopyDescriptorSet where
  sType : Nat := 36
  pNext : Nat := 0
  srcSet : Handle := 0
  srcBinding : Nat := 0
  srcArrayElement : Nat := 0
  dstSet : Handle := 0
  dstBinding : Nat := 0
  dstArrayElement : Nat := 0
  descriptorCount : Nat := 0
  deriving DecidableEq, Repr

structure packet_vkUpdateDescriptorSets where
  device : Handle := 0
  descriptorWriteCount : Nat := 0
  pDescriptorWrites : List VkWriteDescriptorSet := []
  descriptorCopyCount : Nat := 0
  pDescriptorCopies : List VkCopyDescriptorSet := []
  deriving DecidableEq, Repr

/-- A loop `for (j = 0; j < count; j++) { ... return; ... }` over the entries visited of a
cloned array: `step` gives the rewritten clone entry, or `none` where the body returns from
the handler. -/
def forEachOrReturn {α : Type} (step : α → Option α) : List α → Option (List α)
  | [] => some []
  | x :: rest =>
    match step x with
    | none => none
    | some y =>
      match forEachOrReturn step rest with
      | some ys => some (y :: ys)
      | none => none

/-- Loop body on a `VkDescriptorImageInfo`, sampler part:
`if (src.sampler != VK_NULL_HANDLE) { dst.sampler = remap_samplers(src.sampler);
if (dst.sampler == VK_NULL_HANDLE) return; }`. -/
def remapSamplerOf (om : vkReplayObjMapper) (info : VkDescriptorImageInfo) :
    Option VkDescriptorImageInfo :=
  if info.sampler ≠ VK_NULL_HANDLE then
    if om.m_samplers.lookup info.sampler = VK_NULL_HANDLE then none
    else some { info with sampler := om.m_samplers.lookup info.sampler }
  else some info

/-- Loop body on a `VkDescriptorImageInfo`, image-view part. -/
def remapImageViewOf (om : vkReplayObjMapper) (info : VkDescriptorImageInfo) :
    Option VkDescriptorImageInfo :=
  if info.imageView ≠ VK_NULL_HANDLE then
    if om.m_imageviews.lookup info.imageView = VK_NULL_HANDLE then none
    else some { info with imageView := om.m_imageviews.lookup info.imageView }
  else some info

/-- Loop body on an entry of `pTexelBufferView`. -/
def remapBufferViewOf (om : vkReplayObjMapper) (view : Handle) : Option Handle :=
  if view ≠ VK_NULL_HANDLE then
    if om.m_bufferviews.lookup view = VK_NULL_HANDLE then none
    else some (om.m_bufferviews.lookup view)
  else some view

/-- Loop body on a `VkDescriptorBufferInfo`. -/
def remapBufferOf (om : vkReplayObjMapper) (info : VkDescriptorBufferInfo) :
    Option VkDescriptorBufferInfo :=
  if info.buffer ≠ VK_NULL_HANDLE then
    if om.m_buffers.lookup info.buffer = VK_NULL_HANDLE then none
    else some { info with buffer := om.m_buffers.lookup info.buffer }
  else some info

/-- One iteration of the loop over the writes: the filled `pRemappedWrites[i]`, or `none`
where the iteration returns from the handler. -/
def remapWrite (om : vkReplayObjMapper) (write : VkWriteDescriptorSet) :
    Option VkWriteDescriptorSet :=
  -- pRemappedWrites[i] starts as the memcpy of the recorded write
  let remapped := { write with dstSet := om.m_descriptorsets.lookup write.dstSet }
  if remapped.dstSet = VK_NULL_HANDLE then none
  else
    match write.descriptorType with
    | VK_DESCRIPTOR_TYPE_SAMPLER =>
      match forEachOrReturn (remapSamplerOf om)
          (write.pImageInfo.take write.descriptorCount) with
      | some clone => some { remapped with pImageInfo := clone }
      | none => none
    | VK_DESCRIPTOR_TYPE_SAMPLED_IMAGE
    | VK_DESCRIPTOR_TYPE_STORAGE_IMAGE
    | VK_DESCRIPTOR_TYPE_INPUT_ATTACHMENT =>
      match forEachOrReturn (remapImageViewOf om)
          (write.pImageInfo.take write.descriptorCount) with
      | some clone => some { remapped with pImageInfo := clone }
      | none => none
    | VK_DESCRIPTOR_TYPE_COMBINED_IMAGE_SAMPLER =>
      match forEachOrReturn
          (fun info => match remapSamplerOf om info with
            | some withSampler => remapImageViewOf om withSampler
            | none => none)
          (write.pImageInfo.take write.descriptorCount) with
      | some clone => some { remapped with pImageInfo := clone }
      | none => none
    | VK_DESCRIPTOR_TYPE_UNIFORM_TEXEL_BUFFER
    | VK_DESCRIPTOR_TYPE_STORAGE_TEXEL_BUFFER =>
      match forEachOrReturn (remapBufferViewOf om)
          (write.pTexelBufferView.take write.descriptorCount) with
      | some clone => some { remapped with pTexelBufferView := clone }
      | none => none
    | VK_DESCRIPTOR_TYPE_UNIFORM_BUFFER
    | VK_DESCRIPTOR_TYPE_STORAGE_BUFFER
    | VK_DESCRIPTOR_TYPE_UNIFORM_BUFFER_DYNAMIC
    | VK_DESCRIPTOR_TYPE_STORAGE_BUFFER_DYNAMIC =>
      match forEachOrReturn (remapBufferOf om)
          (write.pBufferInfo.take write.descriptorCount) with
      | some clone => some { remapped with pBufferInfo := clone }
      | none => none
    | other _ => some remapped

/-- One iteration of the loop over the copies. -/
def remapCopy (om : vkReplayObjMapper) (copy : VkCopyDescriptorSet) :
    Option VkCopyDescriptorSet :=
  let remapped := { copy with dstSet := om.m_descriptorsets.lookup copy.dstSet }
  if remapped.dstSet = VK_NULL_HANDLE then none
  else
    let remapped := { remapped with srcSet := om.m_descriptorsets.lookup copy.srcSet }
    if remapped.srcSet = VK_NULL_HANDLE then none
    else some remapped

/-- The arguments of one `real_vkUpdateDescriptorSets` call. -/
structure UpdateDescriptorSetsCall where
  device : Handle
  descriptorWriteCount : Nat
  pDescriptorWrites : List VkWriteDescriptorSet
  descriptorCopyCount : Nat
  pDescriptorCopies : List VkCopyDescriptorSet
  deriving DecidableEq, Repr

/-- What `manually_replay_vkUpdateDescriptorSets` leaves behind.  The handler writes only
to its clones, so the packet in memory is the packet it was given. -/
structure UpdateDescriptorSetsOutcome where
  driverSaw : Option UpdateDescriptorSetsCall
  pPacket : packet_vkUpdateDescriptorSets
  deriving DecidableEq, Repr

/-- Embedding of `vkReplay::manually_replay_vkUpdateDescriptorSets` (its error lines are left out). -/
def manually_replay_vkUpdateDescriptorSets (self : vkReplay)
    (pPacket : packet_vkUpdateDescriptorSets) : UpdateDescriptorSetsOutcome :=
  let remappedDevice := self.m_objMapper.m_devices.lookup pPacket.device
  if remappedDevice = VK_NULL_HANDLE then
    { driverSaw := none, pPacket := pPacket }
  else
    match forEachOrReturn (remapWrite self.m_objMapper)
        (pPacket.pDescriptorWrites.take pPacket.descriptorWriteCount) with
    | none => { driverSaw := none, pPacket := pPacket }
    | some pRemappedWrites =>
      match forEachOrReturn (remapCopy self.m_objMapper)
          (pPacket.pDescriptorCopies.take pPacket.descriptorCopyCount) with
      | none => { driverSaw := none, pPacket := pPacket }
      | some pRemappedCopies =>
        { driverSaw := some
            { device := remappedDevice,
              descriptorWriteCount := pPacket.descriptorWriteCount,
              pDescriptorWrites := pRemappedWrites,
              descriptorCopyCount := pPacket.descriptorCopyCount,
              pDescriptorCopies := pRemappedCopies },
          pPacket := pPacket }

/-- The claim's table, sampler column: descriptor types whose image infos carry a sampler
to remap. -/
def remapsSampler : VkDescriptorType → Bool
  | VK_DESCRIPTOR_TYPE_SAMPLER => true
  | VK_DESCRIPTOR_TYPE_COMBINED_IMAGE_SAMPLER => true
  | _ => false

/-- The claim's table, image-view column. -/
def remapsImageView : VkDescriptorType → Bool
  | VK_DESCRIPTOR_TYPE_SAMPLED_IMAGE => true
  | VK_DESCRIPTOR_TYPE_STORAGE_IMAGE => true
  | VK_DESCRIPTOR_TYPE_INPUT_ATTACHMENT => true
  | VK_DESCRIPTOR_TYPE_COMBINED_IMAGE_SAMPLER => true
  | _ => false

/-- The claim's table, texel-buffer-view column. -/
def remapsTexelBufferView : VkDescriptorType → Bool
  | VK_DESCRIPTOR_TYPE_UNIFORM_TEXEL_BUFFER => true
  | VK_DESCRIPTOR_TYPE_STORAGE_TEXEL_BUFFER => true
  | _ => false

/-- The claim's table, buffer column. -/
def remapsBuffer : VkDescriptorType → Bool
  | VK_DESCRIPTOR_TYPE_UNIFORM_BUFFER => true
  | VK_DESCRIPTOR_TYPE_STORAGE_BUFFER => true
  | VK_DESCRIPTOR_TYPE_UNIFORM_BUFFER_DYNAMIC => true
  | VK_DESCRIPTOR_TYPE_STORAGE_BUFFER_DYNAMIC => true
  | _ => false

/-- The image info the claim expects in the clone for a write of type `t`: the handles of
the table looked up, everything else as recorded. -/
def expectedImageInfo (om : vkReplayObjMapper) (t : VkDescriptorType)
    (info : VkDescriptorImageInfo) : VkDescriptorImageInfo :=
  { sampler := if remapsSampler t then om.m_samplers.lookup info.sampler else info.sampler
    imageView :=
      if remapsImageView t then om.m_imageviews.lookup info.imageView else info.imageView
    imageLayout := info.imageLayout }

/-- The buffer info the claim expects in the clone. -/
def expectedBufferInfo (om : vkReplayObjMapper) (info : VkDescriptorBufferInfo) :
    VkDescriptorBufferInfo :=
  { buffer := om.m_buffers.lookup info.buffer, offset := info.offset, range := info.range }

/-- The write the claim expects the driver to receive for a recorded write: destination
set looked up, the info array of the write's type cloned over `descriptorCount` entries
with its handles looked up, every other field as recorded. -/
def expectedWrite (om : vkReplayObjMapper) (write : VkWriteDescriptorSet) :
    VkWriteDescriptorSet :=
  { write with
    dstSet := om.m_descriptorsets.lookup write.dstSet
    pImageInfo :=
      if remapsSampler write.descriptorType || remapsImageView write.descriptorType then
        (write.pImageInfo.take write.descriptorCount).map
          (expectedImageInfo om write.descriptorType)
      else write.pImageInfo
    pTexelBufferView :=
      if remapsTexelBufferView write.descriptorType then
        (write.pTexelBufferView.take write.descriptorCount).map
          (fun view => om.m_bufferviews.lookup view)
      else write.pTexelBufferView
    pBufferInfo :=
      if remapsBuffer write.descriptorType then
        (write.pBufferInfo.take write.descriptorCount).map (expectedBufferInfo om)
      else write.pBufferInfo }

/-- The copy the claim's handler passes on: both sets looked up. -/
def expectedCopy (om : vkReplayObjMapper) (copy : VkCopyDescriptorSet) : VkCopyDescriptorSet :=
  { copy with
    dstSet := om.m_descriptorsets.lookup copy.dstSet
    srcSet := om.m_descriptorsets.lookup copy.srcSet }

/-- "No remap fails" for one write: its destination set has a non-null lookup, and so has
every non-null embedded handle that the write's type makes the handler remap, over the
`descriptorCount` entries visited. -/
def writeRemapsSucceed (om : vkReplayObjMapper) (write : VkWriteDescriptorSet) : Prop :=
  om.m_descriptorsets.lookup write.dstSet ≠ VK_NULL_HANDLE ∧
  (∀ info ∈ write.pImageInfo.take write.descriptorCount,
    (remapsSampler write.descriptorType = true → info.sampler ≠ VK_NULL_HANDLE →
      om.m_samplers.lookup info.sampler ≠ VK_NULL_HANDLE) ∧
    (remapsImageView write.descriptorType = true → info.imageView ≠ VK_NULL_HANDLE →
      om.m_imageviews.lookup info.imageView ≠ VK_NULL_HANDLE)) ∧
  (remapsTexelBufferView write.descriptorType = true →
    ∀ view ∈ write.pTexelBufferView.take write.descriptorCount, view ≠ VK_NULL_HANDLE →
      om.m_bufferviews.lookup view ≠ VK_NULL_HANDLE) ∧
  (remapsBuffer write.descriptorType = true →
    ∀ info ∈ write.pBufferInfo.take write.descriptorCount, info.buffer ≠ VK_NULL_HANDLE →
      om.m_buffers.lookup info.buffer ≠ VK_NULL_HANDLE)

/-- "No remap fails" for a whole packet: the device, every write visited and both sets of
every copy visited. -/
def noRemapFails (om : vkReplayObjMapper) (pPacket : packet_vkUpdateDescriptorSets) : Prop :=
  om.m_devices.lookup pPacket.device ≠ VK_NULL_HANDLE ∧
  (∀ write ∈ pPacket.pDescriptorWrites.take pPacket.descriptorWriteCount,
    writeRemapsSucceed om write) ∧
  (∀ copy ∈ pPacket.pDescriptorCopies.take pPacket.descriptorCopyCount,
    om.m_descriptorsets.lookup copy.dstSet ≠ VK_NULL_HANDLE ∧
      om.m_descriptorsets.lookup copy.srcSet ≠ VK_NULL_HANDLE)

instance (scratch : PresentScratch) (info : VkPresentInfoKHR) :
    Decidable (presentOutOfMemory scratch info) := by
  unfold presentOutOfMemory
  infer_instance

instance (om : vkReplayObjMapper) (info : VkPresentInfoKHR) :
    Decidable (presentWaitUnmapped om info) := by
  unfold presentWaitUnmapped
  infer_instance

instance (om : vkReplayObjMapper) (write : VkWriteDescriptorSet) :
    Decidable (writeRemapsSucceed om write) := by
  unfold writeRemapsSucceed
  infer_instance

instance (om : vkReplayObjMapper) (pPacket : packet_vkUpdateDescriptorSets) :
    Decidable (noRemapFails om pPacket) := by
  unfold noRemapFails
  infer_instance

/-! ## Device memory: allocate, free, map, unmap -/

structure VkMemoryAllocateInfo where
  sType : Nat := 5
  pNext : Nat := 0
  allocationSize : Nat := 0
  memoryTypeIndex : Nat := 0
  deriving DecidableEq, Repr

structure packet_vkAllocateMemory where
  device : Handle := 0
  pAllocateInfo : VkMemoryAllocateInfo := {}
  /-- The recorded handle `*(pPacket->pMemory)`. -/
  pMemory : Handle := 0
  result : VkResult := 0
  deriving DecidableEq, Repr

structure packet_vkFreeMemory where
  device : Handle := 0
  memory : Handle := 0
  deriving DecidableEq, Repr

structure packet_vkMapMemory where
  device : Handle := 0
  memory : Handle := 0
  offset : Nat := 0
  size : Nat := 0
  flags : Nat := 0
  result : VkResult := 0
  deriving DecidableEq, Repr

structure packet_vkUnmapMemory where
  device : Handle := 0
  memory : Handle := 0
  /-- The recorded bytes of the mapped range, `none` for a null `pData`. -/
  pData : Option (List UInt8) := none
  deriving DecidableEq, Repr

/-- The arguments of one `real_vkMapMemory` call. -/
structure MapMemoryCall where
  device : Handle
  memory : Handle
  offset : Nat
  size : Nat
  flags : Nat
  deriving DecidableEq, Repr

/-- The driver entry points of the memory handlers that produce a value: the result and
the live handle of an allocation, the result and the host pointer of a mapping. -/
structure MemoryDriver where
  real_vkAllocateMemory : Handle → VkMemoryAllocateInfo → VkResult × Handle
  real_vkMapMemory : MapMemoryCall → VkResult × HostPtr

/-- What `manually_replay_vkAllocateMemory` leaves behind. -/
structure AllocateMemoryOutcome where
  replayResult : VkResult
  /-- The device and allocate-info `real_vkAllocateMemory` received. -/
  driverSaw : Option (Handle × VkMemoryAllocateInfo)
  self : vkReplay
  deriving DecidableEq, Repr

/-- Embedding of `vkReplay::manually_replay_vkAllocateMemory`. -/
def manually_replay_vkAllocateMemory (drv : MemoryDriver) (self : vkReplay)
    (pPacket : packet_vkAllocateMemory) : AllocateMemoryOutcome :=
  let replayResult := VK_ERROR_VALIDATION_FAILED_EXT
  let remappedDevice := self.m_objMapper.m_devices.lookup pPacket.device
  if remappedDevice = VK_NULL_HANDLE then
    { replayResult := VK_ERROR_VALIDATION_FAILED_EXT, driverSaw := none, self := self }
  else
    -- gpuMemObj local_mem;
    let local_mem : gpuMemObj := {}
    let (replayResult, local_mem, driverSaw) :=
      if !self.m_objMapper.m_adjustForGPU then
        let r := drv.real_vkAllocateMemory remappedDevice pPacket.pAllocateInfo
        (r.1, { local_mem with replayGpuMem := r.2 },
          some (remappedDevice, pPacket.pAllocateInfo))
      else (replayResult, local_mem, none)
    if replayResult = VK_SUCCESS ∨ self.m_objMapper.m_adjustForGPU = true then
      let pGpuMem := gpuMemory.setAllocInfo pPacket.pAllocateInfo.allocationSize
        self.m_objMapper.m_adjustForGPU
      let local_mem := { local_mem with pGpuMem := some pGpuMem }
      { replayResult := replayResult, driverSaw := driverSaw,
        self := { self with m_objMapper := { self.m_objMapper with
          m_devicememorys := self.m_objMapper.m_devicememorys.insert pPacket.pMemory local_mem } } }
    else
      { replayResult := replayResult, driverSaw := driverSaw, self := self }

/-- What `manually_replay_vkFreeMemory` leaves behind. -/
structure FreeMemoryOutcome where
  /-- The device and live memory handle `real_vkFreeMemory` received. -/
  driverSaw : Option (Handle × Handle)
  self : vkReplay
  log : List LogMsg
  deriving DecidableEq, Repr

/-- Embedding of `vkReplay::manually_replay_vkFreeMemory`.  The result is `none` where the
handler dereferences `m_devicememorys.find(...)` on an absent entry, which has no defined
behaviour. -/
def manually_replay_vkFreeMemory (self : vkReplay) (pPacket : packet_vkFreeMemory) :
    Option FreeMemoryOutcome :=
  let remappedDevice := self.m_objMapper.m_devices.lookup pPacket.device
  if remappedDevice = VK_NULL_HANDLE then
    some { driverSaw := none, self := self,
           log := [vktrace_LogError "Skipping vkFreeMemory() due to invalid remapped VkDevice."] }
  else
    match self.m_objMapper.m_devicememorys.find pPacket.memory with
    | none => none
    | some local_mem =>
      some { driverSaw := some (remappedDevice, local_mem.replayGpuMem),
             self := { self with m_objMapper := { self.m_objMapper with
               m_devicememorys := self.m_objMapper.m_devicememorys.remove pPacket.memory } },
             log := [] }

/-- What `manually_replay_vkMapMemory` leaves behind. -/
structure MapMemoryOutcome where
  replayResult : VkResult
  driverSaw : Option MapMemoryCall
  self : vkReplay
  deriving DecidableEq, Repr

/-- Embedding of `vkReplay::manually_replay_vkMapMemory`.  The result is `none` where the
handler dereferences `m_devicememorys.find(...)` on an absent entry or calls
`isPendingAlloc()` through a null `pGpuMem`. -/
def manually_replay_vkMapMemory (drv : MemoryDriver) (self : vkReplay)
    (pPacket : packet_vkMapMemory) : Option MapMemoryOutcome :=
  let replayResult := VK_ERROR_VALIDATION_FAILED_EXT
  let remappedDevice := self.m_objMapper.m_devices.lookup pPacket.device
  if remappedDevice = VK_NULL_HANDLE then
    some { replayResult := VK_ERROR_VALIDATION_FAILED_EXT, driverSaw := none, self := self }
  else
    match self.m_objMapper.m_devicememorys.find pPacket.memory with
    | none => none
    | some local_mem =>
      match local_mem.pGpuMem with
      | none => none
      | some pGpuMem =>
        if !pGpuMem.isPendingAlloc then
          let call : MapMemoryCall :=
            { device := remappedDevice, memory := local_mem.replayGpuMem,
              offset := pPacket.offset, size := pPacket.size, flags := pPacket.flags }
          let r := drv.real_vkMapMemory call
          let mapped := pGpuMem.setMemoryMapRange (some r.2) pPacket.size pPacket.offset false
          let self :=
            if r.1 = VK_SUCCESS then
              { self with m_objMapper := { self.m_objMapper with
                  m_devicememorys := self.m_objMapper.m_devicememorys.insert pPacket.memory
                    { local_mem with pGpuMem := some mapped } } }
            else self
          some { replayResult := r.1, driverSaw := some call, self := self }
        else
          let stashed := pGpuMem.setMemoryMapRange none pPacket.size pPacket.offset true
          some { replayResult := replayResult, driverSaw := none,
                 self := { self with m_objMapper := { self.m_objMapper with
                   m_devicememorys := self.m_objMapper.m_devicememorys.insert pPacket.memory
                     { local_mem with pGpuMem := some stashed } } } }

/-- What `manually_replay_vkUnmapMemory` leaves behind. -/
structure UnmapMemoryOutcome where
  /-- The device and live memory handle `real_vkUnmapMemory` received, with the
  driver-visible memory as it stands at the call. -/
  driverSaw : Option (Handle × Handle × HostMemory)
  /-- The driver-visible memory when the handler returns. -/
  memory : HostMemory
  self : vkReplay
  log : List LogMsg

/-- Embedding of `vkReplay::manually_replay_vkUnmapMemory`, on the driver-visible memory
`memory`.  The result is `none` where the handler dereferences
`m_devicememorys.find(...)` on an absent entry or calls `isPendingAlloc()` through a null
`pGpuMem`. -/
def manually_replay_vkUnmapMemory (memory : HostMemory) (self : vkReplay)
    (pPacket : packet_vkUnmapMemory) : Option UnmapMemoryOutcome :=
  let remappedDevice := self.m_objMapper.m_devices.lookup pPacket.device
  if remappedDevice = VK_NULL_HANDLE then
    some { driverSaw := none, memory := memory, self := self,
           log := [vktrace_LogError "Skipping vkUnmapMemory() due to invalid remapped VkDevice."] }
  else
    match self.m_objMapper.m_devicememorys.find pPacket.memory with
    | none => none
    | some local_mem =>
      match local_mem.pGpuMem with
      | none => none
      | some pGpuMem =>
        if !pGpuMem.isPendingAlloc then
          let (pGpuMem, memory) :=
            if pPacket.pData.isSome then
              -- copies data from packet into memory buffer
              pGpuMem.copyMappingData memory pPacket.pData
            else (pGpuMem, memory)
          some { driverSaw := some (remappedDevice, local_mem.replayGpuMem, memory),
                 memory := memory,
                 self := { self with m_objMapper := { self.m_objMapper with
                   m_devicememorys := self.m_objMapper.m_devicememorys.insert pPacket.memory
                     { local_mem with pGpuMem := some pGpuMem } } },
                 log := [] }
        else
          let pGpuMem := pGpuMem.setMemoryDataAddr pGpuMem.getMemoryMapSize
          let (pGpuMem, memory) := pGpuMem.copyMappingData memory pPacket.pData
          some { driverSaw := none, memory := memory,
                 self := { self with m_objMapper := { self.m_objMapper with
                   m_devicememorys := self.m_objMapper.m_devicememorys.insert pPacket.memory
                     { local_mem with pGpuMem := some pGpuMem } } },
                 log := [] }

/-! ## Validation message queue -/

/-- Embedding of `vkReplay::push_validation_msg`.  The two `strncpy(dst, src, 256)` followed
by `dst[255] = 0` keep the first 255 characters. -/
def push_validation_msg (self : vkReplay) (msgFlags objType srcObjectHandle location : Nat)
    (msgCode : Int) (pLayerPrefix pMsg : String) (pUserData : Nat) : vkReplay :=
  let msgObj : ValidationMsg :=
    { msgFlags := msgFlags, objType := objType, srcObjectHandle := srcObjectHandle,
      location := location, layerPrefix := pLayerPrefix.take 255, msgCode := msgCode,
      msg := pMsg.take 255, pUserData := pUserData }
  { self with m_validationMsgs := self.m_validationMsgs ++ [msgObj] }

/-- Embedding of `vkReplay::pop_validation_msgs`: the returned status and the replayer
afterwards. -/
def pop_validation_msgs (self : vkReplay) : VKTRACE_REPLAY_RESULT × vkReplay :=
  if self.m_validationMsgs.length = 0 then
    (VKTRACE_REPLAY_SUCCESS, self)
  else
    (VKTRACE_REPLAY_VALIDATION_ERROR, { self with m_validationMsgs := [] })

/-! ## Descriptor set layouts and descriptor sets -/

structure VkDescriptorSetLayoutBinding where
  binding : Nat := 0
  descriptorType : VkDescriptorType := VkDescriptorType.VK_DESCRIPTOR_TYPE_SAMPLER
  descriptorCount : Nat := 0
  stageFlags : Nat := 0
  pImmutableSamplers : Option (List Handle) := none
  deriving DecidableEq, Repr

structure VkDescriptorSetLayoutCreateInfo where
  sType : Nat := 32
  pNext : Nat := 0
  flags : Nat := 0
  bindingCount : Nat := 0
  pBindings : Option (List VkDescriptorSetLayoutBinding) := none
  deriving DecidableEq, Repr

structure packet_vkCreateDescriptorSetLayout where
  device : Handle := 0
  pCreateInfo : Option VkDescriptorSetLayoutCreateInfo := none
  /-- The recorded handle `*(pPacket->pSetLayout)`. -/
  pSetLayout : Handle := 0
  result : VkResult := 0
  deriving DecidableEq, Repr

/-- What `manually_replay_vkCreateDescriptorSetLayout` leaves behind. -/
structure CreateDescriptorSetLayoutOutcome where
  replayResult : VkResult
  /-- The device and create-info `real_vkCreateDescriptorSetLayout` received. -/
  driverSaw : Option (Handle × Option VkDescriptorSetLayoutCreateInfo)
  pPacket : packet_vkCreateDescriptorSetLayout
  self : vkReplay
  deriving DecidableEq, Repr

/-- Embedding of `vkReplay::manually_replay_vkCreateDescriptorSetLayout`. -/
def manually_replay_vkCreateDescriptorSetLayout
    (real_vkCreateDescriptorSetLayout :
      Handle → Option VkDescriptorSetLayoutCreateInfo → VkResult × Handle)
    (self : vkReplay) (pPacket : packet_vkCreateDescriptorSetLayout) :
    CreateDescriptorSetLayoutOutcome :=
  let remappedDevice := self.m_objMapper.m_devices.lookup pPacket.device
  if remappedDevice = VK_NULL_HANDLE then
    { replayResult := VK_ERROR_VALIDATION_FAILED_EXT, driverSaw := none, pPacket := pPacket,
      self := self }
  else
    -- the two nested loops write the remapped samplers into the packet's own arrays
    let pInfo := pPacket.pCreateInfo.map (fun info =>
      { info with pBindings := info.pBindings.map (fun bindings =>
          rewriteFirst
            (fun pBindings => { pBindings with
              pImmutableSamplers := pBindings.pImmutableSamplers.map (fun samplers =>
                rewriteFirst (fun sampler => self.m_objMapper.m_samplers.lookup sampler)
                  pBindings.descriptorCount samplers) })
            info.bindingCount bindings) })
    let pPacket := { pPacket with pCreateInfo := pInfo }
    let r := real_vkCreateDescriptorSetLayout remappedDevice pPacket.pCreateInfo
    let self :=
      if r.1 = VK_SUCCESS then
        { self with m_objMapper := { self.m_objMapper with
            m_descriptorsetlayouts :=
              self.m_objMapper.m_descriptorsetlayouts.insert pPacket.pSetLayout r.2 } }
      else self
    { replayResult := r.1, driverSaw := some (remappedDevice, pPacket.pCreateInfo),
      pPacket := pPacket, self := self }

structure VkDescriptorSetAllocateInfo where
  sType : Nat := 34
  pNext : Nat := 0
  descriptorPool : Handle := 0
  descriptorSetCount : Nat := 0
  pSetLayouts : List Handle := []
  deriving DecidableEq, Repr

structure packet_vkAllocateDescriptorSets where
  device : Handle := 0
  pAllocateInfo : VkDescriptorSetAllocateInfo := {}
  /-- The recorded output array `pPacket->pDescriptorSets`. -/
  pDescriptorSets : List Handle := []
  result : VkResult := 0
  deriving DecidableEq, Repr

/-- The arguments of one `real_vkAllocateDescriptorSets` call; of the output array the
call records whether the pointer is non-null. -/
structure AllocateDescriptorSetsCall where
  device : Handle
  pAllocateInfo : VkDescriptorSetAllocateInfo
  pDescriptorSetsNonNull : Bool
  deriving DecidableEq, Repr

/-- A loop `for (i = 0; i < count; i++) add_to_map(recorded[i], live[i]);` reading `live`
through a pointer that may be null: the table afterwards, `none` where the loop reads
through the null pointer. -/
def insertEach (m : HandleMap) (recorded : List Handle) (live : Option (List Handle))
    (count : Nat) : Option HandleMap :=
  match live with
  | some produced =>
    some (((recorded.take count).zip (produced.take count)).foldl
      (fun table pair => table.insert pair.1 pair.2) m)
  | none => if count = 0 then some m else none

/-- What `manually_replay_vkAllocateDescriptorSets` leaves behind. -/
structure AllocateDescriptorSetsOutcome where
  replayResult : VkResult
  driverSaw : Option AllocateDescriptorSetsCall
  self : vkReplay
  deriving DecidableEq, Repr

/-- Embedding of `vkReplay::manually_replay_vkAllocateDescriptorSets`.  The driver entry
gives its result and the descriptor sets it writes to the output array it is given.  The
result of the handler is `none` where it reads `pDescriptorSets[i]` through the null
pointer. -/
def manually_replay_vkAllocateDescriptorSets
    (real_vkAllocateDescriptorSets : AllocateDescriptorSetsCall → VkResult × List Handle)
    (self : vkReplay) (pPacket : packet_vkAllocateDescriptorSets) :
    Option AllocateDescriptorSetsOutcome :=
  let remappedDevice := self.m_objMapper.m_devices.lookup pPacket.device
  if remappedDevice = VK_NULL_HANDLE then
    some { replayResult := VK_ERROR_VALIDATION_FAILED_EXT, driverSaw := none, self := self }
  else
    -- VkDescriptorSet* pDescriptorSets = NULL;
    let pDescriptorSets : Option (List Handle) := none
    let call : AllocateDescriptorSetsCall :=
      { device := remappedDevice, pAllocateInfo := pPacket.pAllocateInfo,
        pDescriptorSetsNonNull := pDescriptorSets.isSome }
    let r := real_vkAllocateDescriptorSets call
    -- the driver writes through the pointer it is given, here none
    let pDescriptorSets := pDescriptorSets.map (fun _ => r.2)
    if r.1 = VK_SUCCESS then
      match insertEach self.m_objMapper.m_descriptorsets pPacket.pDescriptorSets
          pDescriptorSets pPacket.pAllocateInfo.descriptorSetCount with
      | none => none
      | some table =>
        some { replayResult := r.1, driverSaw := some call,
               self := { self with m_objMapper := { self.m_objMapper with
                 m_descriptorsets := table } } }
    else
      some { replayResult := r.1, driverSaw := some call, self := self }

structure packet_vkFreeDescriptorSets where
  device : Handle := 0
  descriptorPool : Handle := 0
  descriptorSetCount : Nat := 0
  pDescriptorSets : List Handle := []
  result : VkResult := 0
  deriving DecidableEq, Repr

/-- The arguments of one `real_vkFreeDescriptorSets` call. -/
structure FreeDescriptorSetsCall where
  device : Handle
  descriptorPool : Handle
  descriptorSetCount : Nat
  pDescriptorSets : List Handle
  deriving DecidableEq, Repr

/-- What `manually_replay_vkFreeDescriptorSets` leaves behind. -/
structure FreeDescriptorSetsOutcome where
  replayResult : VkResult
  driverSaw : Option FreeDescriptorSetsCall
  self : vkReplay
  deriving DecidableEq, Repr

/-- Embedding of `vkReplay::manually_replay_vkFreeDescriptorSets`. -/
def manually_replay_vkFreeDescriptorSets
    (real_vkFreeDescriptorSets : FreeDescriptorSetsCall → VkResult)
    (self : vkReplay) (pPacket : packet_vkFreeDescriptorSets) : FreeDescriptorSetsOutcome :=
  let remappedDevice := self.m_objMapper.m_devices.lookup pPacket.device
  if remappedDevice = VK_NULL_HANDLE then
    { replayResult := VK_ERROR_VALIDATION_FAILED_EXT, driverSaw := none, self := self }
  else
    let descriptorPool := self.m_objMapper.m_descriptorpools.lookup pPacket.descriptorPool
    let localDSs := (pPacket.pDescriptorSets.take pPacket.descriptorSetCount).map
      (fun ds => self.m_objMapper.m_descriptorsets.lookup ds)
    let call : FreeDescriptorSetsCall :=
      { device := remappedDevice, descriptorPool := descriptorPool,
        descriptorSetCount := pPacket.descriptorSetCount, pDescriptorSets := localDSs }
    let replayResult := real_vkFreeDescriptorSets call
    let self :=
      if replayResult = VK_SUCCESS then
        { self with m_objMapper := { self.m_objMapper with
            m_descriptorsets :=
              (pPacket.pDescriptorSets.take pPacket.descriptorSetCount).foldl
                (fun table ds => table.remove ds) self.m_objMapper.m_descriptorsets } }
      else self
    { replayResult := replayResult, driverSaw := some call, self := self }

/-! ## Debug-report callback destruction -/

structure packet_vkDestroyDebugReportCallbackEXT where
  instance_ : Handle := 0
  callback : Handle := 0
  deriving DecidableEq, Repr

/-- What `manually_replay_vkDestroyDebugReportCallbackEXT` leaves behind. -/
structure DestroyDebugReportCallbackOutcome where
  /-- The instance and callback `real_vkDestroyDebugReportCallbackEXT` received. -/
  driverSaw : Option (Handle × Handle)
  self : vkReplay
  deriving DecidableEq, Repr

/-- Embedding of `vkReplay::manually_replay_vkDestroyDebugReportCallbackEXT`;
`g_fpDbgMsgCallback` tells whether the embedder registered a message sink. -/
def manually_replay_vkDestroyDebugReportCallbackEXT (g_fpDbgMsgCallback : Bool)
    (self : vkReplay) (pPacket : packet_vkDestroyDebugReportCallbackEXT) :
    DestroyDebugReportCallbackOutcome :=
  let remappedInstance := self.m_objMapper.m_instances.lookup pPacket.instance_
  let remappedMsgCallback := self.m_objMapper.m_debugreportcallbackexts.lookup pPacket.callback
  if !g_fpDbgMsgCallback then
    -- just eat this call as we don't have local call back function defined
    { driverSaw := none, self := self }
  else
    { driverSaw := some (remappedInstance, remappedMsgCallback), self := self }

/-! ## Physical-device enumeration -/

structure packet_vkEnumeratePhysicalDevices where
  instance_ : Handle := 0
  /-- The recorded count `*(pPacket->pPhysicalDeviceCount)`. -/
  pPhysicalDeviceCount : Nat := 0
  pPhysicalDevices : Option (List Handle) := none
  result : VkResult := 0
  deriving DecidableEq, Repr

/-- The arguments of one `real_vkEnumeratePhysicalDevices` call: the remapped instance, the
count read through `&deviceCount` and whether `pDevices` is non-null. -/
structure EnumeratePhysicalDevicesCall where
  instance_ : Handle
  deviceCount : Nat
  pDevicesNonNull : Bool
  deriving DecidableEq, Repr

/-- What the driver's enumeration gives back: its result, the count it leaves in
`deviceCount` and the handles it wrote to `pDevices`. -/
structure EnumeratePhysicalDevicesReply where
  result : VkResult
  deviceCount : Nat
  pDevices : List Handle
  deriving DecidableEq, Repr

/-- What `manually_replay_vkEnumeratePhysicalDevices` leaves behind. -/
structure EnumeratePhysicalDevicesOutcome where
  replayResult : VkResult
  driverSaw : Option EnumeratePhysicalDevicesCall
  self : vkReplay
  log : List LogMsg
  deriving DecidableEq, Repr

/-- Embedding of `vkReplay::manually_replay_vkEnumeratePhysicalDevices`. -/
def manually_replay_vkEnumeratePhysicalDevices
    (real_vkEnumeratePhysicalDevices :
      EnumeratePhysicalDevicesCall → EnumeratePhysicalDevicesReply)
    (self : vkReplay) (pPacket : packet_vkEnumeratePhysicalDevices) :
    EnumeratePhysicalDevicesOutcome :=
  let replayResult := VK_ERROR_VALIDATION_FAILED_EXT
  if !self.m_initedVK then
    let deviceCount := pPacket.pPhysicalDeviceCount
    let remappedInstance := self.m_objMapper.m_instances.lookup pPacket.instance_
    if remappedInstance = VK_NULL_HANDLE then
      { replayResult := VK_ERROR_VALIDATION_FAILED_EXT, driverSaw := none, self := self,
        log := [] }
    else
      -- pDevices is the packet's pointer, replaced by a fresh array when that is non-null
      let call : EnumeratePhysicalDevicesCall :=
        { instance_ := remappedInstance, deviceCount := deviceCount,
          pDevicesNonNull := pPacket.pPhysicalDevices.isSome }
      let reply := real_vkEnumeratePhysicalDevices call
      let deviceCount := reply.deviceCount
      let pDevices : Option (List Handle) := pPacket.pPhysicalDevices.map (fun _ => reply.pDevices)
      let log :=
        if deviceCount ≠ pPacket.pPhysicalDeviceCount then
          [vktrace_LogWarning
            "Number of physical devices mismatched in replay %u versus trace %u."]
        else if deviceCount = 0 then
          [vktrace_LogError "vkEnumeratePhysicalDevices number of gpus is zero."]
        else if pDevices.isSome then
          [⟨LogLevel.verbose, "Enumerated %d physical devices in the system."⟩]
        else []
      let table :=
        match pPacket.pPhysicalDevices, pDevices with
        | some recorded, some live =>
          ((recorded.take deviceCount).zip (live.take deviceCount)).foldl
            (fun table pair => table.insert pair.1 pair.2) self.m_objMapper.m_physicaldevices
        | _, _ => self.m_objMapper.m_physicaldevices
      { replayResult := reply.result, driverSaw := some call,
        self := { self with m_objMapper := { self.m_objMapper with
          m_physicaldevices := table } },
        log := log }
  else
    { replayResult := replayResult, driverSaw := none, self := self, log := [] }

/-! ## Swapchain creation -/

structure VkSwapchainCreateInfoKHR where
  sType : Nat := 1000001000
  pNext : Nat := 0
  flags : Nat := 0
  surface : Handle := 0
  minImageCount : Nat := 0
  imageFormat : Nat := 0
  imageColorSpace : Nat := 0
  imageExtentWidth : Nat := 0
  imageExtentHeight : Nat := 0
  imageArrayLayers : Nat := 0
  imageUsage : Nat := 0
  imageSharingMode : Nat := 0
  queueFamilyIndexCount : Nat := 0
  pQueueFamilyIndices : List Nat := []
  preTransform : Nat := 0
  compositeAlpha : Nat := 0
  presentMode : Nat := 0
  clipped : Nat := 0
  oldSwapchain : Handle := 0
  deriving DecidableEq, Repr

structure packet_vkCreateSwapchainKHR where
  device : Handle := 0
  pCreateInfo : VkSwapchainCreateInfoKHR := {}
  pAllocator : Nat := 0
  /-- The recorded handle `*(pPacket->pSwapchain)`. -/
  pSwapchain : Handle := 0
  result : VkResult := 0
  deriving DecidableEq, Repr

/-- What `manually_replay_vkCreateSwapchainKHR` leaves behind. -/
structure CreateSwapchainOutcome where
  replayResult : VkResult
  /-- The device and create-info `real_vkCreateSwapchainKHR` received. -/
  driverSaw : Option (Handle × VkSwapchainCreateInfoKHR)
  /-- The width and height passed to `m_display->resize_window`. -/
  resized : Nat × Nat
  pPacket : packet_vkCreateSwapchainKHR
  self : vkReplay
  deriving DecidableEq, Repr

/-- Embedding of `vkReplay::manually_replay_vkCreateSwapchainKHR`. -/
def manually_replay_vkCreateSwapchainKHR
    (real_vkCreateSwapchainKHR : Handle → VkSwapchainCreateInfoKHR → VkResult × Handle)
    (self : vkReplay) (pPacket : packet_vkCreateSwapchainKHR) : CreateSwapchainOutcome :=
  let remappeddevice := self.m_objMapper.m_devices.lookup pPacket.device
  -- the test of remappeddevice is commented out in the source
  let save_oldSwapchain := pPacket.pCreateInfo.oldSwapchain
  let save_surface := pPacket.pCreateInfo.surface
  let pCreateInfo := { pPacket.pCreateInfo with
    oldSwapchain := self.m_objMapper.m_swapchainkhrs.lookup save_oldSwapchain
    surface := self.m_objMapper.m_surfacekhrs.lookup save_surface }
  let resized := (pCreateInfo.imageExtentWidth, pCreateInfo.imageExtentHeight)
  let r := real_vkCreateSwapchainKHR remappeddevice pCreateInfo
  let self :=
    if r.1 = VK_SUCCESS then
      { self with m_objMapper := { self.m_objMapper with
          m_swapchainkhrs := self.m_objMapper.m_swapchainkhrs.insert pPacket.pSwapchain r.2 } }
    else self
  let restored := { pCreateInfo with oldSwapchain := save_oldSwapchain, surface := save_surface }
  { replayResult := r.1, driverSaw := some (remappeddevice, pCreateInfo), resized := resized,
    pPacket := { pPacket with pCreateInfo := restored }, self := self }

/-! ## Pipeline barriers and vertex buffers -/

structure packet_vkCmdPipelineBarrier where
  commandBuffer : Handle := 0
  srcStageMask : Nat := 0
  dstStageMask : Nat := 0
  dependencyFlags : Nat := 0
  memoryBarrierCount : Nat := 0
  pMemoryBarriers : List Nat := []
  bufferMemoryBarrierCount : Nat := 0
  pBufferMemoryBarriers : List VkBufferMemoryBarrier := []
  imageMemoryBarrierCount : Nat := 0
  pImageMemoryBarriers : List VkImageMemoryBarrier := []
  deriving DecidableEq, Repr

/-- What `manually_replay_vkCmdPipelineBarrier` leaves behind. -/
structure CmdPipelineBarrierOutcome where
  /-- The remapped command buffer and the packet arrays as they stand in memory when
  `real_vkCmdPipelineBarrier` is called; `none` when it is not called. -/
  driverSaw : Option (Handle × packet_vkCmdPipelineBarrier)
  pPacket : packet_vkCmdPipelineBarrier
  log : List LogMsg
  deriving DecidableEq, Repr

/-- Embedding of `vkReplay::manually_replay_vkCmdPipelineBarrier`. -/
def manually_replay_vkCmdPipelineBarrier (self : vkReplay)
    (pPacket : packet_vkCmdPipelineBarrier) : CmdPipelineBarrierOutcome :=
  let remappedCommandBuffer := self.m_objMapper.m_commandbuffers.lookup pPacket.commandBuffer
  if remappedCommandBuffer = VK_NULL_HANDLE then
    { driverSaw := none, pPacket := pPacket,
      log := [vktrace_LogError
        "Skipping vkCmdPipelineBarrier() due to invalid remapped VkCommandBuffer."] }
  else
    let saveBuf := (pPacket.pBufferMemoryBarriers.take pPacket.bufferMemoryBarrierCount).map
      (fun b => b.buffer)
    let pPacket := { pPacket with
      pBufferMemoryBarriers := rewriteFirst
        (fun b => { b with buffer := self.m_objMapper.m_buffers.lookup b.buffer })
        pPacket.bufferMemoryBarrierCount pPacket.pBufferMemoryBarriers }
    let saveImg := (pPacket.pImageMemoryBarriers.take pPacket.imageMemoryBarrierCount).map
      (fun b => b.image)
    let pPacket := { pPacket with
      pImageMemoryBarriers := rewriteFirst
        (fun b => { b with image := self.m_objMapper.m_images.lookup b.image })
        pPacket.imageMemoryBarrierCount pPacket.pImageMemoryBarriers }
    let driverSaw := (remappedCommandBuffer, pPacket)
    let pPacket := { pPacket with
      pBufferMemoryBarriers := restoreFirst (fun b h => { b with buffer := h })
        pPacket.bufferMemoryBarrierCount pPacket.pBufferMemoryBarriers saveBuf }
    let pPacket := { pPacket with
      pImageMemoryBarriers := restoreFirst (fun b h => { b with image := h })
        pPacket.imageMemoryBarrierCount pPacket.pImageMemoryBarriers saveImg }
    { driverSaw := some driverSaw, pPacket := pPacket, log := [] }

structure packet_vkCmdBindVertexBuffers where
  commandBuffer : Handle := 0
  firstBinding : Nat := 0
  bindingCount : Nat := 0
  pBuffers : Option (List Handle) := none
  pOffsets : List Nat := []
  deriving DecidableEq, Repr

/-- What `manually_replay_vkCmdBindVertexBuffers` leaves behind. -/
structure CmdBindVertexBuffersOutcome where
  /-- The remapped command buffer and the packet as it stands in memory when
  `real_vkCmdBindVertexBuffers` is called; `none` when it is not called. -/
  driverSaw : Option (Handle × packet_vkCmdBindVertexBuffers)
  pPacket : packet_vkCmdBindVertexBuffers
  log : List LogMsg
  deriving DecidableEq, Repr

/-- Embedding of `vkReplay::manually_replay_vkCmdBindVertexBuffers`; `pSaveBuffNonNull`
tells whether the scratch request for `pSaveBuff` returns a non-null pointer.  The result
is `none` where the handler writes `pSaveBuff[i]` through the null pointer. -/
def manually_replay_vkCmdBindVertexBuffers (pSaveBuffNonNull : Bool) (self : vkReplay)
    (pPacket : packet_vkCmdBindVertexBuffers) : Option CmdBindVertexBuffersOutcome :=
  let remappedCommandBuffer := self.m_objMapper.m_commandbuffers.lookup pPacket.commandBuffer
  if remappedCommandBuffer = VK_NULL_HANDLE then
    some { driverSaw := none, pPacket := pPacket,
           log := [vktrace_LogError
             "Skipping vkCmdBindVertexBuffers() due to invalid remapped VkCommandBuffer."] }
  else
    let log :=
      if !pSaveBuffNonNull then
        [vktrace_LogError "Replay of CmdBindVertexBuffers out of memory."]
      else []
    match pPacket.pBuffers with
    | some buffers =>
      -- the loop saves into pSaveBuff[i] before it rewrites pBuffers[i]
      if !pSaveBuffNonNull && !(buffers.take pPacket.bindingCount).isEmpty then none
      else
        let pSaveBuff := buffers.take pPacket.bindingCount
        let remapped := { pPacket with
          pBuffers := some (rewriteFirst (fun b => self.m_objMapper.m_buffers.lookup b)
            pPacket.bindingCount buffers) }
        let restored := { remapped with
          pBuffers := some (restoreFirst (fun _ h => h) pPacket.bindingCount
            (rewriteFirst (fun b => self.m_objMapper.m_buffers.lookup b)
              pPacket.bindingCount buffers) pSaveBuff) }
        some { driverSaw := some (remappedCommandBuffer, remapped), pPacket := restored,
               log := log }
    | none =>
      some { driverSaw := some (remappedCommandBuffer, pPacket), pPacket := pPacket,
             log := log }

/-! ## Descriptor set layout destruction -/

structure packet_vkDestroyDescriptorSetLayout where
  device : Handle := 0
  descriptorSetLayout : Handle := 0
  deriving DecidableEq, Repr

/-- What `manually_replay_vkDestroyDescriptorSetLayout` leaves behind. -/
structure DestroyDescriptorSetLayoutOutcome where
  /-- The device and set layout `real_vkDestroyDescriptorSetLayout` received. -/
  driverSaw : Option (Handle × Handle)
  self : vkReplay
  log : List LogMsg
  deriving DecidableEq, Repr

/-- Embedding of `vkReplay::manually_replay_vkDestroyDescriptorSetLayout`. -/
def manually_replay_vkDestroyDescriptorSetLayout (self : vkReplay)
    (pPacket : packet_vkDestroyDescriptorSetLayout) : DestroyDescriptorSetLayoutOutcome :=
  let remappedDevice := self.m_objMapper.m_devices.lookup pPacket.device
  if remappedDevice = VK_NULL_HANDLE then
    { driverSaw := none, self := self,
      log := [vktrace_LogError
        "Skipping vkDestroyDescriptorSetLayout() due to invalid remapped VkDevice."] }
  else
    { driverSaw := some (remappedDevice, pPacket.descriptorSetLayout),
      self := { self with m_objMapper := { self.m_objMapper with
        m_descriptorsetlayouts :=
          self.m_objMapper.m_descriptorsetlayouts.remove pPacket.descriptorSetLayout } },
      log := [] }

/-! ## Graphics pipeline creation -/

structure VkPipelineShaderStageCreateInfo where
  sType : Nat := 18
  pNext : Nat := 0
  flags : Nat := 0
  stage : Nat := 0
  module : Handle := 0
  pName : Nat := 0
  pSpecializationInfo : Nat := 0
  deriving DecidableEq, Repr

structure VkPipelineViewportStateCreateInfo where
  sType : Nat := 22
  pNext : Nat := 0
  flags : Nat := 0
  viewportCount : Nat := 0
  /-- A packet-relative offset before, a real pointer after the handler's rebinding. -/
  pViewports : Nat := 0
  scissorCount : Nat := 0
  pScissors : Nat := 0
  deriving DecidableEq, Repr

structure VkPipelineMultisampleStateCreateInfo where
  sType : Nat := 24
  pNext : Nat := 0
  flags : Nat := 0
  rasterizationSamples : Nat := 0
  pSampleMask : Nat := 0
  deriving DecidableEq, Repr

/-- The create-info of one graphics pipeline.  The state blocks the handler does not open
are opaque; the viewport and multisample blocks, which it dereferences unconditionally, are
taken as present. -/
structure VkGraphicsPipelineCreateInfo where
  sType : Nat := 28
  pNext : Nat := 0
  flags : Nat := 0
  stageCount : Nat := 0
  pStages : List VkPipelineShaderStageCreateInfo := []
  pVertexInputState : Nat := 0
  pInputAssemblyState : Nat := 0
  pTessellationState : Nat := 0
  pViewportState : VkPipelineViewportStateCreateInfo := {}
  pRasterizationState : Nat := 0
  pMultisampleState : VkPipelineMultisampleStateCreateInfo := {}
  pDepthStencilState : Nat := 0
  pColorBlendState : Nat := 0
  pDynamicState : Nat := 0
  layout : Handle := 0
  renderPass : Handle := 0
  subpass : Nat := 0
  basePipelineHandle : Handle := 0
  basePipelineIndex : Int := 0
  deriving DecidableEq, Repr

structure packet_vkCreateGraphicsPipelines where
  device : Handle := 0
  pipelineCache : Handle := 0
  createInfoCount : Nat := 0
  pCreateInfos : List VkGraphicsPipelineCreateInfo := []
  /-- The recorded output array `pPacket->pPipelines`. -/
  pPipelines : List Handle := []
  result : VkResult := 0
  deriving DecidableEq, Repr

/-- The arguments of one `real_vkCreateGraphicsPipelines` call, the arrays as they stand
in memory at the call. -/
structure CreateGraphicsPipelinesCall where
  device : Handle
  pipelineCache : Handle
  createInfoCount : Nat
  pCreateInfos : List VkGraphicsPipelineCreateInfo
  deriving DecidableEq, Repr

/-- What `manually_replay_vkCreateGraphicsPipelines` leaves behind. -/
structure CreateGraphicsPipelinesOutcome where
  replayResult : VkResult
  driverSaw : Option CreateGraphicsPipelinesCall
  pPacket : packet_vkCreateGraphicsPipelines
  self : vkReplay
  deriving DecidableEq, Repr

/-- The scratch array `pRemappedStages` after the loop over the create-infos visited: each
iteration runs `pRemappedStages[j].module = remap_shadermodules(pRemappedStages[j].module)`
for `j` below that create-info's `stageCount`, on the one array. -/
def remapStagesInPlace (om : vkReplayObjMapper) :
    List VkGraphicsPipelineCreateInfo → List VkPipelineShaderStageCreateInfo →
      List VkPipelineShaderStageCreateInfo
  | [], pRemappedStages => pRemappedStages
  | createInfo :: rest, pRemappedStages =>
    remapStagesInPlace om rest
      (rewriteFirst (fun stage => { stage with module := om.m_shadermodules.lookup stage.module })
        createInfo.stageCount pRemappedStages)

/-- Embedding of `vkReplay::manually_replay_vkCreateGraphicsPipelines`.
`vktrace_trace_packet_interpret_buffer_pointer` (outside the sources) is a parameter; the
driver entry gives its result and the pipelines it wrote. -/
def manually_replay_vkCreateGraphicsPipelines
    (vktrace_trace_packet_interpret_buffer_pointer : Nat → Nat)
    (real_vkCreateGraphicsPipelines : CreateGraphicsPipelinesCall → VkResult × List Handle)
    (self : vkReplay) (pPacket : packet_vkCreateGraphicsPipelines) :
    CreateGraphicsPipelinesOutcome :=
  let remappedDevice := self.m_objMapper.m_devices.lookup pPacket.device
  if remappedDevice = VK_NULL_HANDLE then
    { replayResult := VK_ERROR_VALIDATION_FAILED_EXT, driverSaw := none, pPacket := pPacket,
      self := self }
  else
    -- remap shaders from each stage: one array, sized and copied from pCreateInfos[0]
    let first : VkGraphicsPipelineCreateInfo := pPacket.pCreateInfos.headD {}
    let pRemappedStages := first.pStages.take first.stageCount
    let visited := pPacket.pCreateInfos.take pPacket.createInfoCount
    let pRemappedStages := remapStagesInPlace self.m_objMapper visited pRemappedStages
    -- the viewport, scissor and sample-mask pointers are rebound through the pointers the
    -- local copies share with the packet
    let rebound := visited.map (fun createInfo =>
      { createInfo with
        pViewportState := { createInfo.pViewportState with
          pViewports := vktrace_trace_packet_interpret_buffer_pointer
            createInfo.pViewportState.pViewports
          pScissors := vktrace_trace_packet_interpret_buffer_pointer
            createInfo.pViewportState.pScissors }
        pMultisampleState := { createInfo.pMultisampleState with
          pSampleMask := vktrace_trace_packet_interpret_buffer_pointer
            createInfo.pMultisampleState.pSampleMask } })
    -- every pLocalCIs[i].pStages points to pRemappedStages
    let pLocalCIs := rebound.map (fun createInfo =>
      { createInfo with
        pStages := pRemappedStages
        layout := self.m_objMapper.m_pipelinelayouts.lookup createInfo.layout
        renderPass := self.m_objMapper.m_renderpasss.lookup createInfo.renderPass
        basePipelineHandle := self.m_objMapper.m_pipelines.lookup createInfo.basePipelineHandle })
    let pipelineCache := self.m_objMapper.m_pipelinecaches.lookup pPacket.pipelineCache
    let call : CreateGraphicsPipelinesCall :=
      { device := remappedDevice, pipelineCache := pipelineCache,
        createInfoCount := pPacket.createInfoCount, pCreateInfos := pLocalCIs }
    let r := real_vkCreateGraphicsPipelines call
    let self :=
      if r.1 = VK_SUCCESS then
        { self with m_objMapper := { self.m_objMapper with
            m_pipelines :=
              ((pPacket.pPipelines.take pPacket.createInfoCount).zip
                (r.2.take pPacket.createInfoCount)).foldl
                (fun table pair => HandleMap.insert table pair.1 pair.2)
                self.m_objMapper.m_pipelines } }
      else self
    { replayResult := r.1, driverSaw := some call,
      pPacket := { pPacket with
        pCreateInfos := rebound ++ pPacket.pCreateInfos.drop pPacket.createInfoCount },
      self := self }

/-! ## Replayer initialisation -/

/-- The display collaborator as `vkReplay::init` uses it: the values it reports and the
status of each of its steps (`0` for success). -/
structure DisplaySetup where
  get_gpu : Nat := 0
  get_window_handle : Nat := 0
  get_width : Nat := 0
  get_height : Nat := 0
  /-- Status of `m_display->init(gpu)`. -/
  displayInit : Nat → Int
  /-- Status of `m_display->create_window(width, height)`. -/
  create_window : Nat → Nat → Int
  /-- Status of `m_display->set_window(handle, width, height)`. -/
  set_window : Nat → Nat → Nat → Int

/-- Embedding of `vkReplay::init`: the returned status and the lines logged;
`libraryOpened` tells whether `dlopen` / `LoadLibrary` returned a non-null handle. -/
def init (libraryOpened : Bool) (disp : DisplaySetup) : Int × List LogMsg :=
  if !libraryOpened then
    (-1, [vktrace_LogError "Failed to open vulkan library."])
  else
    let err := disp.displayInit disp.get_gpu
    if err ≠ 0 then
      (err, [vktrace_LogError "Failed to init vulkan display."])
    else if disp.get_window_handle = 0 then
      let err := disp.create_window disp.get_width disp.get_height
      if err ≠ 0 then
        (err, [vktrace_LogError "Failed to create Window"])
      else (0, [])
    else
      let err := disp.set_window disp.get_window_handle disp.get_width disp.get_height
      if err ≠ 0 then
        (err, [vktrace_LogError "Failed to set Window"])
      else (0, [])

/-! ## Queue submit: scratch arrays -/

/-- The scratch arrays `manually_replay_vkQueueSubmit` obtains from `VKTRACE_NEW_ARRAY`,
each per-submit array named by the `submit_idx` of the iteration that allocated it. -/
inductive SubmitScratchArray where
  | remappedSubmits
  | pRemappedBuffers (submit_idx : Nat)
  | pRemappedWaitSems (submit_idx : Nat)
  | pRemappedSignalSems (submit_idx : Nat)
  deriving DecidableEq, Repr

/-- The arrays allocated and the arrays passed to `VKTRACE_DELETE`, in program order, when
the handler returns.  `VKTRACE_DELETE` of a null pointer releases nothing. -/
structure ScratchLedger where
  allocated : List SubmitScratchArray := []
  released : List SubmitScratchArray := []
  deriving DecidableEq, Repr

/-- The three pointer variables declared before the `submit_idx` loop, each holding the
array last assigned to it, and the allocations made so far. -/
structure SubmitScratchState where
  pRemappedBuffers : Option SubmitScratchArray := none
  pRemappedWaitSems : Option SubmitScratchArray := none
  pRemappedSignalSems : Option SubmitScratchArray := none
  allocated : List SubmitScratchArray := []
  deriving DecidableEq, Repr

/-- One iteration of the `submit_idx` loop of `manually_replay_vkQueueSubmit`, followed for
its allocations and releases: `Except.error` carries the ledger of an iteration that
returns from the handler. -/
def scratchOfSubmit (om : vkReplayObjMapper) (submit_idx : Nat) (submit : VkSubmitInfo)
    (st : SubmitScratchState) : Except ScratchLedger SubmitScratchState := do
  let st ← match submit.pCommandBuffers with
    | some bufs =>
      let allocated := st.allocated ++ [SubmitScratchArray.pRemappedBuffers submit_idx]
      match remapOrReturn om.m_commandbuffers (bufs.take submit.commandBufferCount) with
      | some _ =>
        Except.ok { st with
          pRemappedBuffers := some (SubmitScratchArray.pRemappedBuffers submit_idx)
          allocated := allocated }
      | none =>
        -- VKTRACE_DELETE(remappedSubmits); VKTRACE_DELETE(pRemappedBuffers); return
        Except.error
          { allocated := allocated,
            released := [SubmitScratchArray.remappedSubmits,
                         SubmitScratchArray.pRemappedBuffers submit_idx] }
    | none => Except.ok st
  let st ← match submit.pWaitSemaphores with
    | some sems =>
      let allocated := st.allocated ++ [SubmitScratchArray.pRemappedWaitSems submit_idx]
      match remapOrReturn om.m_semaphores (sems.take submit.waitSemaphoreCount) with
      | some _ =>
        Except.ok { st with
          pRemappedWaitSems := some (SubmitScratchArray.pRemappedWaitSems submit_idx)
          allocated := allocated }
      | none =>
        -- VKTRACE_DELETE(remappedSubmits); VKTRACE_DELETE(pRemappedWaitSems); return
        Except.error
          { allocated := allocated,
            released := [SubmitScratchArray.remappedSubmits,
                         SubmitScratchArray.pRemappedWaitSems submit_idx] }
    | none => Except.ok st
  match submit.pSignalSemaphores with
    | some sems =>
      let allocated := st.allocated ++ [SubmitScratchArray.pRemappedSignalSems submit_idx]
      match remapOrReturn om.m_semaphores (sems.take submit.signalSemaphoreCount) with
      | some _ =>
        Except.ok { st with
          pRemappedSignalSems := some (SubmitScratchArray.pRemappedSignalSems submit_idx)
          allocated := allocated }
      | none =>
        -- VKTRACE_DELETE(remappedSubmits); VKTRACE_DELETE(pRemappedSignalSems); return
        Except.error
          { allocated := allocated,
            released := [SubmitScratchArray.remappedSubmits,
                         SubmitScratchArray.pRemappedSignalSems submit_idx] }
    | none => Except.ok st

/-- The `submit_idx` loop from index `submit_idx` on, over the submits still to visit. -/
def scratchOfSubmits (om : vkReplayObjMapper) :
    Nat → List VkSubmitInfo → SubmitScratchState → Except ScratchLedger SubmitScratchState
  | _, [], st => Except.ok st
  | submit_idx, submit :: rest, st =>
    match scratchOfSubmit om submit_idx submit st with
    | Except.error ledger => Except.error ledger
    | Except.ok st => scratchOfSubmits om (submit_idx + 1) rest st

/-- The allocations and releases of `vkReplay::manually_replay_vkQueueSubmit`, following the
control flow of the handler on the same packet. -/
def manually_replay_vkQueueSubmit_scratch (self : vkReplay) (pPacket : packet_vkQueueSubmit) :
    ScratchLedger :=
  let remappedQueue := self.m_objMapper.m_queues.lookup pPacket.queue
  if remappedQueue = VK_NULL_HANDLE then {}
  else
    let remappedFence := self.m_objMapper.m_fences.lookup pPacket.fence
    if pPacket.fence ≠ VK_NULL_HANDLE ∧ remappedFence = VK_NULL_HANDLE then {}
    else
      match scratchOfSubmits self.m_objMapper 0 (pPacket.pSubmits.take pPacket.submitCount)
          { allocated := [SubmitScratchArray.remappedSubmits] } with
      | Except.error ledger => ledger
      | Except.ok st =>
        -- after the driver call: the three pointer variables, then remappedSubmits
        { allocated := st.allocated,
          released := st.pRemappedBuffers.toList ++ st.pRemappedWaitSems.toList ++
            st.pRemappedSignalSems.toList ++ [SubmitScratchArray.remappedSubmits] }

/-! ## Swapchain present: scratch arrays -/

inductive PresentArray where
  | pRemappedSwapchains
  | pRemappedWaitSems
  | pResults
  deriving DecidableEq, Repr

/-- One indexing of a scratch array of `manually_replay_vkQueuePresentKHR`: the array, the
index, whether the pointer still is the local five-entry array, the number of entries of
the array the pointer designates, and whether the driver (rather than the handler) makes
the access. -/
structure PresentAccess where
  array : PresentArray
  index : Nat
  onStack : Bool
  capacity : Nat
  byDriver : Bool := false
  deriving DecidableEq, Repr

/-- Number of iterations the wait-semaphore loop of `manually_replay_vkQueuePresentKHR`
enters: it stops after the first entry whose lookup is null. -/
def waitLoopIterations (m : HandleMap) : List Handle → Nat
  | [] => 0
  | h :: rest =>
    if m.lookup h = VK_NULL_HANDLE then 1 else 1 + waitLoopIterations m rest

/-- The scratch-array accesses of `vkReplay::manually_replay_vkQueuePresentKHR`, in program
order, following the control flow of the handler.  The driver is taken to write
`swapchainCount` entries through a non-null `present.pResults`. -/
def manually_replay_vkQueuePresentKHR_accesses
    (scratch : PresentScratch) (self : vkReplay) (pPacket : packet_vkQueuePresentKHR) :
    List PresentAccess :=
  let info := pPacket.pPresentInfo
  -- each pointer starts at its local array of five and is replaced by a heap array of
  -- `count` entries under the conditions of the three `if`s
  let swapchainsOnHeap := decide (info.swapchainCount > 5)
  let resultsOnHeap := decide (info.swapchainCount > 5) && info.pResults.isSome
  let waitSemsOnHeap := decide (info.waitSemaphoreCount > 5)
  let pRemappedSwapchainsNull := swapchainsOnHeap && !scratch.swapchains
  let pResultsNull := resultsOnHeap && !scratch.results
  let pRemappedWaitSemsNull := waitSemsOnHeap && !scratch.waitSems
  if pRemappedSwapchainsNull || pRemappedWaitSemsNull || pResultsNull then []
  else
    let swapchainAccess (i : Nat) : PresentAccess :=
      { array := PresentArray.pRemappedSwapchains, index := i, onStack := !swapchainsOnHeap,
        capacity := if swapchainsOnHeap then info.swapchainCount else 5 }
    let waitAccess (i : Nat) : PresentAccess :=
      { array := PresentArray.pRemappedWaitSems, index := i, onStack := !waitSemsOnHeap,
        capacity := if waitSemsOnHeap then info.waitSemaphoreCount else 5 }
    let resultAccess (driver : Bool) (i : Nat) : PresentAccess :=
      { array := PresentArray.pResults, index := i, onStack := !resultsOnHeap,
        capacity := if resultsOnHeap then info.swapchainCount else 5, byDriver := driver }
    let swapchainLoop := (List.range info.swapchainCount).map swapchainAccess
    let visitedWait := info.pWaitSemaphores.take info.waitSemaphoreCount
    let waitLoop :=
      if info.waitSemaphoreCount ≠ 0 then
        (List.range (waitLoopIterations self.m_objMapper.m_semaphores visitedWait)).map
          waitAccess
      else []
    let waitFailed := decide (info.waitSemaphoreCount ≠ 0) &&
      (remapOrReturn self.m_objMapper.m_semaphores visitedWait).isNone
    if waitFailed then swapchainLoop ++ waitLoop
    else
      match info.pResults with
      | some _ =>
        swapchainLoop ++ waitLoop ++
          (List.range info.swapchainCount).map (resultAccess true) ++
          (List.range info.swapchainCount).map (resultAccess false)
      | none => swapchainLoop ++ waitLoop

/-! ## Swapchain images -/

structure packet_vkGetSwapchainImagesKHR where
  device : Handle := 0
  swapchain : Handle := 0
  /-- The value `*pSwapchainImageCount` recorded in the packet. -/
  pSwapchainImageCount : Nat := 0
  pSwapchainImages : Option (List Handle) := none
  result : VkResult := 0
  deriving DecidableEq, Repr

/-- The arguments of one `real_vkGetSwapchainImagesKHR` call: the count and the array are
the packet's own, passed by pointer. -/
structure GetSwapchainImagesCall where
  device : Handle
  swapchain : Handle
  pSwapchainImageCount : Nat
  pSwapchainImages : Option (List Handle)
  deriving DecidableEq, Repr

/-- What `manually_replay_vkGetSwapchainImagesKHR` leaves behind. -/
structure GetSwapchainImagesOutcome where
  replayResult : VkResult
  driverSaw : Option GetSwapchainImagesCall
  /-- The indices of the local `packetImage[128]` written before the driver call. -/
  packetImageWritten : List Nat
  /-- The indices of `packetImage` read after the driver call. -/
  packetImageRead : List Nat
  pPacket : packet_vkGetSwapchainImagesKHR
  self : vkReplay
  deriving DecidableEq, Repr

/-- The number of entries of the local array `VkImage packetImage[128]`. -/
def packetImageCapacity : Nat := 128

/-- The loop bound `numImages` of `manually_replay_vkGetSwapchainImagesKHR`: the recorded
`*pSwapchainImageCount` when `pSwapchainImages` is non-null, otherwise 0. -/
def numImages (pPacket : packet_vkGetSwapchainImagesKHR) : Nat :=
  match pPacket.pSwapchainImages with
  | some _ => pPacket.pSwapchainImageCount
  | none => 0

/-- Embedding of `vkReplay::manually_replay_vkGetSwapchainImagesKHR`.  The driver entry
gives its result, the count it wrote and the content of the image array after the call.
The handler writes `packetImage[i]` for every `i` below `numImages` with no test against
the 128 entries of the array: `none` stands for a run that writes past its end. -/
def manually_replay_vkGetSwapchainImagesKHR
    (real_vkGetSwapchainImagesKHR : GetSwapchainImagesCall → VkResult × Nat × List Handle)
    (self : vkReplay) (pPacket : packet_vkGetSwapchainImagesKHR) :
    Option GetSwapchainImagesOutcome :=
  let remappeddevice := self.m_objMapper.m_devices.lookup pPacket.device
  let remappedswapchain := self.m_objMapper.m_swapchainkhrs.lookup pPacket.swapchain
  let numImages := numImages pPacket
  let written := List.range numImages
  if written.any (fun i => decide (packetImageCapacity ≤ i)) then none
  else
    -- packetImage[i] = pPacketImages[i]
    let packetImage := (pPacket.pSwapchainImages.getD []).take numImages
    let call : GetSwapchainImagesCall :=
      { device := remappeddevice, swapchain := remappedswapchain,
        pSwapchainImageCount := pPacket.pSwapchainImageCount,
        pSwapchainImages := pPacket.pSwapchainImages }
    let r := real_vkGetSwapchainImagesKHR call
    let replayResult := r.1
    -- the driver wrote through the packet's own pointers
    let pPacket := { pPacket with
      pSwapchainImageCount := r.2.1
      pSwapchainImages := pPacket.pSwapchainImages.map (fun _ => r.2.2) }
    if replayResult = VK_SUCCESS ∧ numImages ≠ 0 then
      let pReplayImages := (pPacket.pSwapchainImages.getD []).take numImages
      some
        { replayResult := replayResult, driverSaw := some call, packetImageWritten := written,
          packetImageRead := List.range numImages, pPacket := pPacket,
          self := { self with m_objMapper := { self.m_objMapper with
            m_images := (packetImage.zip pReplayImages).foldl
              (fun table pair => HandleMap.insert table pair.1 pair.2)
              self.m_objMapper.m_images } } }
    else
      some
        { replayResult := replayResult, driverSaw := some call, packetImageWritten := written,
          packetImageRead := [], pPacket := pPacket, self := self }

/-- The count that sizes a scratch array of `manually_replay_vkQueuePresentKHR` in the
claim's words: `swapchainCount` for the swapchain and result arrays, `waitSemaphoreCount`
for the wait-semaphore array. -/
def presentArrayCount (info : VkPresentInfoKHR) : PresentArray → Nat
  | PresentArray.pRemappedSwapchains => info.swapchainCount
  | PresentArray.pRemappedWaitSems => info.waitSemaphoreCount
  | PresentArray.pResults => info.swapchainCount

/-! ## Theorems -/

/-- C1: for every live result, recorded result and incoming status, `handle_replay_errors`
returns `VKTRACE_REPLAY_BAD_RETURN` when the live result differs from the recorded one and
returns the incoming status unchanged when they are equal. -/
theorem handle_replay_errors_status (entrypointName : String) (resCall resTrace : VkResult)
    (resIn : VKTRACE_REPLAY_RESULT) :
    (resCall ≠ resTrace →
      (handle_replay_errors entrypointName resCall resTrace resIn).1 = VKTRACE_REPLAY_BAD_RETURN) ∧
    (resCall = resTrace →
      (handle_replay_errors entrypointName resCall resTrace resIn).1 = resIn) := by
  constructor
  · intro h
    simp [handle_replay_errors, h]
  · intro h
    simp [handle_replay_errors, h]

/-- Witness of C1 at a mismatching pair and at a matching pair. -/
theorem handle_replay_errors_status_witness :
    (handle_replay_errors "vkQueueSubmit" VK_ERROR_DEVICE_LOST VK_SUCCESS
        VKTRACE_REPLAY_SUCCESS).1 = VKTRACE_REPLAY_BAD_RETURN ∧
    (handle_replay_errors "vkQueueSubmit" VK_NOT_READY VK_NOT_READY
        VKTRACE_REPLAY_VALIDATION_ERROR).1 = VKTRACE_REPLAY_VALIDATION_ERROR :=
  ⟨(handle_replay_errors_status "vkQueueSubmit" VK_ERROR_DEVICE_LOST VK_SUCCESS
      VKTRACE_REPLAY_SUCCESS).1 (by decide),
   (handle_replay_errors_status "vkQueueSubmit" VK_NOT_READY VK_NOT_READY
      VKTRACE_REPLAY_VALIDATION_ERROR).2 rfl⟩

/-! ### Handle map lemmas -/

theorem HandleMap.lookup_insert_self (m : HandleMap) (recorded live : Handle)
    (h : recorded ≠ VK_NULL_HANDLE) : (m.insert recorded live).lookup recorded = live := by
  simp [HandleMap.lookup, HandleMap.insert, h, List.lookup]

/-! ### Instance creation: extensions -/

/-- C2: when the display is not yet initialised the driver is called, and an extension
name is in the create-info it receives exactly when it is the host surface extension or a
recorded name that is not a foreign-platform one (on Linux: everything recorded except
`VK_KHR_win32_surface`, plus `VK_KHR_xcb_surface`); the count passed is the length of that
list; and after the handler returns, whatever the driver did, the packet's
`ppEnabledExtensionNames` and `enabledExtensionCount` are the pre-call ones. -/
theorem createInstance_extension_filtering (platform : Platform) (drv : InstanceDriver)
    (g_pReplaySettings : vkreplayer_settings) (self : vkReplay)
    (pPacket : packet_vkCreateInstance) :
    (self.m_initedVK = false →
      ∃ ci, (manually_replay_vkCreateInstance platform drv g_pReplaySettings self
              pPacket).driverSaw = some ci ∧
        ci.enabledExtensionCount = ci.ppEnabledExtensionNames.length ∧
        ∀ e, e ∈ ci.ppEnabledExtensionNames ↔
          ((e ∈ pPacket.pCreateInfo.ppEnabledExtensionNames.take
                pPacket.pCreateInfo.enabledExtensionCount ∧ e ∉ outlist platform) ∨
            e = hostSurfaceExtension platform)) ∧
    (manually_replay_vkCreateInstance platform drv g_pReplaySettings self
        pPacket).pPacket.pCreateInfo.ppEnabledExtensionNames =
      pPacket.pCreateInfo.ppEnabledExtensionNames ∧
    (manually_replay_vkCreateInstance platform drv g_pReplaySettings self
        pPacket).pPacket.pCreateInfo.enabledExtensionCount =
      pPacket.pCreateInfo.enabledExtensionCount ∧
    outlist Platform.linux = ["VK_KHR_win32_surface"] ∧
    hostSurfaceExtension Platform.linux = "VK_KHR_xcb_surface" := by
  refine ⟨?_, ?_, ?_, rfl, rfl⟩
  · intro h
    refine ⟨_, by simp [manually_replay_vkCreateInstance, h]; rfl, ?_, ?_⟩
    · cases hs : screenshotLayerScratch g_pReplaySettings.screenshotList
        drv.real_vkEnumerateInstanceLayerProperties pPacket.pCreateInfo.enabledLayerCount
        pPacket.pCreateInfo.ppEnabledLayerNames <;> simp
    · intro e
      cases hs : screenshotLayerScratch g_pReplaySettings.screenshotList
        drv.real_vkEnumerateInstanceLayerProperties pPacket.pCreateInfo.enabledLayerCount
        pPacket.pCreateInfo.ppEnabledLayerNames <;>
      simp [extension_names, List.mem_filter] <;> tauto
  · cases h : self.m_initedVK <;>
    cases hs : screenshotLayerScratch g_pReplaySettings.screenshotList
        drv.real_vkEnumerateInstanceLayerProperties pPacket.pCreateInfo.enabledLayerCount
        pPacket.pCreateInfo.ppEnabledLayerNames <;>
    simp [manually_replay_vkCreateInstance, h, hs]
  · cases h : self.m_initedVK <;>
    cases hs : screenshotLayerScratch g_pReplaySettings.screenshotList
        drv.real_vkEnumerateInstanceLayerProperties pPacket.pCreateInfo.enabledLayerCount
        pPacket.pCreateInfo.ppEnabledLayerNames <;>
    simp [manually_replay_vkCreateInstance, h, hs]

/-- Scenario B as a witness of C2: on Linux the recorded list `{"VK_KHR_win32_surface"}`
reaches the driver as `{"VK_KHR_xcb_surface"}`. -/
theorem createInstance_extension_filtering_witness :
    ∃ ci, (manually_replay_vkCreateInstance Platform.linux
            ⟨[], fun _ => (VK_SUCCESS, 77), fun _ => [], fun _ _ => (VK_SUCCESS, 88)⟩ {} {}
            { pCreateInfo := { enabledExtensionCount := 1,
                               ppEnabledExtensionNames := ["VK_KHR_win32_surface"] },
              pInstance := 5 }).driverSaw = some ci ∧
      ci.enabledExtensionCount = ci.ppEnabledExtensionNames.length ∧
      ∀ e, e ∈ ci.ppEnabledExtensionNames ↔
        ((e ∈ ["VK_KHR_win32_surface"].take 1 ∧ e ∉ outlist Platform.linux) ∨
          e = hostSurfaceExtension Platform.linux) :=
  (createInstance_extension_filtering Platform.linux
    ⟨[], fun _ => (VK_SUCCESS, 77), fun _ => [], fun _ _ => (VK_SUCCESS, 88)⟩ {} {}
    { pCreateInfo := { enabledExtensionCount := 1,
                       ppEnabledExtensionNames := ["VK_KHR_win32_surface"] },
      pInstance := 5 }).1 rfl

/-! ### Creation handlers and the handle map -/

/-- C4 (amended): for `manually_replay_vkCreateInstance` (display not yet initialised),
`manually_replay_vkCreateDevice` (physical device mapped) and
`manually_replay_vkCreateFramebuffer` (device mapped): if the driver call returns
`VK_SUCCESS` and the recorded output handle is not the null handle, lookup of the recorded
output handle in that kind's map afterwards returns exactly the handle the driver produced;
if the driver returns any other result the map is unchanged.  The driver is called, and the
handler returns its result, in each of the three cases as long as the display is not yet
initialised; with the display initialised the first two handlers do not call the driver and
change nothing. -/
theorem creation_inserts_recorded_to_live (platform : Platform) (drv : InstanceDriver)
    (real_vkCreateFramebuffer : Handle → VkFramebufferCreateInfo → VkResult × Handle)
    (g_pReplaySettings : vkreplayer_settings) (self : vkReplay)
    (pInst : packet_vkCreateInstance) (pDev : packet_vkCreateDevice)
    (pFb : packet_vkCreateFramebuffer) :
    (self.m_initedVK = false →
      ∃ ci, (manually_replay_vkCreateInstance platform drv g_pReplaySettings self
              pInst).driverSaw = some ci ∧
        (manually_replay_vkCreateInstance platform drv g_pReplaySettings self
              pInst).replayResult = (drv.real_vkCreateInstance ci).1 ∧
        ((drv.real_vkCreateInstance ci).1 = VK_SUCCESS → pInst.pInstance ≠ VK_NULL_HANDLE →
          (manually_replay_vkCreateInstance platform drv g_pReplaySettings self
              pInst).self.m_objMapper.m_instances.lookup pInst.pInstance =
            (drv.real_vkCreateInstance ci).2) ∧
        ((drv.real_vkCreateInstance ci).1 ≠ VK_SUCCESS →
          (manually_replay_vkCreateInstance platform drv g_pReplaySettings self
              pInst).self.m_objMapper.m_instances = self.m_objMapper.m_instances)) ∧
    (self.m_initedVK = false →
      self.m_objMapper.m_physicaldevices.lookup pDev.physicalDevice ≠ VK_NULL_HANDLE →
      ∃ pd ci, (manually_replay_vkCreateDevice drv g_pReplaySettings self
              pDev).driverSaw = some (pd, ci) ∧
        (manually_replay_vkCreateDevice drv g_pReplaySettings self
              pDev).replayResult = (drv.real_vkCreateDevice pd ci).1 ∧
        ((drv.real_vkCreateDevice pd ci).1 = VK_SUCCESS → pDev.pDevice ≠ VK_NULL_HANDLE →
          (manually_replay_vkCreateDevice drv g_pReplaySettings self
              pDev).self.m_objMapper.m_devices.lookup pDev.pDevice =
            (drv.real_vkCreateDevice pd ci).2) ∧
        ((drv.real_vkCreateDevice pd ci).1 ≠ VK_SUCCESS →
          (manually_replay_vkCreateDevice drv g_pReplaySettings self
              pDev).self.m_objMapper.m_devices = self.m_objMapper.m_devices)) ∧
    (self.m_objMapper.m_devices.lookup pFb.device ≠ VK_NULL_HANDLE →
      ∃ dev ci, (manually_replay_vkCreateFramebuffer real_vkCreateFramebuffer self
              pFb).driverSaw = some (dev, ci) ∧
        (manually_replay_vkCreateFramebuffer real_vkCreateFramebuffer self
              pFb).replayResult = (real_vkCreateFramebuffer dev ci).1 ∧
        ((real_vkCreateFramebuffer dev ci).1 = VK_SUCCESS →
          pFb.pFramebuffer ≠ VK_NULL_HANDLE →
          (manually_replay_vkCreateFramebuffer real_vkCreateFramebuffer self
              pFb).self.m_objMapper.m_framebuffers.lookup pFb.pFramebuffer =
            (real_vkCreateFramebuffer dev ci).2) ∧
        ((real_vkCreateFramebuffer dev ci).1 ≠ VK_SUCCESS →
          (manually_replay_vkCreateFramebuffer real_vkCreateFramebuffer self
              pFb).self.m_objMapper.m_framebuffers = self.m_objMapper.m_framebuffers)) ∧
    (self.m_initedVK = true →
      (manually_replay_vkCreateInstance platform drv g_pReplaySettings self
          pInst).driverSaw = none ∧
      (manually_replay_vkCreateInstance platform drv g_pReplaySettings self
          pInst).self = self ∧
      (manually_replay_vkCreateDevice drv g_pReplaySettings self pDev).driverSaw = none ∧
      (manually_replay_vkCreateDevice drv g_pReplaySettings self pDev).self = self) := by
  refine ⟨?_, ?_, ?_, ?_⟩
  · intro h
    simp only [manually_replay_vkCreateInstance, h, Bool.not_false, if_true]
    refine ⟨_, rfl, rfl, ?_, ?_⟩
    · intro hs hn
      simp only [hs, if_true]
      exact HandleMap.lookup_insert_self _ _ _ hn
    · intro hs
      simp only [if_neg hs]
  · intro h hp
    simp only [manually_replay_vkCreateDevice, h, Bool.not_false, if_true, if_neg hp]
    refine ⟨_, _, rfl, rfl, ?_, ?_⟩
    · intro hs hn
      simp only [hs, if_true]
      exact HandleMap.lookup_insert_self _ _ _ hn
    · intro hs
      simp only [if_neg hs]
  · intro hp
    simp only [manually_replay_vkCreateFramebuffer, if_neg hp]
    refine ⟨_, _, rfl, rfl, ?_, ?_⟩
    · intro hs hn
      simp only [hs, if_true]
      exact HandleMap.lookup_insert_self _ _ _ hn
    · intro hs
      simp only [if_neg hs]
  · intro h
    simp [manually_replay_vkCreateInstance, manually_replay_vkCreateDevice, h]

/-- Witness of C4 (amended): with the display not initialised, physical device `3` mapped to
`30` and device `4` mapped to `40`, the three handlers map the recorded handles `5`, `6` and
`7` to the handles `77`, `88` and `99` the driver produced. -/
theorem creation_inserts_recorded_to_live_witness :
    (manually_replay_vkCreateInstance Platform.linux
        ⟨[], fun _ => (VK_SUCCESS, 77), fun _ => [], fun _ _ => (VK_SUCCESS, 88)⟩ {}
        { m_objMapper := { m_physicaldevices := [(3, 30)], m_devices := [(4, 40)] } }
        { pInstance := 5 }).self.m_objMapper.m_instances.lookup 5 = 77 ∧
    (manually_replay_vkCreateDevice
        ⟨[], fun _ => (VK_SUCCESS, 77), fun _ => [], fun _ _ => (VK_SUCCESS, 88)⟩ {}
        { m_objMapper := { m_physicaldevices := [(3, 30)], m_devices := [(4, 40)] } }
        { physicalDevice := 3, pDevice := 6 }).self.m_objMapper.m_devices.lookup 6 = 88 ∧
    (manually_replay_vkCreateFramebuffer (fun _ _ => (VK_SUCCESS, 99))
        { m_objMapper := { m_physicaldevices := [(3, 30)], m_devices := [(4, 40)] } }
        { device := 4, pFramebuffer := 7 }).self.m_objMapper.m_framebuffers.lookup 7 = 99 := by
  have key := creation_inserts_recorded_to_live Platform.linux
    ⟨[], fun _ => (VK_SUCCESS, 77), fun _ => [], fun _ _ => (VK_SUCCESS, 88)⟩
    (fun _ _ => (VK_SUCCESS, 99)) {}
    { m_objMapper := { m_physicaldevices := [(3, 30)], m_devices := [(4, 40)] } }
    { pInstance := 5 } { physicalDevice := 3, pDevice := 6 } { device := 4, pFramebuffer := 7 }
  obtain ⟨hi, hd, hf, _⟩ := key
  obtain ⟨_, _, _, hi, _⟩ := hi rfl
  obtain ⟨_, _, _, _, hd, _⟩ := hd rfl (by decide)
  obtain ⟨_, _, _, _, hf, _⟩ := hf (by decide)
  exact ⟨hi rfl (by decide), hd rfl (by decide), hf rfl (by decide)⟩

/-- Counterexample to C4 as stated: an instance-create packet whose recorded output handle
is the null handle, replayed against a driver that succeeds and produces the handle `77`.
The driver call returns `VK_SUCCESS`, yet the lookup of the recorded handle returns the null
handle, not `77`. -/
theorem creation_null_recorded_counterexample :
    (manually_replay_vkCreateInstance Platform.linux
        ⟨[], fun _ => (VK_SUCCESS, 77), fun _ => [], fun _ _ => (VK_SUCCESS, 88)⟩ {} {}
        { pInstance := VK_NULL_HANDLE }).replayResult = VK_SUCCESS ∧
    (manually_replay_vkCreateInstance Platform.linux
        ⟨[], fun _ => (VK_SUCCESS, 77), fun _ => [], fun _ _ => (VK_SUCCESS, 88)⟩ {} {}
        { pInstance := VK_NULL_HANDLE }).driverHandle = some 77 ∧
    (manually_replay_vkCreateInstance Platform.linux
        ⟨[], fun _ => (VK_SUCCESS, 77), fun _ => [], fun _ _ => (VK_SUCCESS, 88)⟩ {} {}
        { pInstance := VK_NULL_HANDLE }).self.m_objMapper.m_instances.lookup VK_NULL_HANDLE
      ≠ 77 := by
  refine ⟨rfl, rfl, ?_⟩
  simp [HandleMap.lookup]

/-! ### Instance and device creation: layers -/

/-- C7 (evaluation at the failing input): with the screenshot setting on, a host that
reports the screenshot layer and a packet recording no layer (`enabledLayerCount = 0`), both
`manually_replay_vkCreateInstance` and `manually_replay_vkCreateDevice` show the driver one
layer and return with the packet's `ppEnabledLayerNames` back at the recorded array but with
`enabledLayerCount = 1`, not the pre-call `0`. -/
theorem create_layer_count_left_incremented :
    ((manually_replay_vkCreateInstance Platform.linux
        ⟨[strScreenShot], fun _ => (VK_SUCCESS, 77), fun _ => [strScreenShot],
          fun _ _ => (VK_SUCCESS, 88)⟩ { screenshotList := some "1" } {}
        { pInstance := 5 }).pPacket.pCreateInfo.ppEnabledLayerNames = [] ∧
     (manually_replay_vkCreateInstance Platform.linux
        ⟨[strScreenShot], fun _ => (VK_SUCCESS, 77), fun _ => [strScreenShot],
          fun _ _ => (VK_SUCCESS, 88)⟩ { screenshotList := some "1" } {}
        { pInstance := 5 }).pPacket.pCreateInfo.enabledLayerCount = 1) ∧
    ((manually_replay_vkCreateDevice
        ⟨[strScreenShot], fun _ => (VK_SUCCESS, 77), fun _ => [strScreenShot],
          fun _ _ => (VK_SUCCESS, 88)⟩ { screenshotList := some "1" }
        { m_objMapper := { m_physicaldevices := [(3, 30)] } }
        { physicalDevice := 3, pDevice := 6 }).pPacket.pCreateInfo.ppEnabledLayerNames = [] ∧
     (manually_replay_vkCreateDevice
        ⟨[strScreenShot], fun _ => (VK_SUCCESS, 77), fun _ => [strScreenShot],
          fun _ _ => (VK_SUCCESS, 88)⟩ { screenshotList := some "1" }
        { m_objMapper := { m_physicaldevices := [(3, 30)] } }
        { physicalDevice := 3, pDevice := 6 }).pPacket.pCreateInfo.enabledLayerCount = 1) := by
  refine ⟨⟨?_, ?_⟩, ?_, ?_⟩ <;>
  simp [manually_replay_vkCreateInstance, manually_replay_vkCreateDevice,
    screenshotLayerScratch, HandleMap.lookup, List.lookup]

/-- C8: when the display is not yet initialised the driver is called, and the layer list
it receives is the recorded list with `"VK_LAYER_LUNARG_screenshot"` appended as last
element (and the count one larger) when `screenshotList` is set, the recorded list does
not contain that name and the host's instance layer enumeration reports it; in every other
case the driver receives the recorded layer array and count unchanged.  For an empty recorded
list under those conditions the driver receives the one-element list. -/
theorem createInstance_screenshot_layer (platform : Platform) (drv : InstanceDriver)
    (g_pReplaySettings : vkreplayer_settings) (self : vkReplay)
    (pPacket : packet_vkCreateInstance) (h : self.m_initedVK = false) :
    ∃ ci, (manually_replay_vkCreateInstance platform drv g_pReplaySettings self
            pPacket).driverSaw = some ci ∧
      ((g_pReplaySettings.screenshotList ≠ none ∧
          strScreenShot ∉ enabledLayers pPacket.pCreateInfo.enabledLayerCount
            pPacket.pCreateInfo.ppEnabledLayerNames ∧
          strScreenShot ∈ drv.real_vkEnumerateInstanceLayerProperties) →
        ci.ppEnabledLayerNames =
            enabledLayers pPacket.pCreateInfo.enabledLayerCount
              pPacket.pCreateInfo.ppEnabledLayerNames ++ [strScreenShot] ∧
          ci.enabledLayerCount = pPacket.pCreateInfo.enabledLayerCount + 1 ∧
          (pPacket.pCreateInfo.enabledLayerCount = pPacket.pCreateInfo.ppEnabledLayerNames.length →
            ci.ppEnabledLayerNames = pPacket.pCreateInfo.ppEnabledLayerNames ++ [strScreenShot]) ∧
          (enabledLayers pPacket.pCreateInfo.enabledLayerCount
              pPacket.pCreateInfo.ppEnabledLayerNames = [] →
            enabledLayers ci.enabledLayerCount ci.ppEnabledLayerNames = [strScreenShot])) ∧
      (¬(g_pReplaySettings.screenshotList ≠ none ∧
          strScreenShot ∉ enabledLayers pPacket.pCreateInfo.enabledLayerCount
            pPacket.pCreateInfo.ppEnabledLayerNames ∧
          strScreenShot ∈ drv.real_vkEnumerateInstanceLayerProperties) →
        ci.ppEnabledLayerNames = pPacket.pCreateInfo.ppEnabledLayerNames ∧
          ci.enabledLayerCount = pPacket.pCreateInfo.enabledLayerCount) := by
  simp only [manually_replay_vkCreateInstance, h, Bool.not_false, if_true]
  refine ⟨_, rfl, ?_, ?_⟩
  · rintro ⟨hs, hrec, hhost⟩
    have hscr : screenshotLayerScratch g_pReplaySettings.screenshotList
        drv.real_vkEnumerateInstanceLayerProperties pPacket.pCreateInfo.enabledLayerCount
        pPacket.pCreateInfo.ppEnabledLayerNames =
        some (pPacket.pCreateInfo.ppEnabledLayerNames.take pPacket.pCreateInfo.enabledLayerCount
          ++ [strScreenShot]) := by
      have hs' : g_pReplaySettings.screenshotList.isSome = true :=
        Option.isSome_iff_ne_none.mpr hs
      simp only [enabledLayers] at hrec
      simp [screenshotLayerScratch, hs', hrec, hhost]
    simp only [hscr, enabledLayers]
    refine ⟨trivial, trivial, ?_, ?_⟩
    · intro hlen
      rw [hlen, List.take_length]
    · intro hempty
      simp [hempty]
  · intro hn
    have hscr : screenshotLayerScratch g_pReplaySettings.screenshotList
        drv.real_vkEnumerateInstanceLayerProperties pPacket.pCreateInfo.enabledLayerCount
        pPacket.pCreateInfo.ppEnabledLayerNames = none := by
      simp only [enabledLayers] at hn
      unfold screenshotLayerScratch
      cases hsl : g_pReplaySettings.screenshotList with
      | none => simp
      | some v =>
        simp only [hsl, ne_eq, not_false_eq_true, true_and, not_and, reduceCtorEq,
          Decidable.not_not] at hn
        by_cases hrec : strScreenShot ∈
            pPacket.pCreateInfo.ppEnabledLayerNames.take pPacket.pCreateInfo.enabledLayerCount
        · simp [hrec]
        · simp [hrec, hn hrec]
    simp only [hscr]
    exact ⟨trivial, trivial⟩

/-- Scenario F as a witness of C8: screenshot setting on, host reports the layer, recorded
layer list empty; the driver receives the one-element list. -/
theorem createInstance_screenshot_layer_witness :
    ∃ ci, (manually_replay_vkCreateInstance Platform.linux
            ⟨[strScreenShot], fun _ => (VK_SUCCESS, 77), fun _ => [],
              fun _ _ => (VK_SUCCESS, 88)⟩ { screenshotList := some "1" } {}
            { pInstance := 5 }).driverSaw = some ci ∧
      ci.ppEnabledLayerNames = ["VK_LAYER_LUNARG_screenshot"] ∧ ci.enabledLayerCount = 1 := by
  obtain ⟨ci, hsaw, hyes, _⟩ := createInstance_screenshot_layer Platform.linux
    ⟨[strScreenShot], fun _ => (VK_SUCCESS, 77), fun _ => [], fun _ _ => (VK_SUCCESS, 88)⟩
    { screenshotList := some "1" } {} { pInstance := 5 } rfl
  have hcond := hyes ⟨by simp, by simp [enabledLayers], by simp⟩
  exact ⟨ci, hsaw, by simpa [enabledLayers, strScreenShot] using hcond.1, by simpa using hcond.2.1⟩

/-! ### Queue submit -/

theorem HandleMap.lookup_of_not_contains (m : HandleMap) (h : Handle)
    (habsent : m.contains h = false) : m.lookup h = VK_NULL_HANDLE := by
  unfold HandleMap.contains at habsent
  unfold HandleMap.lookup
  split
  · rfl
  · cases hl : List.lookup h m with
    | none => rfl
    | some v => simp [hl] at habsent

theorem remapOrReturn_none_of_mem (m : HandleMap) (l : List Handle) (h : Handle)
    (hmem : h ∈ l) (hnull : m.lookup h = VK_NULL_HANDLE) : remapOrReturn m l = none := by
  induction l with
  | nil => cases hmem
  | cons a rest ih =>
    unfold remapOrReturn
    by_cases ha : m.lookup a = VK_NULL_HANDLE
    · simp [ha]
    · rcases List.mem_cons.mp hmem with rfl | hr
      · exact absurd hnull ha
      · simp [ha, ih hr]

theorem remapSubmit_none_of_commandBuffer (om : vkReplayObjMapper) (submit : VkSubmitInfo)
    (bufs : List Handle) (hb : submit.pCommandBuffers = some bufs) (h : Handle)
    (hmem : h ∈ bufs.take submit.commandBufferCount)
    (hnull : om.m_commandbuffers.lookup h = VK_NULL_HANDLE) : remapSubmit om submit = none := by
  simp [remapSubmit, hb, remapOrReturn_none_of_mem _ _ h hmem hnull]

theorem remapSubmits_none_of_mem (om : vkReplayObjMapper) (l : List VkSubmitInfo)
    (submit : VkSubmitInfo) (hmem : submit ∈ l) (hnone : remapSubmit om submit = none) :
    remapSubmits om l = none := by
  induction l with
  | nil => cases hmem
  | cons a rest ih =>
    unfold remapSubmits
    rcases List.mem_cons.mp hmem with rfl | hr
    · simp [hnone]
    · cases remapSubmit om a with
      | none => rfl
      | some r => simp [ih hr]

/-- C3: for every packet whose queue is mapped and in which some submit's command-buffer
list contains a recorded handle that is not present in the command-buffer map,
`manually_replay_vkQueueSubmit` returns `VK_ERROR_VALIDATION_FAILED_EXT` and
`real_vkQueueSubmit` is not invoked. -/
theorem queueSubmit_unmapped_commandBuffer (real_vkQueueSubmit : QueueSubmitCall → VkResult)
    (self : vkReplay) (pPacket : packet_vkQueueSubmit)
    (hqueue : self.m_objMapper.m_queues.lookup pPacket.queue ≠ VK_NULL_HANDLE)
    (hbad : ∃ submit ∈ pPacket.pSubmits.take pPacket.submitCount,
      ∃ bufs, submit.pCommandBuffers = some bufs ∧
        ∃ h ∈ bufs.take submit.commandBufferCount,
          self.m_objMapper.m_commandbuffers.contains h = false) :
    (manually_replay_vkQueueSubmit real_vkQueueSubmit self pPacket).replayResult =
        VK_ERROR_VALIDATION_FAILED_EXT ∧
      (manually_replay_vkQueueSubmit real_vkQueueSubmit self pPacket).driverSaw = none := by
  obtain ⟨submit, hsub, bufs, hb, h, hmem, habsent⟩ := hbad
  have hnone := remapSubmits_none_of_mem self.m_objMapper _ submit hsub
    (remapSubmit_none_of_commandBuffer _ _ bufs hb h hmem
      (HandleMap.lookup_of_not_contains _ _ habsent))
  unfold manually_replay_vkQueueSubmit
  simp only [if_neg hqueue, hnone]
  split <;> exact ⟨rfl, rfl⟩

/-- Scenario D as a witness of C3: queue `1` is mapped, the only submit lists the command
buffers `10` and `11`, and `11` has no entry in the command-buffer map. -/
theorem queueSubmit_unmapped_commandBuffer_witness :
    (manually_replay_vkQueueSubmit (fun _ => VK_SUCCESS)
        { m_objMapper := { m_queues := [(1, 100)], m_commandbuffers := [(10, 1000)] } }
        { queue := 1, submitCount := 1,
          pSubmits := [{ commandBufferCount := 2, pCommandBuffers := some [10, 11] }] }
      ).replayResult = VK_ERROR_VALIDATION_FAILED_EXT ∧
    (manually_replay_vkQueueSubmit (fun _ => VK_SUCCESS)
        { m_objMapper := { m_queues := [(1, 100)], m_commandbuffers := [(10, 1000)] } }
        { queue := 1, submitCount := 1,
          pSubmits := [{ commandBufferCount := 2, pCommandBuffers := some [10, 11] }] }
      ).driverSaw = none :=
  queueSubmit_unmapped_commandBuffer (fun _ => VK_SUCCESS)
    { m_objMapper := { m_queues := [(1, 100)], m_commandbuffers := [(10, 1000)] } }
    { queue := 1, submitCount := 1,
      pSubmits := [{ commandBufferCount := 2, pCommandBuffers := some [10, 11] }] }
    (by decide)
    ⟨{ commandBufferCount := 2, pCommandBuffers := some [10, 11] }, by simp,
      [10, 11], rfl, 11, by simp, by decide⟩

/-! ### Command-buffer wait events -/

/-- C6 (evaluation at the failing input): command buffer `1` mapped to `100`, image `5`
mapped to `50`, a packet with one image-memory barrier on image `5` and no plain memory
barrier (`memoryBarrierCount = 0`, `imageMemoryBarrierCount = 1`).  The driver is called
with the barrier on image `50` and, after `manually_replay_vkCmdWaitEvents` returns, the
packet's barrier still holds `50` instead of the recorded `5`. -/
theorem cmdWaitEvents_image_barrier_left_remapped :
    (manually_replay_vkCmdWaitEvents
        { m_objMapper := { m_commandbuffers := [(1, 100)], m_images := [(5, 50)] } }
        { commandBuffer := 1, memoryBarrierCount := 0, imageMemoryBarrierCount := 1,
          pImageMemoryBarriers := [{ image := 5 }] }).map
      (fun out => out.driverSaw.isSome) = some true ∧
    (manually_replay_vkCmdWaitEvents
        { m_objMapper := { m_commandbuffers := [(1, 100)], m_images := [(5, 50)] } }
        { commandBuffer := 1, memoryBarrierCount := 0, imageMemoryBarrierCount := 1,
          pImageMemoryBarriers := [{ image := 5 }] }).map
      (fun out => out.pPacket.pImageMemoryBarriers.map (fun b => b.image)) = some [50] := by
  constructor <;> decide

/-! ### Swapchain present -/

theorem remapOrReturn_eq_none_iff (m : HandleMap) (l : List Handle) :
    remapOrReturn m l = none ↔ ∃ h ∈ l, m.lookup h = VK_NULL_HANDLE := by
  constructor
  · intro hnone
    induction l with
    | nil => simp [remapOrReturn] at hnone
    | cons a rest ih =>
      unfold remapOrReturn at hnone
      by_cases ha : m.lookup a = VK_NULL_HANDLE
      · exact ⟨a, List.mem_cons_self _ _, ha⟩
      · rw [if_neg ha] at hnone
        cases hr : remapOrReturn m rest with
        | none =>
          obtain ⟨h, hmem, hnull⟩ := ih hr
          exact ⟨h, List.mem_cons_of_mem _ hmem, hnull⟩
        | some v => rw [hr] at hnone; cases hnone
  · rintro ⟨h, hmem, hnull⟩
    exact remapOrReturn_none_of_mem m l h hmem hnull

theorem presentOutOfMemory_iff (scratch : PresentScratch) (info : VkPresentInfoKHR) :
    presentOutOfMemory scratch info ↔
      ((decide (info.swapchainCount > 5) && !scratch.swapchains) ||
        (decide (info.waitSemaphoreCount > 5) && !scratch.waitSems) ||
        ((decide (info.swapchainCount > 5) && info.pResults.isSome) && !scratch.results))
        = true := by
  unfold presentOutOfMemory
  cases hp : info.pResults <;> cases scratch.swapchains <;> cases scratch.results <;>
    cases scratch.waitSems <;> simp <;> tauto

/-- The three ways `manually_replay_vkQueuePresentKHR` ends: out of memory, an unmapped
wait semaphore, or the driver call. -/
theorem queuePresent_cases
    (real_vkQueuePresentKHR : PresentCall → VkResult × (Nat → VkResult))
    (scratch : PresentScratch) (self : vkReplay) (pPacket : packet_vkQueuePresentKHR) :
    (presentOutOfMemory scratch pPacket.pPresentInfo ∧
      manually_replay_vkQueuePresentKHR real_vkQueuePresentKHR scratch self pPacket =
        { replayResult := VK_ERROR_OUT_OF_HOST_MEMORY, driverSaw := none, self := self,
          log := [] }) ∨
    (¬ presentOutOfMemory scratch pPacket.pPresentInfo ∧
      presentWaitUnmapped self.m_objMapper pPacket.pPresentInfo ∧
      manually_replay_vkQueuePresentKHR real_vkQueuePresentKHR scratch self pPacket =
        { replayResult := VK_ERROR_VALIDATION_FAILED_EXT, driverSaw := none, self := self,
          log := [] }) ∨
    (¬ presentOutOfMemory scratch pPacket.pPresentInfo ∧
      ¬ presentWaitUnmapped self.m_objMapper pPacket.pPresentInfo ∧
      ∃ call, manually_replay_vkQueuePresentKHR real_vkQueuePresentKHR scratch self pPacket =
        { replayResult := (real_vkQueuePresentKHR call).1, driverSaw := some call,
          self := { self with m_frameNumber := self.m_frameNumber + 1 },
          log := match pPacket.pPresentInfo.pResults with
            | some recorded => comparePresentResults (real_vkQueuePresentKHR call).2 0
                (recorded.take pPacket.pPresentInfo.swapchainCount)
            | none => [] }) := by
  by_cases hoom : presentOutOfMemory scratch pPacket.pPresentInfo
  · have hb := (presentOutOfMemory_iff _ _).mp hoom
    refine Or.inl ⟨hoom, ?_⟩
    unfold manually_replay_vkQueuePresentKHR
    simp only [hb, if_true]
    rfl
  · have hb : ((decide (pPacket.pPresentInfo.swapchainCount > 5) && !scratch.swapchains) ||
        (decide (pPacket.pPresentInfo.waitSemaphoreCount > 5) && !scratch.waitSems) ||
        ((decide (pPacket.pPresentInfo.swapchainCount > 5) &&
            pPacket.pPresentInfo.pResults.isSome) && !scratch.results)) = false := by
      rw [← Bool.not_eq_true]
      exact fun h => hoom ((presentOutOfMemory_iff _ _).mpr h)
    by_cases hw : presentWaitUnmapped self.m_objMapper pPacket.pPresentInfo
    · have hnone := (remapOrReturn_eq_none_iff _ _).mpr hw.2
      refine Or.inr (Or.inl ⟨hoom, hw, ?_⟩)
      unfold manually_replay_vkQueuePresentKHR
      simp only [hb, if_true, if_pos hw.1, hnone]
      rfl
    · refine Or.inr (Or.inr ⟨hoom, hw, ?_⟩)
      unfold manually_replay_vkQueuePresentKHR
      simp only [hb]
      by_cases hc : pPacket.pPresentInfo.waitSemaphoreCount ≠ 0
      · cases hr : remapOrReturn self.m_objMapper.m_semaphores
            (pPacket.pPresentInfo.pWaitSemaphores.take
              pPacket.pPresentInfo.waitSemaphoreCount) with
        | none => exact absurd ⟨hc, (remapOrReturn_eq_none_iff _ _).mp hr⟩ hw
        | some v =>
          simp only [if_pos hc, hr]
          exact ⟨_, rfl⟩
      · simp only [if_neg hc]
        exact ⟨_, rfl⟩

/-- C9 (amended): `manually_replay_vkQueuePresentKHR` increments `m_frameNumber`, by exactly
one, if and only if it invokes the driver's present, which happens exactly when no scratch
request fails and no visited wait semaphore is unmapped, whatever the driver returns and
whatever it writes to the per-swapchain results.  In particular the counter is incremented
whenever the handler's result is `VK_SUCCESS`; on out-of-memory the handler returns
`VK_ERROR_OUT_OF_HOST_MEMORY`, on an unmapped wait semaphore it returns
`VK_ERROR_VALIDATION_FAILED_EXT`, and in both cases the counter is unchanged. -/
theorem queuePresent_frame_counter
    (real_vkQueuePresentKHR : PresentCall → VkResult × (Nat → VkResult))
    (scratch : PresentScratch) (self : vkReplay) (pPacket : packet_vkQueuePresentKHR) :
    (((manually_replay_vkQueuePresentKHR real_vkQueuePresentKHR scratch self
          pPacket).driverSaw ≠ none) ↔
        (¬ presentOutOfMemory scratch pPacket.pPresentInfo ∧
          ¬ presentWaitUnmapped self.m_objMapper pPacket.pPresentInfo)) ∧
    ((manually_replay_vkQueuePresentKHR real_vkQueuePresentKHR scratch self
          pPacket).driverSaw ≠ none →
        (manually_replay_vkQueuePresentKHR real_vkQueuePresentKHR scratch self
          pPacket).self.m_frameNumber = self.m_frameNumber + 1) ∧
    ((manually_replay_vkQueuePresentKHR real_vkQueuePresentKHR scratch self
          pPacket).driverSaw = none →
        (manually_replay_vkQueuePresentKHR real_vkQueuePresentKHR scratch self
          pPacket).self.m_frameNumber = self.m_frameNumber) ∧
    ((manually_replay_vkQueuePresentKHR real_vkQueuePresentKHR scratch self
          pPacket).replayResult = VK_SUCCESS →
        (manually_replay_vkQueuePresentKHR real_vkQueuePresentKHR scratch self
          pPacket).self.m_frameNumber = self.m_frameNumber + 1) ∧
    (presentOutOfMemory scratch pPacket.pPresentInfo →
        (manually_replay_vkQueuePresentKHR real_vkQueuePresentKHR scratch self
          pPacket).replayResult = VK_ERROR_OUT_OF_HOST_MEMORY) ∧
    (¬ presentOutOfMemory scratch pPacket.pPresentInfo →
      presentWaitUnmapped self.m_objMapper pPacket.pPresentInfo →
        (manually_replay_vkQueuePresentKHR real_vkQueuePresentKHR scratch self
          pPacket).replayResult = VK_ERROR_VALIDATION_FAILED_EXT) := by
  rcases queuePresent_cases real_vkQueuePresentKHR scratch self pPacket with
    ⟨hoom, hout⟩ | ⟨hoom, hw, hout⟩ | ⟨hoom, hw, call, hout⟩
  · rw [hout]; simp [hoom]
  · rw [hout]; simp [hoom, hw]
  · rw [hout]; simp [hoom, hw]

/-- Scenario E as a witness of C9 (amended): recorded `pResults = {success}`, the driver
succeeds and reports out-of-date for swapchain 0; the frame counter goes from `0` to `1`. -/
theorem queuePresent_frame_counter_witness :
    (manually_replay_vkQueuePresentKHR (fun _ => (VK_SUCCESS, fun _ => VK_ERROR_OUT_OF_DATE_KHR))
        {} { m_objMapper := { m_queues := [(1, 100)], m_swapchainkhrs := [(2, 200)] } }
        { queue := 1,
          pPresentInfo := { swapchainCount := 1, pSwapchains := [2], pImageIndices := [0],
                            pResults := some [VK_SUCCESS] } }).self.m_frameNumber = 0 + 1 :=
  (queuePresent_frame_counter (fun _ => (VK_SUCCESS, fun _ => VK_ERROR_OUT_OF_DATE_KHR))
    {} { m_objMapper := { m_queues := [(1, 100)], m_swapchainkhrs := [(2, 200)] } }
    { queue := 1,
      pPresentInfo := { swapchainCount := 1, pSwapchains := [2], pImageIndices := [0],
                        pResults := some [VK_SUCCESS] } }).2.2.2.1 (by decide)

/-- Counterexample to C9 as stated: a present whose driver call fails with
`VK_ERROR_DEVICE_LOST`.  The handler's result is not `VK_SUCCESS`, yet the frame counter
goes from `7` to `8`. -/
theorem queuePresent_failed_present_counterexample :
    (manually_replay_vkQueuePresentKHR (fun _ => (VK_ERROR_DEVICE_LOST, fun _ => VK_SUCCESS))
        {} { m_objMapper := { m_queues := [(1, 100)], m_swapchainkhrs := [(2, 200)] },
             m_frameNumber := 7 }
        { queue := 1,
          pPresentInfo := { swapchainCount := 1, pSwapchains := [2], pImageIndices := [0] } }
      ).replayResult = VK_ERROR_DEVICE_LOST ∧
    VK_ERROR_DEVICE_LOST ≠ VK_SUCCESS ∧
    (manually_replay_vkQueuePresentKHR (fun _ => (VK_ERROR_DEVICE_LOST, fun _ => VK_SUCCESS))
        {} { m_objMapper := { m_queues := [(1, 100)], m_swapchainkhrs := [(2, 200)] },
             m_frameNumber := 7 }
        { queue := 1,
          pPresentInfo := { swapchainCount := 1, pSwapchains := [2], pImageIndices := [0] } }
      ).self.m_frameNumber = 8 := by
  refine ⟨?_, ?_, ?_⟩ <;> decide

theorem errorCount_append (a b : List LogMsg) :
    errorCount (a ++ b) = errorCount a + errorCount b := by
  simp [errorCount]

/-- The comparison loop logs one error for every visited index whose live result differs
from the recorded one. -/
theorem errorCount_comparePresentResults (live : Nat → VkResult) (l : List VkResult)
    (i : Nat) :
    errorCount (comparePresentResults live i l) =
      ((List.range l.length).filter
        (fun k => decide (l[k]? ≠ some (live (i + k))))).length := by
  induction l generalizing i with
  | nil => simp [comparePresentResults, errorCount]
  | cons r rest ih =>
    have hfun : ((fun k => decide ((r :: rest)[k]? ≠ some (live (i + k)))) ∘ Nat.succ) =
        (fun k => decide (rest[k]? ≠ some (live (i + 1 + k)))) := by
      funext k
      simp [Nat.add_assoc, Nat.add_comm 1 k]
    rw [comparePresentResults, errorCount_append, ih (i + 1), List.length_cons,
      List.range_succ_eq_map, List.filter_cons, List.filter_map, hfun]
    by_cases hne : live i = r
    · simp [hne, errorCount]
    · have hne' : ¬ r = live i := fun h => hne h.symm
      simp [hne, hne', errorCount, vktrace_LogError, Nat.add_comm]

/-- C10: when the packet requests per-swapchain results (its `pResults` is non-null and
holds `swapchainCount` entries) and the driver is invoked, the number of errors
`manually_replay_vkQueuePresentKHR` logs equals the number of indices `i` below
`swapchainCount` at which the live result differs from the recorded result. -/
theorem queuePresent_result_comparison
    (real_vkQueuePresentKHR : PresentCall → VkResult × (Nat → VkResult))
    (scratch : PresentScratch) (self : vkReplay) (pPacket : packet_vkQueuePresentKHR)
    (recorded : List VkResult) (call : PresentCall)
    (hreq : pPacket.pPresentInfo.pResults = some recorded)
    (hlen : pPacket.pPresentInfo.swapchainCount ≤ recorded.length)
    (hinv : (manually_replay_vkQueuePresentKHR real_vkQueuePresentKHR scratch self
              pPacket).driverSaw = some call) :
    errorCount (manually_replay_vkQueuePresentKHR real_vkQueuePresentKHR scratch self
        pPacket).log =
      ((List.range pPacket.pPresentInfo.swapchainCount).filter
        (fun i => decide (recorded[i]? ≠ some ((real_vkQueuePresentKHR call).2 i)))).length := by
  have hlog : (manually_replay_vkQueuePresentKHR real_vkQueuePresentKHR scratch self
        pPacket).log = comparePresentResults (real_vkQueuePresentKHR call).2 0
          (recorded.take pPacket.pPresentInfo.swapchainCount) := by
    rcases queuePresent_cases real_vkQueuePresentKHR scratch self pPacket with
      ⟨_, hout⟩ | ⟨_, _, hout⟩ | ⟨_, _, call', hout⟩
    · rw [hout] at hinv; cases hinv
    · rw [hout] at hinv; cases hinv
    · rw [hout] at hinv ⊢
      simp only [Option.some.injEq] at hinv
      subst hinv
      simp only [hreq]
  rw [hlog, errorCount_comparePresentResults, List.length_take, Nat.min_eq_left hlen]
  congr 1
  apply List.filter_congr
  intro k hk
  have hk' : k < pPacket.pPresentInfo.swapchainCount := List.mem_range.mp hk
  simp [List.getElem?_take, hk']

/-- Scenario E as a witness of C10: recorded `pResults = {success}`, live
`{out-of-date}`: exactly one error is logged. -/
theorem queuePresent_result_comparison_witness :
    errorCount (manually_replay_vkQueuePresentKHR
        (fun _ => (VK_SUCCESS, fun _ => VK_ERROR_OUT_OF_DATE_KHR)) {}
        { m_objMapper := { m_queues := [(1, 100)], m_swapchainkhrs := [(2, 200)] } }
        { queue := 1,
          pPresentInfo := { swapchainCount := 1, pSwapchains := [2], pImageIndices := [0],
                            pResults := some [VK_SUCCESS] } }).log = 1 := by
  have key := queuePresent_result_comparison
    (fun _ => (VK_SUCCESS, fun _ => VK_ERROR_OUT_OF_DATE_KHR)) {}
    { m_objMapper := { m_queues := [(1, 100)], m_swapchainkhrs := [(2, 200)] } }
    { queue := 1,
      pPresentInfo := { swapchainCount := 1, pSwapchains := [2], pImageIndices := [0],
                        pResults := some [VK_SUCCESS] } }
    [VK_SUCCESS]
    { queue := 100, sType := 1000001001, pNext := 0, swapchainCount := 1,
      pSwapchains := [200], pImageIndices := [0], waitSemaphoreCount := 0,
      pWaitSemaphores := none, pResultsNonNull := true }
    rfl (by decide) (by decide)
  rw [key]
  decide

/-! ### Descriptor-set updates -/

theorem HandleMap.lookup_null (m : HandleMap) : m.lookup VK_NULL_HANDLE = VK_NULL_HANDLE := by
  simp [HandleMap.lookup]

theorem forEachOrReturn_eq_map {α : Type} (step : α → Option α) (f : α → α) (l : List α)
    (h : ∀ x ∈ l, step x = some (f x)) : forEachOrReturn step l = some (l.map f) := by
  induction l with
  | nil => rfl
  | cons a rest ih =>
    have ha := h a (List.mem_cons_self _ _)
    have hr := ih (fun x hx => h x (List.mem_cons_of_mem _ hx))
    simp [forEachOrReturn, ha, hr]

theorem remapSamplerOf_eq (om : vkReplayObjMapper) (info : VkDescriptorImageInfo)
    (h : info.sampler ≠ VK_NULL_HANDLE → om.m_samplers.lookup info.sampler ≠ VK_NULL_HANDLE) :
    remapSamplerOf om info =
      some { info with sampler := om.m_samplers.lookup info.sampler } := by
  unfold remapSamplerOf
  by_cases hn : info.sampler = VK_NULL_HANDLE
  · cases info
    simp only at hn
    subst hn
    simp [HandleMap.lookup_null]
  · simp [hn, h hn]

theorem remapImageViewOf_eq (om : vkReplayObjMapper) (info : VkDescriptorImageInfo)
    (h : info.imageView ≠ VK_NULL_HANDLE →
      om.m_imageviews.lookup info.imageView ≠ VK_NULL_HANDLE) :
    remapImageViewOf om info =
      some { info with imageView := om.m_imageviews.lookup info.imageView } := by
  unfold remapImageViewOf
  by_cases hn : info.imageView = VK_NULL_HANDLE
  · cases info
    simp only at hn
    subst hn
    simp [HandleMap.lookup_null]
  · simp [hn, h hn]

theorem remapBufferViewOf_eq (om : vkReplayObjMapper) (view : Handle)
    (h : view ≠ VK_NULL_HANDLE → om.m_bufferviews.lookup view ≠ VK_NULL_HANDLE) :
    remapBufferViewOf om view = some (om.m_bufferviews.lookup view) := by
  unfold remapBufferViewOf
  by_cases hn : view = VK_NULL_HANDLE
  · subst hn
    simp [HandleMap.lookup_null]
  · simp [hn, h hn]

theorem remapBufferOf_eq (om : vkReplayObjMapper) (info : VkDescriptorBufferInfo)
    (h : info.buffer ≠ VK_NULL_HANDLE → om.m_buffers.lookup info.buffer ≠ VK_NULL_HANDLE) :
    remapBufferOf om info = some (expectedBufferInfo om info) := by
  unfold remapBufferOf expectedBufferInfo
  by_cases hn : info.buffer = VK_NULL_HANDLE
  · cases info
    simp only at hn
    subst hn
    simp [HandleMap.lookup_null]
  · simp [hn, h hn]

theorem remapWrite_eq_expected (om : vkReplayObjMapper) (write : VkWriteDescriptorSet)
    (h : writeRemapsSucceed om write) : remapWrite om write = some (expectedWrite om write) := by
  obtain ⟨hd, hi, ht, hb⟩ := h
  unfold remapWrite expectedWrite
  simp only [hd, if_false]
  cases hty : write.descriptorType with
  | VK_DESCRIPTOR_TYPE_SAMPLER =>
    rw [hty] at hi
    have := forEachOrReturn_eq_map (remapSamplerOf om)
      (expectedImageInfo om VK_DESCRIPTOR_TYPE_SAMPLER) _
      (fun x hx => by
        rw [remapSamplerOf_eq om x ((hi x hx).1 rfl)]
        simp [expectedImageInfo, remapsSampler, remapsImageView])
    simp [this, remapsSampler, remapsImageView, remapsTexelBufferView, remapsBuffer]
  | VK_DESCRIPTOR_TYPE_COMBINED_IMAGE_SAMPLER =>
    rw [hty] at hi
    have := forEachOrReturn_eq_map
      (fun info => match remapSamplerOf om info with
        | some withSampler => remapImageViewOf om withSampler
        | none => none)
      (expectedImageInfo om VK_DESCRIPTOR_TYPE_COMBINED_IMAGE_SAMPLER) _
      (fun x hx => by
        show (match remapSamplerOf om x with
          | some withSampler => remapImageViewOf om withSampler
          | none => none) = _
        rw [remapSamplerOf_eq om x ((hi x hx).1 rfl)]
        simp only
        rw [remapImageViewOf_eq om
          { sampler := om.m_samplers.lookup x.sampler, imageView := x.imageView,
            imageLayout := x.imageLayout } ((hi x hx).2 rfl)]
        simp [expectedImageInfo, remapsSampler, remapsImageView])
    simp [this, remapsSampler, remapsImageView, remapsTexelBufferView, remapsBuffer]
  | VK_DESCRIPTOR_TYPE_SAMPLED_IMAGE =>
    rw [hty] at hi
    have := forEachOrReturn_eq_map (remapImageViewOf om)
      (expectedImageInfo om VK_DESCRIPTOR_TYPE_SAMPLED_IMAGE) _
      (fun x hx => by
        rw [remapImageViewOf_eq om x ((hi x hx).2 rfl)]
        simp [expectedImageInfo, remapsSampler, remapsImageView])
    simp [this, remapsSampler, remapsImageView, remapsTexelBufferView, remapsBuffer]
  | VK_DESCRIPTOR_TYPE_STORAGE_IMAGE =>
    rw [hty] at hi
    have := forEachOrReturn_eq_map (remapImageViewOf om)
      (expectedImageInfo om VK_DESCRIPTOR_TYPE_STORAGE_IMAGE) _
      (fun x hx => by
        rw [remapImageViewOf_eq om x ((hi x hx).2 rfl)]
        simp [expectedImageInfo, remapsSampler, remapsImageView])
    simp [this, remapsSampler, remapsImageView, remapsTexelBufferView, remapsBuffer]
  | VK_DESCRIPTOR_TYPE_INPUT_ATTACHMENT =>
    rw [hty] at hi
    have := forEachOrReturn_eq_map (remapImageViewOf om)
      (expectedImageInfo om VK_DESCRIPTOR_TYPE_INPUT_ATTACHMENT) _
      (fun x hx => by
        rw [remapImageViewOf_eq om x ((hi x hx).2 rfl)]
        simp [expectedImageInfo, remapsSampler, remapsImageView])
    simp [this, remapsSampler, remapsImageView, remapsTexelBufferView, remapsBuffer]
  | VK_DESCRIPTOR_TYPE_UNIFORM_TEXEL_BUFFER =>
    rw [hty] at ht
    have := forEachOrReturn_eq_map (remapBufferViewOf om)
      (fun view => om.m_bufferviews.lookup view) _
      (fun x hx => remapBufferViewOf_eq om x (ht rfl x hx))
    simp [this, remapsSampler, remapsImageView, remapsTexelBufferView, remapsBuffer]
  | VK_DESCRIPTOR_TYPE_STORAGE_TEXEL_BUFFER =>
    rw [hty] at ht
    have := forEachOrReturn_eq_map (remapBufferViewOf om)
      (fun view => om.m_bufferviews.lookup view) _
      (fun x hx => remapBufferViewOf_eq om x (ht rfl x hx))
    simp [this, remapsSampler, remapsImageView, remapsTexelBufferView, remapsBuffer]
  | VK_DESCRIPTOR_TYPE_UNIFORM_BUFFER =>
    rw [hty] at hb
    have := forEachOrReturn_eq_map (remapBufferOf om) (expectedBufferInfo om) _
      (fun x hx => remapBufferOf_eq om x (hb rfl x hx))
    simp [this, remapsSampler, remapsImageView, remapsTexelBufferView, remapsBuffer]
  | VK_DESCRIPTOR_TYPE_STORAGE_BUFFER =>
    rw [hty] at hb
    have := forEachOrReturn_eq_map (remapBufferOf om) (expectedBufferInfo om) _
      (fun x hx => remapBufferOf_eq om x (hb rfl x hx))
    simp [this, remapsSampler, remapsImageView, remapsTexelBufferView, remapsBuffer]
  | VK_DESCRIPTOR_TYPE_UNIFORM_BUFFER_DYNAMIC =>
    rw [hty] at hb
    have := forEachOrReturn_eq_map (remapBufferOf om) (expectedBufferInfo om) _
      (fun x hx => remapBufferOf_eq om x (hb rfl x hx))
    simp [this, remapsSampler, remapsImageView, remapsTexelBufferView, remapsBuffer]
  | VK_DESCRIPTOR_TYPE_STORAGE_BUFFER_DYNAMIC =>
    rw [hty] at hb
    have := forEachOrReturn_eq_map (remapBufferOf om) (expectedBufferInfo om) _
      (fun x hx => remapBufferOf_eq om x (hb rfl x hx))
    simp [this, remapsSampler, remapsImageView, remapsTexelBufferView, remapsBuffer]
  | other v =>
    simp [remapsSampler, remapsImageView, remapsTexelBufferView, remapsBuffer]

theorem remapCopy_eq_expected (om : vkReplayObjMapper) (copy : VkCopyDescriptorSet)
    (hdst : om.m_descriptorsets.lookup copy.dstSet ≠ VK_NULL_HANDLE)
    (hsrc : om.m_descriptorsets.lookup copy.srcSet ≠ VK_NULL_HANDLE) :
    remapCopy om copy = some (expectedCopy om copy) := by
  simp [remapCopy, expectedCopy, hdst, hsrc]

/-- C5: whenever no remap fails, `manually_replay_vkUpdateDescriptorSets` invokes the driver
with the remapped device, the recorded counts, and a cloned write array that is, write for
write, the expected one: destination set looked up and, over the `descriptorCount` entries
of the info array selected by the descriptor type, sampler / image view / texel buffer view
/ buffer looked up according to the type.  In the expected entries a null handle stays null
and every non-handle field is the recorded one.  The copies reach the driver with both sets
looked up, and the packet is left as it was. -/
theorem updateDescriptorSets_remaps_by_type (self : vkReplay)
    (pPacket : packet_vkUpdateDescriptorSets)
    (h : noRemapFails self.m_objMapper pPacket) :
    (∃ call, (manually_replay_vkUpdateDescriptorSets self pPacket).driverSaw = some call ∧
      call.device = self.m_objMapper.m_devices.lookup pPacket.device ∧
      call.descriptorWriteCount = pPacket.descriptorWriteCount ∧
      call.pDescriptorWrites =
        (pPacket.pDescriptorWrites.take pPacket.descriptorWriteCount).map
          (expectedWrite self.m_objMapper) ∧
      call.descriptorCopyCount = pPacket.descriptorCopyCount ∧
      call.pDescriptorCopies =
        (pPacket.pDescriptorCopies.take pPacket.descriptorCopyCount).map
          (expectedCopy self.m_objMapper)) ∧
    (manually_replay_vkUpdateDescriptorSets self pPacket).pPacket = pPacket ∧
    (∀ t info,
      (expectedImageInfo self.m_objMapper t info).imageLayout = info.imageLayout ∧
      (info.sampler = VK_NULL_HANDLE →
        (expectedImageInfo self.m_objMapper t info).sampler = VK_NULL_HANDLE) ∧
      (info.imageView = VK_NULL_HANDLE →
        (expectedImageInfo self.m_objMapper t info).imageView = VK_NULL_HANDLE)) ∧
    (∀ info,
      (expectedBufferInfo self.m_objMapper info).offset = info.offset ∧
      (expectedBufferInfo self.m_objMapper info).range = info.range ∧
      (info.buffer = VK_NULL_HANDLE →
        (expectedBufferInfo self.m_objMapper info).buffer = VK_NULL_HANDLE)) ∧
    self.m_objMapper.m_bufferviews.lookup VK_NULL_HANDLE = VK_NULL_HANDLE ∧
    (∀ write,
      (expectedWrite self.m_objMapper write).sType = write.sType ∧
      (expectedWrite self.m_objMapper write).pNext = write.pNext ∧
      (expectedWrite self.m_objMapper write).dstBinding = write.dstBinding ∧
      (expectedWrite self.m_objMapper write).dstArrayElement = write.dstArrayElement ∧
      (expectedWrite self.m_objMapper write).descriptorCount = write.descriptorCount ∧
      (expectedWrite self.m_objMapper write).descriptorType = write.descriptorType) := by
  obtain ⟨hdev, hw, hc⟩ := h
  have hwrites := forEachOrReturn_eq_map (remapWrite self.m_objMapper)
    (expectedWrite self.m_objMapper) _
    (fun w hmem => remapWrite_eq_expected self.m_objMapper w (hw w hmem))
  have hcopies := forEachOrReturn_eq_map (remapCopy self.m_objMapper)
    (expectedCopy self.m_objMapper) _
    (fun c hmem => remapCopy_eq_expected self.m_objMapper c (hc c hmem).1 (hc c hmem).2)
  have hout : manually_replay_vkUpdateDescriptorSets self pPacket =
      { driverSaw := some
          { device := self.m_objMapper.m_devices.lookup pPacket.device,
            descriptorWriteCount := pPacket.descriptorWriteCount,
            pDescriptorWrites :=
              (pPacket.pDescriptorWrites.take pPacket.descriptorWriteCount).map
                (expectedWrite self.m_objMapper),
            descriptorCopyCount := pPacket.descriptorCopyCount,
            pDescriptorCopies :=
              (pPacket.pDescriptorCopies.take pPacket.descriptorCopyCount).map
                (expectedCopy self.m_objMapper) },
        pPacket := pPacket } := by
    unfold manually_replay_vkUpdateDescriptorSets
    simp only [if_neg hdev, hwrites, hcopies]
  refine ⟨⟨_, by rw [hout], rfl, rfl, rfl, rfl, rfl⟩, by rw [hout], ?_, ?_,
    HandleMap.lookup_null _, ?_⟩
  · intro t info
    refine ⟨rfl, ?_, ?_⟩
    · intro h0
      simp only [expectedImageInfo, h0, HandleMap.lookup_null, ite_self]
    · intro h0
      simp only [expectedImageInfo, h0, HandleMap.lookup_null, ite_self]
  · intro info
    refine ⟨rfl, rfl, ?_⟩
    intro h0
    simp only [expectedBufferInfo, h0, HandleMap.lookup_null]
  · intro write
    exact ⟨rfl, rfl, rfl, rfl, rfl, rfl⟩

/-- Witness of C5: device `1`, set `2`, sampler `3` and buffer `4` mapped; one
combined-image-sampler write whose entry has sampler `3` and a null image view, one
uniform-buffer write on buffer `4`.  The driver receives sampler `30` with the image view
still null, and buffer `40` with offset and range as recorded. -/
theorem updateDescriptorSets_remaps_by_type_witness :
    ∃ call, (manually_replay_vkUpdateDescriptorSets
        { m_objMapper := { m_devices := [(1, 10)], m_descriptorsets := [(2, 20)],
                           m_samplers := [(3, 30)], m_buffers := [(4, 40)] } }
        { device := 1, descriptorWriteCount := 2,
          pDescriptorWrites :=
            [{ dstSet := 2, descriptorCount := 1,
               descriptorType := VK_DESCRIPTOR_TYPE_COMBINED_IMAGE_SAMPLER,
               pImageInfo := [{ sampler := 3, imageView := 0, imageLayout := 5 }] },
             { dstSet := 2, descriptorCount := 1,
               descriptorType := VK_DESCRIPTOR_TYPE_UNIFORM_BUFFER,
               pBufferInfo := [{ buffer := 4, offset := 16, range := 64 }] }] }).driverSaw
          = some call ∧
      call.pDescriptorWrites =
        [{ dstSet := 20, descriptorCount := 1,
           descriptorType := VK_DESCRIPTOR_TYPE_COMBINED_IMAGE_SAMPLER,
           pImageInfo := [{ sampler := 30, imageView := 0, imageLayout := 5 }] },
         { dstSet := 20, descriptorCount := 1,
           descriptorType := VK_DESCRIPTOR_TYPE_UNIFORM_BUFFER,
           pBufferInfo := [{ buffer := 40, offset := 16, range := 64 }] }] := by
  obtain ⟨⟨call, hsaw, _, _, hwrites, _⟩, _⟩ := updateDescriptorSets_remaps_by_type
    { m_objMapper := { m_devices := [(1, 10)], m_descriptorsets := [(2, 20)],
                       m_samplers := [(3, 30)], m_buffers := [(4, 40)] } }
    { device := 1, descriptorWriteCount := 2,
      pDescriptorWrites :=
        [{ dstSet := 2, descriptorCount := 1,
           descriptorType := VK_DESCRIPTOR_TYPE_COMBINED_IMAGE_SAMPLER,
           pImageInfo := [{ sampler := 3, imageView := 0, imageLayout := 5 }] },
         { dstSet := 2, descriptorCount := 1,
           descriptorType := VK_DESCRIPTOR_TYPE_UNIFORM_BUFFER,
           pBufferInfo := [{ buffer := 4, offset := 16, range := 64 }] }] }
    (by
      simp [noRemapFails, writeRemapsSucceed, HandleMap.lookup, List.lookup, remapsSampler,
        remapsImageView, remapsTexelBufferView, remapsBuffer])
  refine ⟨call, hsaw, ?_⟩
  rw [hwrites]
  decide

/-! ### Device memory -/

theorem MemoryMap.find_insert_self (m : MemoryMap) (recorded : Handle) (obj : gpuMemObj) :
    (m.insert recorded obj).find recorded = some obj := by
  simp [MemoryMap.find, MemoryMap.insert, List.lookup]

theorem HostMemory.memcpy_read (memory : HostMemory) (dst : HostPtr) (src : List UInt8)
    (i : Nat) (hi : i < src.length) :
    some ((memory.memcpy dst src) dst.mem (dst.offset + i)) = src[i]? := by
  unfold HostMemory.memcpy
  have hcond : dst.mem = dst.mem ∧ dst.offset ≤ dst.offset + i ∧
      dst.offset + i < dst.offset + src.length := ⟨rfl, Nat.le_add_right _ _, by omega⟩
  rw [if_pos hcond, Nat.add_sub_cancel_left, List.getD_eq_getElem?_getD,
    List.getElem?_eq_getElem hi]
  rfl

/-- C12: with a mapped device, in adjust-for-GPU mode `manually_replay_vkAllocateMemory`
does not invoke `real_vkAllocateMemory` and inserts a record marked pending-alloc under the
recorded memory handle; outside that mode it invokes the driver with the remapped device
and the packet's allocate-info, returns the driver's result, inserts under the recorded
handle a non-pending record holding the live handle the driver produced when the driver
returned `VK_SUCCESS`, and leaves the table unchanged when it returned anything else. -/
theorem allocateMemory_record (drv : MemoryDriver) (self : vkReplay)
    (pPacket : packet_vkAllocateMemory)
    (hdev : self.m_objMapper.m_devices.lookup pPacket.device ≠ VK_NULL_HANDLE) :
    (self.m_objMapper.m_adjustForGPU = true →
      (manually_replay_vkAllocateMemory drv self pPacket).driverSaw = none ∧
      ∃ obj pGpuMem,
        (manually_replay_vkAllocateMemory drv self pPacket).self.m_objMapper.m_devicememorys.find
            pPacket.pMemory = some obj ∧
        obj.pGpuMem = some pGpuMem ∧ pGpuMem.isPendingAlloc = true) ∧
    (self.m_objMapper.m_adjustForGPU = false →
      (manually_replay_vkAllocateMemory drv self pPacket).driverSaw =
          some (self.m_objMapper.m_devices.lookup pPacket.device, pPacket.pAllocateInfo) ∧
      (manually_replay_vkAllocateMemory drv self pPacket).replayResult =
          (drv.real_vkAllocateMemory (self.m_objMapper.m_devices.lookup pPacket.device)
            pPacket.pAllocateInfo).1 ∧
      ((drv.real_vkAllocateMemory (self.m_objMapper.m_devices.lookup pPacket.device)
            pPacket.pAllocateInfo).1 = VK_SUCCESS →
        ∃ obj pGpuMem,
          (manually_replay_vkAllocateMemory drv self
              pPacket).self.m_objMapper.m_devicememorys.find pPacket.pMemory = some obj ∧
          obj.replayGpuMem =
            (drv.real_vkAllocateMemory (self.m_objMapper.m_devices.lookup pPacket.device)
              pPacket.pAllocateInfo).2 ∧
          obj.pGpuMem = some pGpuMem ∧ pGpuMem.isPendingAlloc = false) ∧
      ((drv.real_vkAllocateMemory (self.m_objMapper.m_devices.lookup pPacket.device)
            pPacket.pAllocateInfo).1 ≠ VK_SUCCESS →
        (manually_replay_vkAllocateMemory drv self pPacket).self = self)) := by
  constructor
  · intro hadj
    simp only [manually_replay_vkAllocateMemory, if_neg hdev, hadj, Bool.not_true,
      Bool.false_eq_true, if_false, or_true, if_true]
    exact ⟨trivial, _, _, MemoryMap.find_insert_self _ _ _, rfl, rfl⟩
  · intro hadj
    simp only [manually_replay_vkAllocateMemory, if_neg hdev, hadj, Bool.not_false, if_true,
      Bool.false_eq_true, or_false]
    refine ⟨?_, ?_, ?_, ?_⟩
    · split <;> rfl
    · split <;> rfl
    · intro hs
      rw [if_pos hs]
      exact ⟨_, _, MemoryMap.find_insert_self _ _ _, rfl, rfl, rfl⟩
    · intro hs
      rw [if_neg hs]

/-- Witness of C12: device `1` mapped to `10`, adjust-for-GPU off, a driver that succeeds
and produces memory `50`; the record under the recorded handle `5` holds `50`. -/
theorem allocateMemory_record_witness :
    (manually_replay_vkAllocateMemory
        ⟨fun _ _ => (VK_SUCCESS, 50), fun c => (VK_SUCCESS, ⟨c.memory, c.offset⟩)⟩
        { m_objMapper := { m_devices := [(1, 10)] } }
        { device := 1, pAllocateInfo := { allocationSize := 4096 }, pMemory := 5 }).driverSaw =
      some (10, { allocationSize := 4096 }) ∧
    (manually_replay_vkAllocateMemory
        ⟨fun _ _ => (VK_SUCCESS, 50), fun c => (VK_SUCCESS, ⟨c.memory, c.offset⟩)⟩
        { m_objMapper := { m_devices := [(1, 10)] } }
        { device := 1, pAllocateInfo := { allocationSize := 4096 },
          pMemory := 5 }).self.m_objMapper.m_devicememorys.find 5 =
      some { replayGpuMem := 50, pGpuMem := some { allocationSize := 4096 } } := by
  have key := (allocateMemory_record
    ⟨fun _ _ => (VK_SUCCESS, 50), fun c => (VK_SUCCESS, ⟨c.memory, c.offset⟩)⟩
    { m_objMapper := { m_devices := [(1, 10)] } }
    { device := 1, pAllocateInfo := { allocationSize := 4096 }, pMemory := 5 }
    (by decide)).2 rfl
  exact ⟨key.1, by decide⟩

/-- C18 (evaluation at the failing input): device `1` is mapped and the non-null recorded
memory handle `9` has no allocation record.  `manually_replay_vkMapMemory` reaches
`m_devicememorys.find(9)->second` on the absent entry: it has no defined outcome, in
particular no `VK_ERROR_VALIDATION_FAILED_EXT` return. -/
theorem mapMemory_absent_record_undefined :
    ({ m_objMapper := { m_devices := [(1, 10)] } } : vkReplay).m_objMapper.m_devices.lookup 1
      ≠ VK_NULL_HANDLE ∧
    ({ m_objMapper := { m_devices := [(1, 10)] } } : vkReplay).m_objMapper.m_devicememorys.find 9
      = none ∧
    manually_replay_vkMapMemory
        ⟨fun _ _ => (VK_SUCCESS, 50), fun c => (VK_SUCCESS, ⟨c.memory, c.offset⟩)⟩
        { m_objMapper := { m_devices := [(1, 10)] } }
        { device := 1, memory := 9, offset := 0, size := 16 } = none := by
  refine ⟨by decide, by decide, by decide⟩

/-- On a non-pending allocation with an active mapping window at host pointer `dst`,
`manually_replay_vkUnmapMemory` copies the packet's bytes, over the size of the window, to
`dst` and only then calls `real_vkUnmapMemory`, with the live memory handle of the
record. -/
theorem unmapMemory_copies_then_unmaps (memory : HostMemory) (self : vkReplay)
    (pPacket : packet_vkUnmapMemory) (obj : gpuMemObj) (pGpuMem : gpuMemory) (w : MapRange)
    (dst : HostPtr) (bytes : List UInt8)
    (hdev : self.m_objMapper.m_devices.lookup pPacket.device ≠ VK_NULL_HANDLE)
    (hfind : self.m_objMapper.m_devicememorys.find pPacket.memory = some obj)
    (hrec : obj.pGpuMem = some pGpuMem) (hnp : pGpuMem.pendingAlloc = false)
    (hwin : pGpuMem.window = some w) (hwp : w.pending = false) (hdst : w.pData = some dst)
    (hdata : pPacket.pData = some bytes) :
    ∃ out, manually_replay_vkUnmapMemory memory self pPacket = some out ∧
      out.driverSaw = some (self.m_objMapper.m_devices.lookup pPacket.device,
        obj.replayGpuMem, memory.memcpy dst (bytes.take w.size)) ∧
      out.memory = memory.memcpy dst (bytes.take w.size) := by
  simp only [manually_replay_vkUnmapMemory, if_neg hdev, hfind, hrec,
    gpuMemory.isPendingAlloc, hnp, Bool.not_false, if_true, hdata, Option.isSome_some,
    gpuMemory.copyMappingData, hwin, hwp, Bool.false_eq_true, if_false, hdst]
  exact ⟨_, rfl, rfl, rfl⟩

/-- C11: after the sequence allocate (adjust-for-GPU off, the driver succeeds and produces
the live memory `live`), map of the range (offset `o`, size `s`) (the driver succeeds and
hands out the host pointer of `live` at `o`), unmap with `pData`, the handlers have
defined outcomes, `real_vkUnmapMemory` is called on `live` with the packet's bytes already
copied, and the driver memory of `live` in `[o, o+s)` equals the `pData` bytes byte for
byte, both at the driver call and when the unmap handler returns. -/
theorem unmapMemory_write_through (drv : MemoryDriver) (memory : HostMemory) (self : vkReplay)
    (pAlloc : packet_vkAllocateMemory) (pMap : packet_vkMapMemory)
    (pUnmap : packet_vkUnmapMemory) (bytes : List UInt8) (live : Handle)
    (hdevA : self.m_objMapper.m_devices.lookup pAlloc.device ≠ VK_NULL_HANDLE)
    (hdevM : self.m_objMapper.m_devices.lookup pMap.device ≠ VK_NULL_HANDLE)
    (hdevU : self.m_objMapper.m_devices.lookup pUnmap.device ≠ VK_NULL_HANDLE)
    (hadj : self.m_objMapper.m_adjustForGPU = false)
    (hmemM : pMap.memory = pAlloc.pMemory) (hmemU : pUnmap.memory = pAlloc.pMemory)
    (halloc : drv.real_vkAllocateMemory (self.m_objMapper.m_devices.lookup pAlloc.device)
      pAlloc.pAllocateInfo = (VK_SUCCESS, live))
    (hmap : drv.real_vkMapMemory
      { device := self.m_objMapper.m_devices.lookup pMap.device, memory := live,
        offset := pMap.offset, size := pMap.size, flags := pMap.flags } =
      (VK_SUCCESS, ⟨live, pMap.offset⟩))
    (hdata : pUnmap.pData = some bytes) (hlen : pMap.size ≤ bytes.length) :
    ∃ afterMap afterUnmap atCall,
      manually_replay_vkMapMemory drv (manually_replay_vkAllocateMemory drv self pAlloc).self
        pMap = some afterMap ∧
      manually_replay_vkUnmapMemory memory afterMap.self pUnmap = some afterUnmap ∧
      afterUnmap.driverSaw =
        some (self.m_objMapper.m_devices.lookup pUnmap.device, live, atCall) ∧
      (∀ i, i < pMap.size → some (atCall live (pMap.offset + i)) = bytes[i]?) ∧
      (∀ i, i < pMap.size → some (afterUnmap.memory live (pMap.offset + i)) = bytes[i]?) := by
  -- the state after the allocation
  have hA : (manually_replay_vkAllocateMemory drv self pAlloc).self =
      { self with m_objMapper := { self.m_objMapper with
          m_devicememorys := self.m_objMapper.m_devicememorys.insert pAlloc.pMemory
            { replayGpuMem := live,
              pGpuMem := some (gpuMemory.setAllocInfo pAlloc.pAllocateInfo.allocationSize
                false) } } } := by
    simp only [manually_replay_vkAllocateMemory, if_neg hdevA, hadj, Bool.not_false, if_true,
      halloc, Bool.false_eq_true, or_false]
  -- the outcome of the mapping
  have hM : manually_replay_vkMapMemory drv (manually_replay_vkAllocateMemory drv self
      pAlloc).self pMap =
      some { replayResult := VK_SUCCESS,
             driverSaw := some
               { device := self.m_objMapper.m_devices.lookup pMap.device, memory := live,
                 offset := pMap.offset, size := pMap.size, flags := pMap.flags },
             self := { self with m_objMapper := { self.m_objMapper with
               m_devicememorys :=
                 (self.m_objMapper.m_devicememorys.insert pAlloc.pMemory
                    { replayGpuMem := live,
                      pGpuMem := some (gpuMemory.setAllocInfo
                        pAlloc.pAllocateInfo.allocationSize false) }).insert pAlloc.pMemory
                  { replayGpuMem := live,
                    pGpuMem := some
                      ((gpuMemory.setAllocInfo pAlloc.pAllocateInfo.allocationSize
                        false).setMemoryMapRange (some ⟨live, pMap.offset⟩) pMap.size
                          pMap.offset false) } } } } := by
    rw [hA]
    simp only [manually_replay_vkMapMemory, if_neg hdevM, hmemM, MemoryMap.find_insert_self,
      gpuMemory.isPendingAlloc, gpuMemory.setAllocInfo, Bool.not_false, if_true, hmap]
  obtain ⟨out, hU, hsaw, hmem⟩ := unmapMemory_copies_then_unmaps memory
    { self with m_objMapper := { self.m_objMapper with
        m_devicememorys :=
          (self.m_objMapper.m_devicememorys.insert pAlloc.pMemory
            { replayGpuMem := live,
              pGpuMem := some (gpuMemory.setAllocInfo
                pAlloc.pAllocateInfo.allocationSize false) }).insert pAlloc.pMemory
            { replayGpuMem := live,
              pGpuMem := some
                ((gpuMemory.setAllocInfo pAlloc.pAllocateInfo.allocationSize
                  false).setMemoryMapRange (some ⟨live, pMap.offset⟩) pMap.size
                    pMap.offset false) } } }
    pUnmap _ _ { pData := some ⟨live, pMap.offset⟩, size := pMap.size, offset := pMap.offset,
                 pending := false } ⟨live, pMap.offset⟩ bytes hdevU
    (by rw [hmemU]; exact MemoryMap.find_insert_self _ _ _) rfl rfl rfl rfl rfl hdata
  have hread : ∀ i, i < pMap.size →
      some ((memory.memcpy ⟨live, pMap.offset⟩ (bytes.take pMap.size)) live (pMap.offset + i))
        = bytes[i]? := by
    intro i hi
    have hi' : i < (bytes.take pMap.size).length := by
      rw [List.length_take, Nat.min_eq_left hlen]; exact hi
    rw [HostMemory.memcpy_read memory ⟨live, pMap.offset⟩ (bytes.take pMap.size) i hi',
      List.getElem?_take, if_pos hi]
  refine ⟨_, out, _, hM, hU, hsaw, hread, ?_⟩
  intro i hi
  rw [hmem]
  exact hread i hi

/-- Scenario C in small as a witness of C11: allocate, map (offset `2`, size `4`), unmap
with the ramp `0, 1, 2, 3`; the driver memory of the live object `50` holds the ramp at
offsets `2` to `5`. -/
theorem unmapMemory_write_through_witness :
    ∃ afterMap afterUnmap,
      manually_replay_vkMapMemory
        ⟨fun _ _ => (VK_SUCCESS, 50), fun c => (VK_SUCCESS, ⟨c.memory, c.offset⟩)⟩
        (manually_replay_vkAllocateMemory
          ⟨fun _ _ => (VK_SUCCESS, 50), fun c => (VK_SUCCESS, ⟨c.memory, c.offset⟩)⟩
          { m_objMapper := { m_devices := [(1, 10)] } }
          { device := 1, pAllocateInfo := { allocationSize := 4096 }, pMemory := 5 }).self
        { device := 1, memory := 5, offset := 2, size := 4 } = some afterMap ∧
      manually_replay_vkUnmapMemory (fun _ _ => 255) afterMap.self
        { device := 1, memory := 5, pData := some [0, 1, 2, 3] } = some afterUnmap ∧
      (∀ i, i < 4 → some (afterUnmap.memory 50 (2 + i)) = ([0, 1, 2, 3] : List UInt8)[i]?) := by
  obtain ⟨afterMap, afterUnmap, _, hM, hU, _, _, hmem⟩ := unmapMemory_write_through
    ⟨fun _ _ => (VK_SUCCESS, 50), fun c => (VK_SUCCESS, ⟨c.memory, c.offset⟩)⟩
    (fun _ _ => 255) { m_objMapper := { m_devices := [(1, 10)] } }
    { device := 1, pAllocateInfo := { allocationSize := 4096 }, pMemory := 5 }
    { device := 1, memory := 5, offset := 2, size := 4 }
    { device := 1, memory := 5, pData := some [0, 1, 2, 3] } [0, 1, 2, 3] 50
    (by decide) (by decide) (by decide) rfl rfl rfl rfl rfl rfl (by decide)
  exact ⟨afterMap, afterUnmap, hM, hU, hmem⟩

/-! ### Descriptor set layouts and descriptor sets -/

/-- C13 (evaluation at the failing input): device `1` mapped to `10`, sampler `3` mapped to
`30`, a create-info with one binding whose `pImmutableSamplers` holds the recorded sampler
`3`.  `manually_replay_vkCreateDescriptorSetLayout` shows the driver sampler `30` and
returns with `30`, not `3`, in the packet; replaying the packet it left behind passes the
driver the null handle in place of `30`. -/
theorem createDescriptorSetLayout_samplers_left_remapped :
    (manually_replay_vkCreateDescriptorSetLayout (fun _ _ => (VK_SUCCESS, 77))
        { m_objMapper := { m_devices := [(1, 10)], m_samplers := [(3, 30)] } }
        { device := 1, pSetLayout := 5,
          pCreateInfo := some
            { bindingCount := 1,
              pBindings := some [{ descriptorCount := 1, pImmutableSamplers := some [3] }] }
        }).pPacket.pCreateInfo =
      some
        { bindingCount := 1,
          pBindings := some [{ descriptorCount := 1, pImmutableSamplers := some [30] }] } ∧
    (manually_replay_vkCreateDescriptorSetLayout (fun _ _ => (VK_SUCCESS, 77))
        { m_objMapper := { m_devices := [(1, 10)], m_samplers := [(3, 30)] } }
        (manually_replay_vkCreateDescriptorSetLayout (fun _ _ => (VK_SUCCESS, 77))
          { m_objMapper := { m_devices := [(1, 10)], m_samplers := [(3, 30)] } }
          { device := 1, pSetLayout := 5,
            pCreateInfo := some
              { bindingCount := 1,
                pBindings := some [{ descriptorCount := 1, pImmutableSamplers := some [3] }] }
          }).pPacket).driverSaw =
      some (10, some
        { bindingCount := 1,
          pBindings := some
            [{ descriptorCount := 1, pImmutableSamplers := some [VK_NULL_HANDLE] }] }) := by
  constructor <;> decide

/-- C14 (evaluation at the failing input): device `1` mapped to `10`, a packet asking for
one descriptor set with the recorded handle `5`, a driver that returns `VK_SUCCESS`.
`manually_replay_vkAllocateDescriptorSets` reads `pDescriptorSets[0]` through the null
pointer it initialised and has no defined outcome; with `descriptorSetCount = 0`, where the
loop does not run, the call it makes shows that the driver is given a null output array. -/
theorem allocateDescriptorSets_reads_null_output :
    manually_replay_vkAllocateDescriptorSets (fun _ => (VK_SUCCESS, [50]))
        { m_objMapper := { m_devices := [(1, 10)] } }
        { device := 1, pAllocateInfo := { descriptorSetCount := 1 },
          pDescriptorSets := [5] } = none ∧
    manually_replay_vkAllocateDescriptorSets (fun _ => (VK_SUCCESS, [50]))
        { m_objMapper := { m_devices := [(1, 10)] } }
        { device := 1, pAllocateInfo := { descriptorSetCount := 0 },
          pDescriptorSets := [] } =
      some { replayResult := VK_SUCCESS,
             driverSaw := some { device := 10, pAllocateInfo := { descriptorSetCount := 0 },
                                 pDescriptorSetsNonNull := false },
             self := { m_objMapper := { m_devices := [(1, 10)] } } } := by
  constructor <;> decide

/-! ### Raw table lemmas -/

theorem lookup_filter_bne {β : Type} (m : List (Handle × β)) (k k' : Handle) :
    List.lookup k (m.filter (fun p => p.1 != k')) =
      if k = k' then none else List.lookup k m := by
  induction m with
  | nil => simp
  | cons a rest ih =>
    obtain ⟨a1, a2⟩ := a
    by_cases ha : a1 = k'
    · subst ha
      by_cases hk : k = a1
      · subst hk
        simpa [List.filter] using ih
      · have : (k == a1) = false := by simpa using hk
        simp [List.filter, List.lookup, this, ih, hk]
    · have hb : (a1 != k') = true := by simpa using ha
      by_cases hk : k = a1
      · subst hk
        simp [List.filter, hb, List.lookup, ha]
      · have : (k == a1) = false := by simpa using hk
        simp [List.filter, hb, List.lookup, this, ih]

theorem lookup_foldl_remove (ks : List Handle) (m : HandleMap) (k : Handle) :
    List.lookup k (ks.foldl (fun table ds => HandleMap.remove table ds) m) =
      if k ∈ ks then none else List.lookup k m := by
  induction ks generalizing m with
  | nil => simp
  | cons d rest ih =>
    rw [List.foldl_cons, ih, HandleMap.remove, lookup_filter_bne]
    by_cases h1 : k = d
    · simp [h1]
    · by_cases h2 : k ∈ rest
      · simp [h2]
      · simp [h1, h2]

theorem lookup_insert_raw (m : HandleMap) (k k' v : Handle) :
    List.lookup k (m.insert k' v) = if k = k' then some v else List.lookup k m := by
  unfold HandleMap.insert
  by_cases hk : k = k'
  · subst hk
    simp [List.lookup]
  · have : (k == k') = false := by simpa using hk
    simp [List.lookup, this, lookup_filter_bne, hk]

theorem lookup_foldl_insert_of_not_mem (rs ls : List Handle) (m : HandleMap) (k : Handle)
    (hk : k ∉ rs) :
    List.lookup k ((rs.zip ls).foldl (fun table pair => HandleMap.insert table pair.1 pair.2) m) =
      List.lookup k m := by
  induction rs generalizing m ls with
  | nil => simp
  | cons r rest ih =>
    cases ls with
    | nil => simp
    | cons l ls' =>
      have hne : k ≠ r := fun h => hk (h ▸ List.mem_cons_self _ _)
      have hrest : k ∉ rest := fun h => hk (List.mem_cons_of_mem _ h)
      rw [List.zip_cons_cons, List.foldl_cons, ih _ _ hrest, lookup_insert_raw, if_neg hne]

theorem lookup_foldl_insert_zip (rs ls : List Handle) (m : HandleMap) (hnodup : rs.Nodup)
    (i : Nat) (r l : Handle) (hr : rs[i]? = some r) (hl : ls[i]? = some l) :
    List.lookup r ((rs.zip ls).foldl (fun table pair => HandleMap.insert table pair.1 pair.2) m) =
      some l := by
  induction rs generalizing m ls i with
  | nil => simp at hr
  | cons r0 rest ih =>
    cases ls with
    | nil => simp at hl
    | cons l0 ls' =>
      rw [List.zip_cons_cons, List.foldl_cons]
      have hnd := List.nodup_cons.mp hnodup
      cases i with
      | zero =>
        simp only [List.getElem?_cons_zero, Option.some.injEq] at hr hl
        subst hr; subst hl
        rw [lookup_foldl_insert_of_not_mem _ _ _ _ hnd.1, lookup_insert_raw, if_pos rfl]
      | succ j =>
        simp only [List.getElem?_cons_succ] at hr hl
        exact ih _ _ hnd.2 j hr hl

/-! ### Destruction handlers -/

/-- After a successful `manually_replay_vkFreeDescriptorSets` on a mapped device the lookup
of every freed recorded descriptor set yields the null handle. -/
theorem freeDescriptorSets_unmaps (real_vkFreeDescriptorSets : FreeDescriptorSetsCall → VkResult)
    (self : vkReplay) (pPacket : packet_vkFreeDescriptorSets)
    (hdev : self.m_objMapper.m_devices.lookup pPacket.device ≠ VK_NULL_HANDLE)
    (hok : (manually_replay_vkFreeDescriptorSets real_vkFreeDescriptorSets self
      pPacket).replayResult = VK_SUCCESS) :
    ∀ ds ∈ pPacket.pDescriptorSets.take pPacket.descriptorSetCount,
      (manually_replay_vkFreeDescriptorSets real_vkFreeDescriptorSets self
        pPacket).self.m_objMapper.m_descriptorsets.lookup ds = VK_NULL_HANDLE := by
  intro ds hds
  have hout : (manually_replay_vkFreeDescriptorSets real_vkFreeDescriptorSets self
      pPacket).self.m_objMapper.m_descriptorsets =
      (pPacket.pDescriptorSets.take pPacket.descriptorSetCount).foldl
        (fun table ds => HandleMap.remove table ds) self.m_objMapper.m_descriptorsets := by
    simp only [manually_replay_vkFreeDescriptorSets, if_neg hdev] at hok ⊢
    rw [if_pos hok]
  rw [hout]
  unfold HandleMap.lookup
  split
  · rfl
  · rw [lookup_foldl_remove, if_pos hds]

/-- After `manually_replay_vkFreeMemory` on a mapped device and a recorded memory handle
that has a record, the driver has been called with the live handle of the record and the
lookup of the recorded handle yields the null handle. -/
theorem freeMemory_unmaps (self : vkReplay) (pPacket : packet_vkFreeMemory) (obj : gpuMemObj)
    (hdev : self.m_objMapper.m_devices.lookup pPacket.device ≠ VK_NULL_HANDLE)
    (hfind : self.m_objMapper.m_devicememorys.find pPacket.memory = some obj) :
    ∃ out, manually_replay_vkFreeMemory self pPacket = some out ∧
      out.driverSaw = some (self.m_objMapper.m_devices.lookup pPacket.device,
        obj.replayGpuMem) ∧
      out.self.m_objMapper.m_devicememorys.lookup pPacket.memory = VK_NULL_HANDLE := by
  simp only [manually_replay_vkFreeMemory, if_neg hdev, hfind]
  refine ⟨_, rfl, rfl, ?_⟩
  simp only [MemoryMap.lookup, MemoryMap.find, MemoryMap.remove, lookup_filter_bne, if_true]
  split <;> rfl

/-- C15 (evaluation at the failing input): instance `1` mapped to `10`, debug-report
callback `7` mapped to `70`, message sink registered.
`manually_replay_vkDestroyDebugReportCallbackEXT` calls the driver on `(10, 70)` and
returns with the callback table as it was: the lookup of the destroyed recorded handle `7`
still yields `70`, not the null handle. -/
theorem destroyDebugReportCallback_stays_mapped :
    (manually_replay_vkDestroyDebugReportCallbackEXT true
        { m_objMapper := { m_instances := [(1, 10)], m_debugreportcallbackexts := [(7, 70)] } }
        { instance_ := 1, callback := 7 }).driverSaw = some (10, 70) ∧
    (manually_replay_vkDestroyDebugReportCallbackEXT true
        { m_objMapper := { m_instances := [(1, 10)], m_debugreportcallbackexts := [(7, 70)] } }
        { instance_ := 1, callback := 7 }).self.m_objMapper.m_debugreportcallbackexts.lookup 7
      = 70 := by
  constructor <;> decide

/-! ### Physical-device enumeration -/

/-- C16 (amended): when the instance is mapped, the packet carries a non-null list of `n`
distinct recorded physical devices, each of them a non-null handle (`n` the recorded
count), and the driver's enumeration is invoked, then: if it succeeds reporting the same count `n`, afterwards for
every `i` below `n` the lookup of the recorded physical device `i` returns the live
physical device the driver wrote at index `i`; and if the live count differs from the
recorded count, a warning is logged. -/
theorem enumeratePhysicalDevices_maps_by_index
    (real_vkEnumeratePhysicalDevices :
      EnumeratePhysicalDevicesCall → EnumeratePhysicalDevicesReply)
    (self : vkReplay) (pPacket : packet_vkEnumeratePhysicalDevices)
    (recorded : List Handle) (call : EnumeratePhysicalDevicesCall)
    (hinst : self.m_objMapper.m_instances.lookup pPacket.instance_ ≠ VK_NULL_HANDLE)
    (hlist : pPacket.pPhysicalDevices = some recorded)
    (hcount : pPacket.pPhysicalDeviceCount = recorded.length)
    (hnodup : recorded.Nodup)
    (hnonnull : ∀ r ∈ recorded, r ≠ VK_NULL_HANDLE)
    (hcall : (manually_replay_vkEnumeratePhysicalDevices real_vkEnumeratePhysicalDevices self
      pPacket).driverSaw = some call) :
    call = { instance_ := self.m_objMapper.m_instances.lookup pPacket.instance_,
             deviceCount := recorded.length, pDevicesNonNull := true } ∧
    ((real_vkEnumeratePhysicalDevices call).result = VK_SUCCESS →
      (real_vkEnumeratePhysicalDevices call).deviceCount = recorded.length →
      ∀ (i : Nat) (r l : Handle), recorded[i]? = some r →
        (real_vkEnumeratePhysicalDevices call).pDevices[i]? = some l →
        (manually_replay_vkEnumeratePhysicalDevices real_vkEnumeratePhysicalDevices self
          pPacket).self.m_objMapper.m_physicaldevices.lookup r = l) ∧
    ((real_vkEnumeratePhysicalDevices call).deviceCount ≠ pPacket.pPhysicalDeviceCount →
      vktrace_LogWarning "Number of physical devices mismatched in replay %u versus trace %u."
        ∈ (manually_replay_vkEnumeratePhysicalDevices real_vkEnumeratePhysicalDevices self
          pPacket).log) := by
  cases hinit : self.m_initedVK with
  | true =>
    simp [manually_replay_vkEnumeratePhysicalDevices, hinit] at hcall
  | false =>
    simp only [manually_replay_vkEnumeratePhysicalDevices, hinit, Bool.not_false, if_true,
      if_neg hinst, hlist, Option.isSome_some, Option.map_some', hcount,
      Option.some.injEq] at hcall ⊢
    subst hcall
    refine ⟨rfl, ?_, ?_⟩
    · intro _ hn i r l hr hl
      rw [hn]
      have hi : i < recorded.length := by
        rcases Nat.lt_or_ge i recorded.length with h | h
        · exact h
        · rw [List.getElem?_eq_none h] at hr; cases hr
      have hrm : r ∈ recorded := List.mem_iff_getElem?.mpr ⟨i, hr⟩
      unfold HandleMap.lookup
      rw [if_neg (hnonnull r hrm),
        lookup_foldl_insert_zip _ _ _ (by rw [List.take_length]; exact hnodup) i r l
          (by rw [List.take_length]; exact hr)
          (by rw [List.getElem?_take, if_pos hi]; exact hl)]
    · intro hne
      rw [if_pos hne]
      exact List.mem_singleton.mpr rfl

/-- Witness of C16 (amended): instance `1` mapped to `10`, the recorded devices `3, 4`, a driver that
succeeds and returns the devices `30, 40`; afterwards `3` and `4` look up to `30` and
`40`. -/
theorem enumeratePhysicalDevices_maps_by_index_witness :
    (manually_replay_vkEnumeratePhysicalDevices
        (fun _ => { result := VK_SUCCESS, deviceCount := 2, pDevices := [30, 40] })
        { m_objMapper := { m_instances := [(1, 10)] } }
        { instance_ := 1, pPhysicalDeviceCount := 2,
          pPhysicalDevices := some [3, 4] }).self.m_objMapper.m_physicaldevices.lookup 3 = 30 ∧
    (manually_replay_vkEnumeratePhysicalDevices
        (fun _ => { result := VK_SUCCESS, deviceCount := 2, pDevices := [30, 40] })
        { m_objMapper := { m_instances := [(1, 10)] } }
        { instance_ := 1, pPhysicalDeviceCount := 2,
          pPhysicalDevices := some [3, 4] }).self.m_objMapper.m_physicaldevices.lookup 4 = 40 := by
  have key := (enumeratePhysicalDevices_maps_by_index
    (fun _ => { result := VK_SUCCESS, deviceCount := 2, pDevices := [30, 40] })
    { m_objMapper := { m_instances := [(1, 10)] } }
    { instance_ := 1, pPhysicalDeviceCount := 2, pPhysicalDevices := some [3, 4] }
    [3, 4] { instance_ := 10, deviceCount := 2, pDevicesNonNull := true }
    (by decide) rfl rfl (by decide) (by decide) (by decide)).2.1 rfl rfl
  exact ⟨key 0 3 30 rfl rfl, key 1 4 40 rfl rfl⟩

/-- Counterexample to C16 as stated: instance `1` is mapped, the packet carries the two
distinct recorded physical devices `0` and `4`, the first of them the null handle, and the
driver's enumeration succeeds reporting the same count 2 with the live devices `30, 40`.
The pairs are inserted by index, yet the lookup of the recorded physical device at index 0
returns the null handle (the lookup of the null handle is null), not the live device `30`
the driver returned at index 0; the recorded device `4` at index 1 looks up to `40`. -/
theorem enumeratePhysicalDevices_null_recorded_counterexample :
    let real_vkEnumeratePhysicalDevices :
        EnumeratePhysicalDevicesCall → EnumeratePhysicalDevicesReply :=
      fun _ => { result := VK_SUCCESS, deviceCount := 2, pDevices := [30, 40] }
    let self : vkReplay := { m_objMapper := { m_instances := [(1, 10)] } }
    let recorded : List Handle := [0, 4]
    let pPacket : packet_vkEnumeratePhysicalDevices :=
      { instance_ := 1, pPhysicalDeviceCount := 2, pPhysicalDevices := some recorded }
    let out := manually_replay_vkEnumeratePhysicalDevices real_vkEnumeratePhysicalDevices
      self pPacket
    self.m_objMapper.m_instances.lookup pPacket.instance_ ≠ VK_NULL_HANDLE
    ∧ recorded.Nodup
    ∧ out.driverSaw = some { instance_ := 10, deviceCount := 2, pDevicesNonNull := true }
    ∧ out.replayResult = VK_SUCCESS
    ∧ out.log.all (fun msg => msg.level != LogLevel.warning) = true
    ∧ out.self.m_objMapper.m_physicaldevices.lookup 4 = 40
    ∧ out.self.m_objMapper.m_physicaldevices.lookup 0 = VK_NULL_HANDLE
    ∧ ¬ (∀ (i : Nat) (r l : Handle), recorded[i]? = some r →
          ([30, 40] : List Handle)[i]? = some l →
          out.self.m_objMapper.m_physicaldevices.lookup r = l) := by
  intro real_vkEnumeratePhysicalDevices self recorded pPacket out
  refine ⟨by decide, by decide, by decide, by decide, by decide, by decide, by decide, ?_⟩
  intro h
  exact absurd (h 0 0 30 rfl rfl) (by decide)

/-! ### Swapchain creation -/

/-- C17 (evaluation at the failing input): the recorded device `9` is non-null and has no
entry in the (empty) device map; the driver succeeds and produces swapchain `77`.
`manually_replay_vkCreateSwapchainKHR` calls `real_vkCreateSwapchainKHR` with the null
device, returns `VK_SUCCESS` and maps the recorded swapchain `5` to `77`. -/
theorem createSwapchain_unmapped_device_calls_driver :
    ({} : vkReplay).m_objMapper.m_devices.lookup 9 = VK_NULL_HANDLE ∧
    (manually_replay_vkCreateSwapchainKHR (fun _ _ => (VK_SUCCESS, 77)) {}
        { device := 9, pSwapchain := 5 }).replayResult = VK_SUCCESS ∧
    (manually_replay_vkCreateSwapchainKHR (fun _ _ => (VK_SUCCESS, 77)) {}
        { device := 9, pSwapchain := 5 }).driverSaw = some (VK_NULL_HANDLE, {}) ∧
    (manually_replay_vkCreateSwapchainKHR (fun _ _ => (VK_SUCCESS, 77)) {}
        { device := 9, pSwapchain := 5 }).self.m_objMapper.m_swapchainkhrs = [(5, 77)] := by
  refine ⟨?_, ?_, ?_, ?_⟩ <;> decide

/-! ### Return comparison and validation messages -/

/-- C19 (amended): `handle_replay_errors` returns `VKTRACE_REPLAY_BAD_RETURN` exactly when
the live result differs from the recorded result or the incoming status already is
`VKTRACE_REPLAY_BAD_RETURN`, whatever the recorded result is; a recorded `VK_SUCCESS`
with any other live result leads to bad-return.  The test against `VK_SUCCESS` and
`VK_NOT_READY` is made on the live result and decides only whether a warning is logged. -/
theorem handle_replay_errors_bad_return_iff (entrypointName : String)
    (resCall resTrace : VkResult) (resIn : VKTRACE_REPLAY_RESULT) :
    ((handle_replay_errors entrypointName resCall resTrace resIn).1 = VKTRACE_REPLAY_BAD_RETURN ↔
      (resCall ≠ resTrace ∨ resIn = VKTRACE_REPLAY_BAD_RETURN)) ∧
    (resTrace = VK_SUCCESS → resCall ≠ VK_SUCCESS →
      (handle_replay_errors entrypointName resCall resTrace resIn).1 =
        VKTRACE_REPLAY_BAD_RETURN) ∧
    (vktrace_LogWarning "API call (%s) returned failed result %s" ∈
        (handle_replay_errors entrypointName resCall resTrace resIn).2 ↔
      (resCall ≠ VK_SUCCESS ∧ resCall ≠ VK_NOT_READY)) := by
  refine ⟨?_, ?_, ?_⟩
  · by_cases h : resCall = resTrace
    · simp [handle_replay_errors, h]
    · simp [handle_replay_errors, h]
  · intro ht hc
    have h : resCall ≠ resTrace := by rw [ht]; exact hc
    simp [handle_replay_errors, h]
  · by_cases h : resCall = resTrace <;>
      by_cases hw : resCall ≠ VK_SUCCESS ∧ resCall ≠ VK_NOT_READY <;>
      simp [handle_replay_errors, h, hw, vktrace_LogWarning, vktrace_LogError]

/-- Witness of C19 (amended): a recorded `VK_NOT_READY` answered by a live `VK_SUCCESS`
gives bad-return. -/
theorem handle_replay_errors_bad_return_iff_witness :
    (handle_replay_errors "vkGetFenceStatus" VK_SUCCESS VK_NOT_READY
        VKTRACE_REPLAY_SUCCESS).1 = VKTRACE_REPLAY_BAD_RETURN :=
  (handle_replay_errors_bad_return_iff "vkGetFenceStatus" VK_SUCCESS VK_NOT_READY
    VKTRACE_REPLAY_SUCCESS).1.mpr (Or.inl (by decide))

/-- Counterexample to C19 as stated: the recorded result is `VK_SUCCESS`, the live result
is `VK_ERROR_DEVICE_LOST`, the incoming status is success; the returned status is
`VKTRACE_REPLAY_BAD_RETURN`. -/
theorem handle_replay_errors_recorded_success_counterexample :
    (handle_replay_errors "vkQueueSubmit" VK_ERROR_DEVICE_LOST VK_SUCCESS
        VKTRACE_REPLAY_SUCCESS).1 = VKTRACE_REPLAY_BAD_RETURN ∧
    ¬ (VK_ERROR_DEVICE_LOST ≠ VK_SUCCESS ∧
        ((VK_SUCCESS : VkResult) ≠ VK_SUCCESS ∧ (VK_SUCCESS : VkResult) ≠ VK_NOT_READY)) := by
  constructor <;> decide

/-- C20: `pop_validation_msgs` returns `VKTRACE_REPLAY_VALIDATION_ERROR` if and only if the
queue holds at least one message when it is called and `VKTRACE_REPLAY_SUCCESS` otherwise;
the queue is empty afterwards; a pop right after a pop returns success; and after any
`push_validation_msg` the next pop returns validation-error. -/
theorem pop_validation_msgs_status (self : vkReplay) :
    ((pop_validation_msgs self).1 = VKTRACE_REPLAY_VALIDATION_ERROR ↔
      self.m_validationMsgs ≠ []) ∧
    ((pop_validation_msgs self).1 = VKTRACE_REPLAY_SUCCESS ↔ self.m_validationMsgs = []) ∧
    (pop_validation_msgs self).2.m_validationMsgs = [] ∧
    (pop_validation_msgs (pop_validation_msgs self).2).1 = VKTRACE_REPLAY_SUCCESS ∧
    (∀ (msgFlags objType srcObjectHandle location : Nat) (msgCode : Int)
        (pLayerPrefix pMsg : String) (pUserData : Nat),
      (pop_validation_msgs (push_validation_msg self msgFlags objType srcObjectHandle
        location msgCode pLayerPrefix pMsg pUserData)).1 = VKTRACE_REPLAY_VALIDATION_ERROR ∧
      (pop_validation_msgs (push_validation_msg (pop_validation_msgs self).2 msgFlags objType
        srcObjectHandle location msgCode pLayerPrefix pMsg pUserData)).1 =
          VKTRACE_REPLAY_VALIDATION_ERROR) := by
  have hpop : ∀ s : vkReplay, (pop_validation_msgs s).2.m_validationMsgs = [] := by
    intro s
    unfold pop_validation_msgs
    split
    · rename_i h
      exact List.length_eq_zero.mp h
    · rfl
  have hpush : ∀ (s : vkReplay) (msgFlags objType srcObjectHandle location : Nat)
      (msgCode : Int) (pLayerPrefix pMsg : String) (pUserData : Nat),
      (pop_validation_msgs (push_validation_msg s msgFlags objType srcObjectHandle
        location msgCode pLayerPrefix pMsg pUserData)).1 = VKTRACE_REPLAY_VALIDATION_ERROR := by
    intro s a b c d e f g h
    simp [pop_validation_msgs, push_validation_msg]
  refine ⟨?_, ?_, hpop self, ?_, ?_⟩
  · cases hq : self.m_validationMsgs <;> simp [pop_validation_msgs, hq]
  · cases hq : self.m_validationMsgs <;> simp [pop_validation_msgs, hq]
  · have hempty : ∀ s : vkReplay, s.m_validationMsgs = [] →
        (pop_validation_msgs s).1 = VKTRACE_REPLAY_SUCCESS := by
      intro s hs
      simp [pop_validation_msgs, hs]
    exact hempty _ (hpop self)
  · intro a b c d e f g h
    exact ⟨hpush self a b c d e f g h, hpush _ a b c d e f g h⟩

/-! ### Pipeline barriers, vertex buffers, set layout destruction -/

/-- Restoring the saved handles over the entries a loop rewrote gives back the array. -/
theorem restoreFirst_rewriteFirst {α : Type} (f : α → α) (get : α → Handle)
    (put : α → Handle → α) (hput : ∀ x, put (f x) (get x) = x) (count : Nat) (a : List α) :
    restoreFirst put count (rewriteFirst f count a) ((a.take count).map get) = a := by
  induction a generalizing count with
  | nil => cases count <;> simp [rewriteFirst, restoreFirst]
  | cons x rest ih =>
    cases count with
    | zero => simp [rewriteFirst, restoreFirst]
    | succ n =>
      have h := ih n
      simp only [rewriteFirst] at h ⊢
      simp only [List.take_succ_cons, List.map_cons, List.drop_succ_cons, List.cons_append,
        restoreFirst, hput]
      exact congrArg (List.cons x) h

/-- C22: for every packet whose command buffer is mapped,
`manually_replay_vkCmdPipelineBarrier` invokes the driver with the remapped command buffer
and with the buffer of each buffer-memory barrier and the image of each image-memory
barrier visited replaced by its lookup (every other field and entry as recorded), and
returns with the packet equal to the packet before the call, for all barrier counts. -/
theorem cmdPipelineBarrier_remaps_and_restores (self : vkReplay)
    (pPacket : packet_vkCmdPipelineBarrier)
    (hcb : self.m_objMapper.m_commandbuffers.lookup pPacket.commandBuffer ≠ VK_NULL_HANDLE) :
    (manually_replay_vkCmdPipelineBarrier self pPacket).driverSaw =
      some (self.m_objMapper.m_commandbuffers.lookup pPacket.commandBuffer,
        { pPacket with
          pBufferMemoryBarriers :=
            (pPacket.pBufferMemoryBarriers.take pPacket.bufferMemoryBarrierCount).map
                (fun b => { b with buffer := self.m_objMapper.m_buffers.lookup b.buffer }) ++
              pPacket.pBufferMemoryBarriers.drop pPacket.bufferMemoryBarrierCount
          pImageMemoryBarriers :=
            (pPacket.pImageMemoryBarriers.take pPacket.imageMemoryBarrierCount).map
                (fun b => { b with image := self.m_objMapper.m_images.lookup b.image }) ++
              pPacket.pImageMemoryBarriers.drop pPacket.imageMemoryBarrierCount }) ∧
    (manually_replay_vkCmdPipelineBarrier self pPacket).pPacket = pPacket := by
  have hbuf := restoreFirst_rewriteFirst
    (fun b : VkBufferMemoryBarrier =>
      { b with buffer := self.m_objMapper.m_buffers.lookup b.buffer })
    (fun b => b.buffer) (fun b h => { b with buffer := h }) (fun _ => rfl)
    pPacket.bufferMemoryBarrierCount pPacket.pBufferMemoryBarriers
  have himg := restoreFirst_rewriteFirst
    (fun b : VkImageMemoryBarrier =>
      { b with image := self.m_objMapper.m_images.lookup b.image })
    (fun b => b.image) (fun b h => { b with image := h }) (fun _ => rfl)
    pPacket.imageMemoryBarrierCount pPacket.pImageMemoryBarriers
  simp only [manually_replay_vkCmdPipelineBarrier, if_neg hcb]
  refine ⟨rfl, ?_⟩
  rw [hbuf, himg]

/-- Witness of C22: command buffer `1`, buffer `8` and image `5` mapped; the driver sees
buffer `80` and image `50`, and the packet is back at `8` and `5`. -/
theorem cmdPipelineBarrier_remaps_and_restores_witness :
    (manually_replay_vkCmdPipelineBarrier
        { m_objMapper := { m_commandbuffers := [(1, 100)], m_buffers := [(8, 80)],
                           m_images := [(5, 50)] } }
        { commandBuffer := 1, bufferMemoryBarrierCount := 1,
          pBufferMemoryBarriers := [{ buffer := 8 }], imageMemoryBarrierCount := 1,
          pImageMemoryBarriers := [{ image := 5 }] }).driverSaw =
      some (100,
        { commandBuffer := 1, bufferMemoryBarrierCount := 1,
          pBufferMemoryBarriers := [{ buffer := 80 }], imageMemoryBarrierCount := 1,
          pImageMemoryBarriers := [{ image := 50 }] }) ∧
    (manually_replay_vkCmdPipelineBarrier
        { m_objMapper := { m_commandbuffers := [(1, 100)], m_buffers := [(8, 80)],
                           m_images := [(5, 50)] } }
        { commandBuffer := 1, bufferMemoryBarrierCount := 1,
          pBufferMemoryBarriers := [{ buffer := 8 }], imageMemoryBarrierCount := 1,
          pImageMemoryBarriers := [{ image := 5 }] }).pPacket =
      { commandBuffer := 1, bufferMemoryBarrierCount := 1,
        pBufferMemoryBarriers := [{ buffer := 8 }], imageMemoryBarrierCount := 1,
        pImageMemoryBarriers := [{ image := 5 }] } := by
  have key := cmdPipelineBarrier_remaps_and_restores
    { m_objMapper := { m_commandbuffers := [(1, 100)], m_buffers := [(8, 80)],
                       m_images := [(5, 50)] } }
    { commandBuffer := 1, bufferMemoryBarrierCount := 1,
      pBufferMemoryBarriers := [{ buffer := 8 }], imageMemoryBarrierCount := 1,
      pImageMemoryBarriers := [{ image := 5 }] } (by decide)
  exact ⟨by rw [key.1]; decide, key.2⟩

/-- C23 (evaluation at the failing input): command buffer `1` is mapped and the scratch
request for the save array fails.  With one vertex buffer to bind,
`manually_replay_vkCmdBindVertexBuffers` goes on after logging and writes `pSaveBuff[0]`
through the null pointer (no defined outcome); with a null `pBuffers`, where the loop does
not run, it logs the out-of-memory error and still invokes `real_vkCmdBindVertexBuffers`. -/
theorem cmdBindVertexBuffers_allocation_failure_not_skipped :
    manually_replay_vkCmdBindVertexBuffers false
        { m_objMapper := { m_commandbuffers := [(1, 100)], m_buffers := [(8, 80)] } }
        { commandBuffer := 1, bindingCount := 1, pBuffers := some [8], pOffsets := [0] }
      = none ∧
    manually_replay_vkCmdBindVertexBuffers false
        { m_objMapper := { m_commandbuffers := [(1, 100)], m_buffers := [(8, 80)] } }
        { commandBuffer := 1, bindingCount := 0, pBuffers := none } =
      some { driverSaw := some (100, { commandBuffer := 1, bindingCount := 0, pBuffers := none }),
             pPacket := { commandBuffer := 1, bindingCount := 0, pBuffers := none },
             log := [vktrace_LogError "Replay of CmdBindVertexBuffers out of memory."] } := by
  constructor <;> decide

/-- C26 (evaluation at the failing input): device `1` mapped to `10`, descriptor set layout
`5` mapped to `50`.  `manually_replay_vkDestroyDescriptorSetLayout` passes the driver the
recorded value `5`, not the live handle `50` its lookup gives. -/
theorem destroyDescriptorSetLayout_passes_recorded :
    ({ m_objMapper := { m_devices := [(1, 10)], m_descriptorsetlayouts := [(5, 50)] } } :
        vkReplay).m_objMapper.m_descriptorsetlayouts.lookup 5 = 50 ∧
    (manually_replay_vkDestroyDescriptorSetLayout
        { m_objMapper := { m_devices := [(1, 10)], m_descriptorsetlayouts := [(5, 50)] } }
        { device := 1, descriptorSetLayout := 5 }).driverSaw = some (10, 5) := by
  constructor <;> decide

/-! ### Wait events: the image restore loop -/

theorem restoreFirst_nil_save {α : Type} (put : α → Handle → α) (count : Nat) (a : List α) :
    restoreFirst put count a [] = a := by
  cases count <;> cases a <;> rfl

/-- Restoring over `n` entries after a loop rewrote `c` entries: the first `min n c` entries
are the original ones, the entries from `n` up to `c` stay rewritten, the rest was never
touched. -/
theorem restoreFirst_rewriteFirst_counts {α : Type} (f : α → α) (get : α → Handle)
    (put : α → Handle → α) (hput : ∀ x, put (f x) (get x) = x) (n c : Nat) (a : List α) :
    restoreFirst put n (rewriteFirst f c a) ((a.take c).map get) =
      a.take (min n c) ++ (((a.take c).drop n).map f ++ a.drop c) := by
  induction a generalizing n c with
  | nil => cases n <;> cases c <;> simp [rewriteFirst, restoreFirst]
  | cons x rest ih =>
    cases c with
    | zero => simp [rewriteFirst, restoreFirst_nil_save]
    | succ c' =>
      cases n with
      | zero => simp [rewriteFirst, restoreFirst]
      | succ n' =>
        have h := ih n' c'
        simp only [rewriteFirst] at h ⊢
        simp only [List.take_succ_cons, List.map_cons, List.drop_succ_cons, List.cons_append,
          restoreFirst, hput, Nat.succ_min_succ]
        exact congrArg (List.cons x) h

/-- The restore loop of `manually_replay_vkCmdWaitEvents` for the image-memory barriers
iterates using `pPacket->memoryBarrierCount`.  For a mapped command buffer and
`memoryBarrierCount ≤ imageMemoryBarrierCount` the handler returns, the image barriers below
`memoryBarrierCount` are the recorded ones, those from `memoryBarrierCount` up to
`imageMemoryBarrierCount` still hold the looked-up image, and the entries beyond
`imageMemoryBarrierCount` were never touched. -/
theorem cmdWaitEvents_image_restore_loop (self : vkReplay) (pPacket : packet_vkCmdWaitEvents)
    (hcb : self.m_objMapper.m_commandbuffers.lookup pPacket.commandBuffer ≠ VK_NULL_HANDLE)
    (hle : pPacket.memoryBarrierCount ≤ pPacket.imageMemoryBarrierCount) :
    (manually_replay_vkCmdWaitEvents self pPacket).map
        (fun out => out.pPacket.pImageMemoryBarriers) =
      some (pPacket.pImageMemoryBarriers.take pPacket.memoryBarrierCount ++
        (((pPacket.pImageMemoryBarriers.take pPacket.imageMemoryBarrierCount).drop
            pPacket.memoryBarrierCount).map
          (fun b => { b with image := self.m_objMapper.m_images.lookup b.image }) ++
        pPacket.pImageMemoryBarriers.drop pPacket.imageMemoryBarrierCount)) := by
  have himg := restoreFirst_rewriteFirst_counts
    (fun b : VkImageMemoryBarrier =>
      { b with image := self.m_objMapper.m_images.lookup b.image })
    (fun b => b.image) (fun b h => { b with image := h }) (fun _ => rfl)
    pPacket.memoryBarrierCount pPacket.imageMemoryBarrierCount pPacket.pImageMemoryBarriers
  rw [Nat.min_eq_left hle] at himg
  simp only [manually_replay_vkCmdWaitEvents, if_neg hcb, if_neg (Nat.not_lt.mpr hle),
    Option.map_some']
  rw [himg]

/-- For a mapped command buffer and `memoryBarrierCount > imageMemoryBarrierCount` the
image restore loop of `manually_replay_vkCmdWaitEvents` leaves the saved array: the run has
no defined outcome. -/
theorem cmdWaitEvents_image_restore_past_saved (self : vkReplay)
    (pPacket : packet_vkCmdWaitEvents)
    (hcb : self.m_objMapper.m_commandbuffers.lookup pPacket.commandBuffer ≠ VK_NULL_HANDLE)
    (hgt : pPacket.imageMemoryBarrierCount < pPacket.memoryBarrierCount) :
    manually_replay_vkCmdWaitEvents self pPacket = none := by
  simp only [manually_replay_vkCmdWaitEvents, if_neg hcb, if_pos hgt]

/-- C27 (evaluation at the failing input): command buffer `1`, buffer `8` and image `5` are
mapped; the packet has one buffer barrier (`bufferMemoryBarrierCount = 1`), no plain memory
barrier (`memoryBarrierCount = 0`) and one image barrier on image `5`
(`imageMemoryBarrierCount = 1`).  Index `0` is below `bufferMemoryBarrierCount`, the driver
is called, the buffer barrier is back at the recorded buffer `8`, yet the image barrier is
not restored: it holds the live image `50` after `manually_replay_vkCmdWaitEvents`
returns, because the restore loop is bounded by `memoryBarrierCount`. -/
theorem cmdWaitEvents_image_not_restored_below_buffer_count :
    let self : vkReplay :=
      { m_objMapper := { m_commandbuffers := [(1, 100)], m_buffers := [(8, 80)],
                         m_images := [(5, 50)] } }
    let pPacket : packet_vkCmdWaitEvents :=
      { commandBuffer := 1, memoryBarrierCount := 0, bufferMemoryBarrierCount := 1,
        pBufferMemoryBarriers := [{ buffer := 8 }], imageMemoryBarrierCount := 1,
        pImageMemoryBarriers := [{ image := 5 }] }
    (0 : Nat) < pPacket.bufferMemoryBarrierCount
    ∧ (manually_replay_vkCmdWaitEvents self pPacket).map
        (fun out => out.driverSaw.map
          (fun saw => saw.2.pImageMemoryBarriers.map (fun b => b.image))) = some (some [50])
    ∧ (manually_replay_vkCmdWaitEvents self pPacket).map
        (fun out => out.pPacket.pBufferMemoryBarriers.map (fun b => b.buffer)) = some [8]
    ∧ (manually_replay_vkCmdWaitEvents self pPacket).map
        (fun out => out.pPacket.pImageMemoryBarriers.map (fun b => b.image)) = some [50]
    ∧ pPacket.pImageMemoryBarriers.map (fun b => b.image) = [5] := by
  intro self pPacket
  refine ⟨?_, ?_, ?_, ?_, ?_⟩ <;> decide

/-! ### Pending allocations and the return comparison -/

/-- C30: in adjust-for-GPU mode with a mapped device `manually_replay_vkAllocateMemory`
inserts the pending record and returns `VK_ERROR_VALIDATION_FAILED_EXT` for every packet,
so `handle_replay_errors` on that value against a recorded `VK_SUCCESS` yields
`VKTRACE_REPLAY_BAD_RETURN`; and `manually_replay_vkMapMemory` with a mapped device on a
recorded memory whose record is pending returns `VK_ERROR_VALIDATION_FAILED_EXT` without
invoking the driver. -/
theorem pending_allocation_returns_validation_failed (drv : MemoryDriver) (self : vkReplay)
    (pAlloc : packet_vkAllocateMemory) (pMap : packet_vkMapMemory) (entrypointName : String)
    (resIn : VKTRACE_REPLAY_RESULT) :
    (self.m_objMapper.m_adjustForGPU = true →
      self.m_objMapper.m_devices.lookup pAlloc.device ≠ VK_NULL_HANDLE →
      (manually_replay_vkAllocateMemory drv self pAlloc).replayResult =
          VK_ERROR_VALIDATION_FAILED_EXT ∧
      (manually_replay_vkAllocateMemory drv self pAlloc).driverSaw = none ∧
      (manually_replay_vkAllocateMemory drv self pAlloc).self.m_objMapper.m_devicememorys.find
          pAlloc.pMemory =
        some { replayGpuMem := 0,
               pGpuMem := some (gpuMemory.setAllocInfo pAlloc.pAllocateInfo.allocationSize
                 true) } ∧
      (handle_replay_errors entrypointName
          (manually_replay_vkAllocateMemory drv self pAlloc).replayResult VK_SUCCESS resIn).1 =
        VKTRACE_REPLAY_BAD_RETURN) ∧
    (∀ obj pGpuMem, self.m_objMapper.m_devices.lookup pMap.device ≠ VK_NULL_HANDLE →
      self.m_objMapper.m_devicememorys.find pMap.memory = some obj →
      obj.pGpuMem = some pGpuMem → pGpuMem.isPendingAlloc = true →
      ∃ out, manually_replay_vkMapMemory drv self pMap = some out ∧
        out.replayResult = VK_ERROR_VALIDATION_FAILED_EXT ∧ out.driverSaw = none) := by
  constructor
  · intro hadj hdev
    have hres : (manually_replay_vkAllocateMemory drv self pAlloc).replayResult =
        VK_ERROR_VALIDATION_FAILED_EXT := by
      simp only [manually_replay_vkAllocateMemory, if_neg hdev, hadj, Bool.not_true,
        Bool.false_eq_true, if_false, or_true, if_true]
    refine ⟨hres, ?_, ?_, ?_⟩
    · simp only [manually_replay_vkAllocateMemory, if_neg hdev, hadj, Bool.not_true,
        Bool.false_eq_true, if_false, or_true, if_true]
    · simp only [manually_replay_vkAllocateMemory, if_neg hdev, hadj, Bool.not_true,
        Bool.false_eq_true, if_false, or_true, if_true]
      exact MemoryMap.find_insert_self _ _ _
    · rw [hres]
      simp [handle_replay_errors]
  · intro obj pGpuMem hdev hfind hrec hpend
    simp only [manually_replay_vkMapMemory, if_neg hdev, hfind, hrec, hpend, Bool.not_true,
      Bool.false_eq_true, if_false]
    exact ⟨_, rfl, rfl, rfl⟩

/-- C30 (witness): device `1` mapped in adjust-for-GPU mode; the allocation of 4096 bytes
under the recorded handle `5` is reported as bad-return against a recorded `VK_SUCCESS`,
and mapping the pending allocation `5` returns `VK_ERROR_VALIDATION_FAILED_EXT` without a
driver call. -/
theorem pending_allocation_returns_validation_failed_witness :
    let drv : MemoryDriver :=
      ⟨fun _ _ => (VK_SUCCESS, 50), fun c => (VK_SUCCESS, ⟨c.memory, c.offset⟩)⟩
    let self : vkReplay :=
      { m_objMapper :=
          { m_devices := [(1, 10)],
            m_adjustForGPU := true,
            m_devicememorys :=
              [(5, { replayGpuMem := 0,
                     pGpuMem := some { allocationSize := 4096, pendingAlloc := true } })] } }
    let pAlloc : packet_vkAllocateMemory :=
      { device := 1, pAllocateInfo := { allocationSize := 4096 }, pMemory := 5 }
    let pMap : packet_vkMapMemory := { device := 1, memory := 5 }
    (handle_replay_errors "vkAllocateMemory"
        (manually_replay_vkAllocateMemory drv self pAlloc).replayResult
        VK_SUCCESS VKTRACE_REPLAY_SUCCESS).1 = VKTRACE_REPLAY_BAD_RETURN
    ∧ ∃ out, manually_replay_vkMapMemory drv self pMap = some out
        ∧ out.replayResult = VK_ERROR_VALIDATION_FAILED_EXT ∧ out.driverSaw = none := by
  intro drv self pAlloc pMap
  have key := pending_allocation_returns_validation_failed drv self pAlloc pMap
    "vkAllocateMemory" VKTRACE_REPLAY_SUCCESS
  exact ⟨(key.1 rfl (by decide)).2.2.2, key.2 _ _ (by decide) rfl rfl rfl⟩

/-! ### Graphics pipeline creation -/

/-- With a single create-info the one scratch stage array is that create-info's own list,
remapped once. -/
theorem remapStagesInPlace_single (om : vkReplayObjMapper)
    (createInfo : VkGraphicsPipelineCreateInfo) :
    remapStagesInPlace om [createInfo] (createInfo.pStages.take createInfo.stageCount) =
      (createInfo.pStages.take createInfo.stageCount).map
        (fun stage => { stage with module := om.m_shadermodules.lookup stage.module }) := by
  simp only [remapStagesInPlace]
  have h : ∀ (f : VkPipelineShaderStageCreateInfo → VkPipelineShaderStageCreateInfo)
      (n : Nat) (l : List VkPipelineShaderStageCreateInfo),
      rewriteFirst f n (l.take n) = (l.take n).map f := by
    intro f n l
    simp [rewriteFirst, List.take_take, List.drop_take]
  exact h _ _ _

/-- C21 (code defect): `manually_replay_vkCreateGraphicsPipelines` with two create-infos of
one stage each, recorded modules 3 and 4 mapped to 30 and 40.  The driver should see module
30 in create-info 0 and module 40 in create-info 1; the handler copies only the first
create-info's stage list into one scratch array, remaps that array again on every
iteration and points every create-info at it, so the driver sees the null module (the
lookup of 30) in both.  The layout, render pass and base pipeline handle are the lookups of
the recorded ones. -/
theorem createGraphicsPipelines_stage_modules_not_per_create_info
    (interpret : Nat → Nat)
    (real_vkCreateGraphicsPipelines : CreateGraphicsPipelinesCall → VkResult × List Handle) :
    let self : vkReplay :=
      { m_objMapper := { m_devices := [(1, 10)], m_shadermodules := [(3, 30), (4, 40)],
                         m_pipelinelayouts := [(5, 50)], m_renderpasss := [(6, 60)] } }
    let pPacket : packet_vkCreateGraphicsPipelines :=
      { device := 1, createInfoCount := 2,
        pCreateInfos :=
          [{ stageCount := 1, pStages := [{ module := 3 }], layout := 5, renderPass := 6 },
           { stageCount := 1, pStages := [{ module := 4 }], layout := 5, renderPass := 6 }],
        pPipelines := [7, 8] }
    let out := manually_replay_vkCreateGraphicsPipelines interpret
      real_vkCreateGraphicsPipelines self pPacket
    -- what the driver saw, as module handles per create-info
    out.driverSaw.map (fun call =>
        call.pCreateInfos.map (fun createInfo => createInfo.pStages.map (fun s => s.module)))
      = some [[0], [0]]
    -- the lookups of the recorded modules
    ∧ pPacket.pCreateInfos.map (fun createInfo =>
        (createInfo.pStages.take createInfo.stageCount).map
          (fun s => self.m_objMapper.m_shadermodules.lookup s.module))
      = [[30], [40]]
    ∧ out.driverSaw.map (fun call =>
        call.pCreateInfos.map (fun createInfo =>
          (createInfo.layout, createInfo.renderPass, createInfo.basePipelineHandle)))
      = some [(50, 60, 0), (50, 60, 0)] := by
  intro self pPacket out
  refine ⟨?_, ?_, ?_⟩ <;> rfl

/-! ### Replayer initialisation -/

/-- C24 (amended): `vkReplay::init` returns 0 exactly when the library opened, the
display's init succeeded and the window step taken (creation when the display holds no
window handle, adoption otherwise) succeeded.  A library that cannot be opened gives -1;
a failing display step gives that step's own non-zero status, unchanged, so the result is
negative only as far as the display reports failures with negative codes. -/
theorem init_status (libraryOpened : Bool) (disp : DisplaySetup) :
    let windowStep : Int :=
      if disp.get_window_handle = 0 then disp.create_window disp.get_width disp.get_height
      else disp.set_window disp.get_window_handle disp.get_width disp.get_height
    ((init libraryOpened disp).1 = 0 ↔
      (libraryOpened = true ∧ disp.displayInit disp.get_gpu = 0 ∧ windowStep = 0))
    ∧ (libraryOpened = false → (init libraryOpened disp).1 = -1)
    ∧ (libraryOpened = true → disp.displayInit disp.get_gpu ≠ 0 →
        (init libraryOpened disp).1 = disp.displayInit disp.get_gpu)
    ∧ (libraryOpened = true → disp.displayInit disp.get_gpu = 0 →
        (init libraryOpened disp).1 = windowStep)
    ∧ (disp.displayInit disp.get_gpu ≤ 0 → windowStep ≤ 0 →
        (init libraryOpened disp).1 ≠ 0 → (init libraryOpened disp).1 < 0) := by
  intro windowStep
  cases libraryOpened with
  | false => simp [init]
  | true =>
    by_cases hd : disp.displayInit disp.get_gpu = 0
    · by_cases hw : disp.get_window_handle = 0
      · by_cases hc : disp.create_window disp.get_width disp.get_height = 0
        · simp [init, hd, hw, hc, windowStep]
        · simp [init, hd, hw, hc, windowStep]
          intro hle; omega
      · by_cases hs : disp.set_window disp.get_window_handle disp.get_width disp.get_height = 0
        · simp [init, hd, hw, hs, windowStep]
        · simp [init, hd, hw, hs, windowStep]
          intro hle; omega
    · simp [init, hd]
      intro hle _; omega

/-- C24 (counterexample): the library opens and the display's init fails with status 1;
`vkReplay::init` reports the failure with status 1, which is not negative. -/
theorem init_display_failure_positive_counterexample :
    let disp : DisplaySetup :=
      { displayInit := fun _ => 1, create_window := fun _ _ => 0,
        set_window := fun _ _ _ => 0 }
    disp.displayInit disp.get_gpu ≠ 0
    ∧ (init true disp).1 = 1
    ∧ ¬ (init true disp).1 < 0
    ∧ (init true disp).2 = [vktrace_LogError "Failed to init vulkan display."] := by
  intro disp
  refine ⟨by decide, rfl, by decide, rfl⟩

/-! ### Queue submit: scratch arrays -/

/-- C25 (code defect): `manually_replay_vkQueueSubmit` does not release every scratch array
it allocated.  With one submit holding a mapped command buffer and an unmapped wait
semaphore the handler returns from the wait-semaphore loop having released the submit array
and the wait-semaphore array only: the command-buffer array of that submit is never
released.  On the normal path with two submits that both carry command buffers, only the
array of the last submit is released. -/
theorem queueSubmit_scratch_not_all_released :
    let self : vkReplay :=
      { m_objMapper := { m_queues := [(1, 10)], m_commandbuffers := [(2, 20)] } }
    let aborted : packet_vkQueueSubmit :=
      { queue := 1, submitCount := 1,
        pSubmits := [{ commandBufferCount := 1, pCommandBuffers := some [2],
                       waitSemaphoreCount := 1, pWaitSemaphores := some [3] }] }
    let completed : packet_vkQueueSubmit :=
      { queue := 1, submitCount := 2,
        pSubmits := [{ commandBufferCount := 1, pCommandBuffers := some [2] },
                     { commandBufferCount := 1, pCommandBuffers := some [2] }] }
    manually_replay_vkQueueSubmit_scratch self aborted =
        { allocated := [SubmitScratchArray.remappedSubmits,
                        SubmitScratchArray.pRemappedBuffers 0,
                        SubmitScratchArray.pRemappedWaitSems 0],
          released := [SubmitScratchArray.remappedSubmits,
                       SubmitScratchArray.pRemappedWaitSems 0] }
    ∧ (manually_replay_vkQueueSubmit (fun _ => VK_SUCCESS) self aborted).driverSaw = none
    ∧ manually_replay_vkQueueSubmit_scratch self completed =
        { allocated := [SubmitScratchArray.remappedSubmits,
                        SubmitScratchArray.pRemappedBuffers 0,
                        SubmitScratchArray.pRemappedBuffers 1],
          released := [SubmitScratchArray.pRemappedBuffers 1,
                       SubmitScratchArray.remappedSubmits] }
    ∧ (manually_replay_vkQueueSubmit (fun _ => VK_SUCCESS) self completed).replayResult
        = VK_SUCCESS := by
  intro self aborted completed
  refine ⟨?_, ?_, ?_, ?_⟩ <;> decide

/-! ### Swapchain images -/

/-- C29 (code defect): `manually_replay_vkGetSwapchainImagesKHR` on a packet with a non-null
`pSwapchainImages` and a recorded `*pSwapchainImageCount` of 129 writes `packetImage[128]`,
one past the 128 entries of the local array, whatever the driver and the maps are. -/
theorem getSwapchainImages_writes_past_packetImage
    (real_vkGetSwapchainImagesKHR : GetSwapchainImagesCall → VkResult × Nat × List Handle)
    (self : vkReplay) (images : List Handle) :
    let pPacket : packet_vkGetSwapchainImagesKHR :=
      { device := 1, swapchain := 2, pSwapchainImageCount := 129,
        pSwapchainImages := some images }
    packetImageCapacity ∈ List.range (numImages pPacket)
    ∧ manually_replay_vkGetSwapchainImagesKHR real_vkGetSwapchainImagesKHR self pPacket
        = none := by
  intro pPacket
  have hany : (List.range 129).any (fun i => decide (packetImageCapacity ≤ i)) = true := by
    decide
  refine ⟨?_, ?_⟩
  · simp [numImages, pPacket, packetImageCapacity]
  · simp only [manually_replay_vkGetSwapchainImagesKHR, numImages, pPacket, hany, if_true]

/-- Within the 128 entries of `packetImage` and for distinct non-null recorded images,
`manually_replay_vkGetSwapchainImagesKHR` on driver success maps each saved recorded image
to the live image the driver wrote at the same index. -/
theorem getSwapchainImages_maps_saved_images
    (real_vkGetSwapchainImagesKHR : GetSwapchainImagesCall → VkResult × Nat × List Handle)
    (self : vkReplay) (pPacket : packet_vkGetSwapchainImagesKHR) (recorded : List Handle)
    (hrec : pPacket.pSwapchainImages = some recorded)
    (hcount : pPacket.pSwapchainImageCount ≤ 128)
    (hpos : pPacket.pSwapchainImageCount ≠ 0)
    (hok : (real_vkGetSwapchainImagesKHR
      { device := self.m_objMapper.m_devices.lookup pPacket.device,
        swapchain := self.m_objMapper.m_swapchainkhrs.lookup pPacket.swapchain,
        pSwapchainImageCount := pPacket.pSwapchainImageCount,
        pSwapchainImages := pPacket.pSwapchainImages }).1 = VK_SUCCESS)
    (hnodup : (recorded.take pPacket.pSwapchainImageCount).Nodup) :
    ∃ out, manually_replay_vkGetSwapchainImagesKHR real_vkGetSwapchainImagesKHR self pPacket
        = some out
      ∧ out.packetImageWritten = List.range pPacket.pSwapchainImageCount
      ∧ (∀ i ∈ out.packetImageWritten, i < packetImageCapacity)
      ∧ ∀ (i : Nat) (r l : Handle), i < pPacket.pSwapchainImageCount →
          recorded[i]? = some r → r ≠ VK_NULL_HANDLE →
          (real_vkGetSwapchainImagesKHR
            { device := self.m_objMapper.m_devices.lookup pPacket.device,
              swapchain := self.m_objMapper.m_swapchainkhrs.lookup pPacket.swapchain,
              pSwapchainImageCount := pPacket.pSwapchainImageCount,
              pSwapchainImages := pPacket.pSwapchainImages }).2.2[i]? = some l →
          out.self.m_objMapper.m_images.lookup r = l := by
  have hany : (List.range pPacket.pSwapchainImageCount).any
      (fun i => decide (packetImageCapacity ≤ i)) = false := by
    rw [List.any_eq_false]
    intro i hi
    have := List.mem_range.mp hi
    simp [packetImageCapacity]
    omega
  rw [hrec] at hok
  simp only [manually_replay_vkGetSwapchainImagesKHR, numImages, hrec, hany, hok,
    Bool.false_eq_true, if_false, ne_eq, hpos, not_false_eq_true, and_self, if_true,
    Option.map_some', Option.getD_some]
  refine ⟨_, rfl, rfl, ?_, ?_⟩
  · intro i hi
    have := List.mem_range.mp hi
    simp [packetImageCapacity]
    omega
  · intro i r l hi hr hrne hl
    have hlook := lookup_foldl_insert_zip (recorded.take pPacket.pSwapchainImageCount)
      ((real_vkGetSwapchainImagesKHR
        { device := self.m_objMapper.m_devices.lookup pPacket.device,
          swapchain := self.m_objMapper.m_swapchainkhrs.lookup pPacket.swapchain,
          pSwapchainImageCount := pPacket.pSwapchainImageCount,
          pSwapchainImages := some recorded }).2.2.take pPacket.pSwapchainImageCount)
      self.m_objMapper.m_images hnodup i r l
      (by rw [List.getElem?_take]; simp [hi, hr])
      (by rw [List.getElem?_take]; simp [hi]; exact hl)
    show HandleMap.lookup _ r = l
    simp only [HandleMap.lookup, if_neg hrne]
    erw [hlook]

/-! ### Swapchain present: scratch arrays -/

theorem waitLoopIterations_le (m : HandleMap) (l : List Handle) :
    waitLoopIterations m l ≤ l.length := by
  induction l with
  | nil => simp [waitLoopIterations]
  | cons h rest ih =>
    simp only [waitLoopIterations, List.length_cons]
    split <;> omega

theorem waitLoopIterations_take_le (m : HandleMap) (l : List Handle) (count : Nat) :
    waitLoopIterations m (l.take count) ≤ count :=
  Nat.le_trans (waitLoopIterations_le m _) (by simp)

/-- C28: every index `manually_replay_vkQueuePresentKHR` or the driver uses on the
remapped-swapchain, remapped-wait-semaphore and result arrays is below the capacity of the
array in use; an on-stack array has capacity 5 and is in use only when its count is at most
5 (or, for the result array, when no access is made through it), a heap array has its count
as capacity; the result array is indexed only when the packet requested per-swapchain
results. -/
theorem queuePresent_scratch_indices_in_bounds
    (scratch : PresentScratch) (self : vkReplay) (pPacket : packet_vkQueuePresentKHR)
    (a : PresentAccess)
    (ha : a ∈ manually_replay_vkQueuePresentKHR_accesses scratch self pPacket) :
    a.index < a.capacity
    ∧ (a.onStack = true →
        a.capacity = 5 ∧ presentArrayCount pPacket.pPresentInfo a.array ≤ 5)
    ∧ (a.onStack = false → a.capacity = presentArrayCount pPacket.pPresentInfo a.array)
    ∧ (a.array = PresentArray.pResults → pPacket.pPresentInfo.pResults ≠ none) := by
  have hw := waitLoopIterations_take_le self.m_objMapper.m_semaphores
    pPacket.pPresentInfo.pWaitSemaphores pPacket.pPresentInfo.waitSemaphoreCount
  have hsw : ∀ i, i < pPacket.pPresentInfo.swapchainCount →
      ∀ b : PresentAccess, b = 
        { array := PresentArray.pRemappedSwapchains, index := i,
          onStack := !decide (pPacket.pPresentInfo.swapchainCount > 5),
          capacity := if decide (pPacket.pPresentInfo.swapchainCount > 5) = true
            then pPacket.pPresentInfo.swapchainCount else 5 } →
      b.index < b.capacity
      ∧ (b.onStack = true →
          b.capacity = 5 ∧ presentArrayCount pPacket.pPresentInfo b.array ≤ 5)
      ∧ (b.onStack = false → b.capacity = presentArrayCount pPacket.pPresentInfo b.array)
      ∧ (b.array = PresentArray.pResults → pPacket.pPresentInfo.pResults ≠ none) := by
    intro i hi b hb
    subst hb
    by_cases h5 : pPacket.pPresentInfo.swapchainCount > 5
    · simp [h5, presentArrayCount, hi]
    · simp [h5, presentArrayCount]; omega
  have hwt : ∀ i, i < waitLoopIterations self.m_objMapper.m_semaphores
        (pPacket.pPresentInfo.pWaitSemaphores.take pPacket.pPresentInfo.waitSemaphoreCount) →
      ∀ b : PresentAccess, b = 
        { array := PresentArray.pRemappedWaitSems, index := i,
          onStack := !decide (pPacket.pPresentInfo.waitSemaphoreCount > 5),
          capacity := if decide (pPacket.pPresentInfo.waitSemaphoreCount > 5) = true
            then pPacket.pPresentInfo.waitSemaphoreCount else 5 } →
      b.index < b.capacity
      ∧ (b.onStack = true →
          b.capacity = 5 ∧ presentArrayCount pPacket.pPresentInfo b.array ≤ 5)
      ∧ (b.onStack = false → b.capacity = presentArrayCount pPacket.pPresentInfo b.array)
      ∧ (b.array = PresentArray.pResults → pPacket.pPresentInfo.pResults ≠ none) := by
    intro i hi b hb
    subst hb
    by_cases h5 : pPacket.pPresentInfo.waitSemaphoreCount > 5
    · simp [h5, presentArrayCount]; omega
    · simp [h5, presentArrayCount]; omega
  have hrs : ∀ (driver : Bool) (i : Nat), i < pPacket.pPresentInfo.swapchainCount →
      pPacket.pPresentInfo.pResults.isSome = true →
      ∀ b : PresentAccess, b = 
        { array := PresentArray.pResults, index := i,
          onStack := !(decide (pPacket.pPresentInfo.swapchainCount > 5) &&
            pPacket.pPresentInfo.pResults.isSome),
          capacity := if (decide (pPacket.pPresentInfo.swapchainCount > 5) &&
              pPacket.pPresentInfo.pResults.isSome) = true
            then pPacket.pPresentInfo.swapchainCount else 5,
          byDriver := driver } →
      b.index < b.capacity
      ∧ (b.onStack = true →
          b.capacity = 5 ∧ presentArrayCount pPacket.pPresentInfo b.array ≤ 5)
      ∧ (b.onStack = false → b.capacity = presentArrayCount pPacket.pPresentInfo b.array)
      ∧ (b.array = PresentArray.pResults → pPacket.pPresentInfo.pResults ≠ none) := by
    intro driver i hi hsome b hb
    subst hb
    have hne : pPacket.pPresentInfo.pResults ≠ none := by
      intro hnone; rw [hnone] at hsome; simp at hsome
    by_cases h5 : pPacket.pPresentInfo.swapchainCount > 5
    · simp [h5, hsome, presentArrayCount, hi, hne]
    · simp [h5, presentArrayCount, hne]; omega
  unfold manually_replay_vkQueuePresentKHR_accesses at ha
  simp only [] at ha
  split at ha
  · simp at ha
  · have hloops : ∀ b : PresentAccess,
        (b ∈ (List.range pPacket.pPresentInfo.swapchainCount).map (fun i =>
          ({ array := PresentArray.pRemappedSwapchains, index := i,
             onStack := !decide (pPacket.pPresentInfo.swapchainCount > 5),
             capacity := if decide (pPacket.pPresentInfo.swapchainCount > 5) = true
               then pPacket.pPresentInfo.swapchainCount else 5 } : PresentAccess)) ++
          (if pPacket.pPresentInfo.waitSemaphoreCount ≠ 0 then
            (List.range (waitLoopIterations self.m_objMapper.m_semaphores
              (pPacket.pPresentInfo.pWaitSemaphores.take
                pPacket.pPresentInfo.waitSemaphoreCount))).map (fun i =>
              ({ array := PresentArray.pRemappedWaitSems, index := i,
                 onStack := !decide (pPacket.pPresentInfo.waitSemaphoreCount > 5),
                 capacity := if decide (pPacket.pPresentInfo.waitSemaphoreCount > 5) = true
                   then pPacket.pPresentInfo.waitSemaphoreCount else 5 } : PresentAccess))
           else [])) →
        b.index < b.capacity
        ∧ (b.onStack = true →
            b.capacity = 5 ∧ presentArrayCount pPacket.pPresentInfo b.array ≤ 5)
        ∧ (b.onStack = false →
            b.capacity = presentArrayCount pPacket.pPresentInfo b.array)
        ∧ (b.array = PresentArray.pResults → pPacket.pPresentInfo.pResults ≠ none) := by
      intro b hb
      rcases List.mem_append.mp hb with h | h
      · obtain ⟨i, hi, rfl⟩ := List.mem_map.mp h
        exact hsw i (List.mem_range.mp hi) _ rfl
      · split at h
        · obtain ⟨i, hi, rfl⟩ := List.mem_map.mp h
          exact hwt i (List.mem_range.mp hi) _ rfl
        · simp at h
    split at ha
    · exact hloops a ha
    · split at ha
      · rename_i recorded hrec
        have hsome : pPacket.pPresentInfo.pResults.isSome = true := by
          rw [hrec]; rfl
        rcases List.mem_append.mp ha with h | h
        · rcases List.mem_append.mp h with h | h
          · exact hloops a h
          · obtain ⟨i, hi, rfl⟩ := List.mem_map.mp h
            exact hrs true i (List.mem_range.mp hi) hsome _ rfl
        · obtain ⟨i, hi, rfl⟩ := List.mem_map.mp h
          exact hrs false i (List.mem_range.mp hi) hsome _ rfl
      · exact hloops a ha

/-- C28 (witness): six swapchains with per-swapchain results requested; the driver's write
of result 5 goes to a heap array of six entries. -/
theorem queuePresent_scratch_indices_in_bounds_witness :
    let pPacket : packet_vkQueuePresentKHR :=
      { queue := 1,
        pPresentInfo := { swapchainCount := 6, pSwapchains := [1, 2, 3, 4, 5, 6],
                          pImageIndices := [0, 0, 0, 0, 0, 0],
                          pResults := some [0, 0, 0, 0, 0, 0] } }
    let a : PresentAccess :=
      { array := PresentArray.pResults, index := 5, onStack := false, capacity := 6,
        byDriver := true }
    a ∈ manually_replay_vkQueuePresentKHR_accesses {} {} pPacket
    ∧ (a.index < a.capacity
      ∧ (a.onStack = true →
          a.capacity = 5 ∧ presentArrayCount pPacket.pPresentInfo a.array ≤ 5)
      ∧ (a.onStack = false → a.capacity = presentArrayCount pPacket.pPresentInfo a.array)
      ∧ (a.array = PresentArray.pResults → pPacket.pPresentInfo.pResults ≠ none)) := by
  intro pPacket a
  exact ⟨by decide, queuePresent_scratch_indices_in_bounds {} {} pPacket a (by decide)⟩

end VkReplay
